import Mathlib

/-!
# VibeJamSite: a shallow embedding of the preference store, the theme manager,
the music synthesiser's control logic and the cityscape module (scene
construction, per-frame update, resize, placeholder assets, fallback view)

Conventions of the embedding.

* JavaScript numbers are idealised as rationals (`ℚ`): the positions, speeds and
  viewport sizes the scene computes with are sums and products of such numbers,
  and rounding of doubles is not modelled.
* `localStorage` is an association list from string keys to string values.
* Calls into the rendering engine (Phaser), the audio library (Tone.js) and the
  browser are assumed to return normally, except where a function takes a record
  of failures (`Faults`, `AssetEnv`, `SiteEnv`) that says which calls raise an
  exception.  Where the repository's own code can raise a `TypeError` (a method
  call on `undefined`/`null`), or pass on an exception, the function returns a
  `Run` that records the state reached when the exception left it.
* Values that the environment supplies (`Math.random()`, measured text widths,
  data URLs) are arguments of the functions that draw them.
-/

namespace VibeJam

/-! ## src/js/storageManager.js -/

/-- The browser's `localStorage`: string keys bound to string values. -/
abbrev Storage := List (String × String)

/-- Call `localStorage.getItem(key)`: the bound value, `none` (JavaScript `null`) when
the key is absent. -/
def Storage.getItem (s : Storage) (key : String) : Option String :=
  s.lookup key

/-- Call `localStorage.setItem(key, value)`: binds `key` to `value`, replacing any
earlier binding. -/
def Storage.setItem (s : Storage) (key value : String) : Storage :=
  (key, value) :: s.filter (fun p => p.1 != key)

/-- Value of `KEYS.THEME`. -/
def KEYS_THEME : String := "theme"

/-- Value of `KEYS.MUSIC`. -/
def KEYS_MUSIC : String := "music"

/-- Function `getItem(key, defaultValue)`: `value !== null ? value : defaultValue`.
A `none` default is JavaScript `null`, the value the parameter takes when the
caller passes no default. -/
def getItem (s : Storage) (key : String) (defaultValue : Option String) :
    Option String :=
  match s.getItem key with
  | some value => some value
  | none => defaultValue

/-- Function `setItem(key, value)`. -/
def setItem (s : Storage) (key value : String) : Storage :=
  s.setItem key value

/-- Function `getThemePreference()`: `getItem(KEYS.THEME, 'dark')`. -/
def getThemePreference (s : Storage) : Option String :=
  getItem s KEYS_THEME (some "dark")

/-- Function `setThemePreference(theme)`. -/
def setThemePreference (s : Storage) (theme : String) : Storage :=
  setItem s KEYS_THEME theme

/-- Function `getMusicPreference()`: `getItem(KEYS.MUSIC, 'off')`. -/
def getMusicPreference (s : Storage) : Option String :=
  getItem s KEYS_MUSIC (some "off")

/-- Function `setMusicPreference(state)`. -/
def setMusicPreference (s : Storage) (state : String) : Storage :=
  setItem s KEYS_MUSIC state

/-! ## src/js/musicSynth.js and src/js/vibeJamApp.js -/

/-- Outcome of running a piece of the page's code: it either ran to its end or
left by an exception; both carry the state reached. -/
inductive Run (σ : Type) where
  | done (s : σ)
  | threw (s : σ)

/-- The state a run ended in. -/
def Run.state {σ : Type} : Run σ → σ
  | .done s => s
  | .threw s => s

/-- Whether a run left by an exception. -/
def Run.hasThrown {σ : Type} : Run σ → Bool
  | .done _ => false
  | .threw _ => true

/-- Sequencing of runs: an exception skips the rest. -/
def Run.andThen {σ : Type} (r : Run σ) (f : σ → Run σ) : Run σ :=
  match r with
  | .done s => f s
  | .threw s => .threw s

/-- Value of `arpChords.cMaj9`. -/
def cMaj9 : List String := ["C3", "E3", "G3", "B3", "D4"]

/-- Value of `arpChords.ebMaj9`. -/
def ebMaj9 : List String := ["Eb3", "G3", "Bb3", "D4", "F4"]

/-- Value of `arpChords.fMaj9`. -/
def fMaj9 : List String := ["F3", "A3", "C4", "E4", "G4"]

/-- Value of `arpChords.fMin9`. -/
def fMin9 : List String := ["F3", "Ab3", "C4", "Eb4", "G4"]

/-- Value of `chordSequence`. -/
def chordSequence : List (List String) := [cMaj9, ebMaj9, fMaj9, fMin9]

/-- The part of the page the music module reads and writes: the browser state it
touches (`localStorage`, the class list of `document.body`, the `musicToggle`
element, the Tone.js context and transport) and the module's closure variables
(`musicPlaying`, `arpeggiator`, `currentChord`, `currentNote`). -/
structure Page where
  /-- Value of `localStorage`. -/
  localStorage : Storage
  /-- Value of `document.body.classList`. -/
  bodyClasses : List String
  /-- Whether `document.getElementById('musicToggle')` finds an element. -/
  hasMusicToggle : Bool
  /-- Number of click listeners registered on the `musicToggle` element. -/
  clickListeners : Nat
  /-- Whether `Tone.context.state` is `'running'`. -/
  contextRunning : Bool
  /-- Whether `Tone.context.resume()` has been called. -/
  resumeCalled : Bool
  /-- Value of `Tone.Transport.bpm.value`. -/
  transportBpm : Nat
  /-- Whether `Tone.Transport.start()` has been called. -/
  transportStarted : Bool
  /-- Whether `setupSynth` has built the synth and its effect chain. -/
  synthReady : Bool
  /-- Closure variable `musicPlaying`. -/
  musicPlaying : Bool
  /-- Closure variable `arpeggiator`: `none` while undefined, `some r` once the
  `Tone.Loop` exists, `r` telling whether the loop is started. -/
  arpeggiator : Option Bool
  /-- Closure variable `currentChord`. -/
  currentChord : Nat
  /-- Closure variable `currentNote`. -/
  currentNote : Nat
  /-- The notes passed to `synth.triggerAttackRelease`, oldest first; `none` is
  `undefined`. -/
  triggered : List (Option String)
deriving DecidableEq, Repr

/-- The page as the scripts find it when they are loaded: the module variables
hold their initialisers (`musicPlaying = false`, `currentChord = 0`,
`currentNote = 0`, `arpeggiator` undefined); the browser side is given. -/
def Page.load (storage : Storage) (bodyClasses : List String) (hasMusicToggle : Bool)
    (contextRunning : Bool) : Page :=
  { localStorage := storage, bodyClasses := bodyClasses, hasMusicToggle := hasMusicToggle,
    clickListeners := 0, contextRunning := contextRunning, resumeCalled := false,
    transportBpm := 120, transportStarted := false, synthReady := false,
    musicPlaying := false, arpeggiator := none, currentChord := 0, currentNote := 0,
    triggered := [] }

/-- Call `classList.add(c)`. -/
def classListAdd (cs : List String) (c : String) : List String :=
  if c ∈ cs then cs else cs ++ [c]

/-- Call `classList.remove(c)`. -/
def classListRemove (cs : List String) (c : String) : List String :=
  cs.filter (fun d => d != c)

/-- Function `setupSynth()`: builds the synth and its effects. -/
def setupSynth (p : Page) : Page :=
  { p with synthReady := true }

/-- The callback given to `Tone.Loop` in `setupArpeggiator`, run once.  Looking
up `chordSequence[currentChord][currentNote]` raises a `TypeError` when
`chordSequence[currentChord]` is undefined. -/
def arpCallback (p : Page) : Run Page :=
  match chordSequence[p.currentChord]? with
  | none => .threw p
  | some chord =>
    let note := chord[p.currentNote]?
    let p1 := { p with triggered := p.triggered ++ [note] }
    let p2 := { p1 with currentNote := (p1.currentNote + 1) % chord.length }
    if p2.currentNote = 0 then
      .done { p2 with currentChord := (p2.currentChord + 1) % chordSequence.length }
    else
      .done p2

/-- The loop callback run `n` times in a row. -/
def arpSteps : Nat → Page → Page
  | 0, p => p
  | n + 1, p => arpSteps n (arpCallback p).state

/-- Function `setupArpeggiator()`: creates the loop (not started). -/
def setupArpeggiator (p : Page) : Page :=
  { p with arpeggiator := some false }

/-- Function `startMusic()`. -/
def startMusic (p : Page) : Run Page :=
  let p1 := if p.contextRunning then p else { p with resumeCalled := true }
  let p2 := { p1 with transportBpm := 130, transportStarted := true }
  match p2.arpeggiator with
  | none => .threw p2
  | some _ =>
    .done { p2 with
      arpeggiator := some true
      musicPlaying := true
      bodyClasses := classListAdd p2.bodyClasses "music-on"
      localStorage := setMusicPreference p2.localStorage "on" }

/-- Function `stopMusic()`. -/
def stopMusic (p : Page) : Run Page :=
  match p.arpeggiator with
  | none => .threw p
  | some _ =>
    .done { p with
      arpeggiator := some false
      musicPlaying := false
      bodyClasses := classListRemove p.bodyClasses "music-on"
      localStorage := setMusicPreference p.localStorage "off" }

/-- Function `isPlaying()`. -/
def isPlaying (p : Page) : Bool :=
  p.musicPlaying

/-- The click listener that `setupMusicToggle` registers on `musicToggle`. -/
def musicToggleClick (p : Page) : Run Page :=
  if p.musicPlaying then stopMusic p else startMusic p

/-- Function `setupMusicToggle()`: starts the music when the stored preference is `'on'`,
then registers the click listener; `musicToggle.addEventListener` raises a
`TypeError` when the element does not exist. -/
def setupMusicToggle (p : Page) : Run Page :=
  let r := if getMusicPreference p.localStorage = some "on" then startMusic p else .done p
  r.andThen fun q =>
    if q.hasMusicToggle then .done { q with clickListeners := q.clickListeners + 1 }
    else .threw q

/-- Function `musicSynth.init()`. -/
def musicSynthInit (p : Page) : Run Page :=
  setupMusicToggle (setupArpeggiator (setupSynth p))

/-- Function `vibeJamApp.toggleMusic()`. -/
def toggleMusic (p : Page) : Run Page :=
  if isPlaying p then stopMusic p else startMusic p

/-! ## src/js/cityscapeGame.js: scene records -/

/-- A call on a Phaser `Graphics` object, with its arguments.  A colour of `none`
is `undefined`. -/
inductive DrawCmd where
  | fillStyle (color : Option Nat) (alpha : ℚ)
  | fillRect (x y width height : ℚ)
  | fillCircle (x y radius : ℚ)
  | lineStyle (lineWidth : ℚ) (color : Nat) (alpha : ℚ)
  | lineBetween (x1 y1 x2 y2 : ℚ)
  | beginPath
  | moveTo (x y : ℚ)
  | lineTo (x y : ℚ)
  | strokePath
  | strokeRect (x y width height : ℚ)
deriving DecidableEq, Repr

/-- A Phaser `Graphics` object (`this.add.graphics()`): its own position and the
drawing calls made on it since it was created or last cleared. -/
structure Graphics where
  x : ℚ
  y : ℚ
  cmds : List DrawCmd
deriving DecidableEq, Repr

/-- Call `this.add.graphics()`: a fresh object at the origin with nothing drawn. -/
def Graphics.fresh : Graphics := { x := 0, y := 0, cmds := [] }

/-- Call `graphics.clear()`. -/
def Graphics.clear (g : Graphics) : Graphics := { g with cmds := [] }

/-- Further drawing calls on a graphics object. -/
def Graphics.draw (g : Graphics) (cs : List DrawCmd) : Graphics :=
  { g with cmds := g.cmds ++ cs }

/-- A Phaser sprite (`this.add.sprite(x, y, key)`). -/
structure Sprite where
  x : ℚ
  y : ℚ
deriving DecidableEq, Repr

/-- A Phaser rectangle (`this.add.rectangle(x, y, width, height, fillColor)`). -/
structure Rectangle where
  x : ℚ
  y : ℚ
  width : ℚ
  height : ℚ
  fillColor : Nat
deriving DecidableEq, Repr

/-- A Phaser text object (`this.add.text(x, y, text, style)`). -/
structure Text where
  x : ℚ
  y : ℚ
  text : String
deriving DecidableEq, Repr

/-- An entry of `vehicleTypes`. -/
structure VehicleType where
  type : String
  width : ℚ
  height : ℚ
  colors : List Nat
  wheelSize : ℚ
deriving DecidableEq, Repr

/-- A record of `this.vehicles`. -/
structure Vehicle where
  graphics : Graphics
  x : ℚ
  y : ℚ
  direction : ℚ
  speed : ℚ
  type : VehicleType
deriving DecidableEq, Repr

/-- The `content` field of a billboard record: the array of text objects that
`createClickableContent` returns (records of `createBillboards`), or one text
object (records of `createSimplifiedBillboards`). -/
inductive BillboardContent where
  | texts (objects : List Text)
  | text (object : Text)
deriving DecidableEq, Repr

/-- A record of the module's `billboards` array.  `container` is the alpha of the
record's `container` graphics, `none` when the record has no `container` field;
`title` is the text of the record's title object, placed at `(titleX, titleY)`;
`support`, `frame` and `isMobile` are `none` in records without these fields.
The three flags tell whether `destroy()` has been called on the container, the
title and the content object. -/
structure Billboard where
  container : Option ℚ
  title : String
  titleX : ℚ := 0
  titleY : ℚ := 0
  content : BillboardContent := .texts []
  support : Option Graphics := none
  frame : Option Graphics := none
  isMobile : Option Bool := none
  containerDestroyed : Bool := false
  titleDestroyed : Bool := false
  contentDestroyed : Bool := false
deriving DecidableEq, Repr

/-- What a texture of the texture manager was made from: an image decoded from
a data URL (`textures.addImage`), or a canvas of the given size filled with a
colour (`textures.addCanvas`), `detailed` telling whether the shape helper drew
on it. -/
inductive TextureSource where
  | image (dataURL : String)
  | canvas (width height : Nat) (color : String) (detailed : Bool)
deriving DecidableEq, Repr

/-- A building image of `createCityscape` (`this.add.image(x, y, key)` with origin
(0, 1), the scale and the tint set on it): the display objects whose texture key
includes `'building'`. -/
structure BuildingImage where
  key : String
  x : ℚ
  y : ℚ
  scaleX : ℚ
  scaleY : ℚ
  tint : ℤ
deriving DecidableEq, Repr

/-- A timer event registered with `this.time.addEvent`. -/
structure TimerEvent where
  delay : ℚ
  callback : String
  loop : Bool
deriving DecidableEq, Repr

/-- A tween registered with `this.tweens.add`, as far as it is told apart here:
the number of its targets. -/
structure Tween where
  targets : Nat
  duration : ℚ
deriving DecidableEq, Repr

/-- A record of `this.airplanes` as `createSponsors` builds it: the plane is a
sprite (`createAirplane` returns the sprite whenever `this.add.sprite` returns). -/
structure SpriteAirplane where
  plane : Sprite
  banner : Rectangle
  outline : Rectangle
  text : Text
  rope : Graphics
  direction : ℚ
  speed : ℚ
deriving DecidableEq, Repr

/-- A record of `this.airplanes` as `createFallbackScene` builds it: plane,
banner and rope are graphics objects (`plane.type === 'Graphics'`) and the
record carries its own `x`. -/
structure FallbackAirplane where
  plane : Graphics
  banner : Graphics
  text : Text
  rope : Graphics
  x : ℚ
  direction : ℚ
  speed : ℚ
deriving DecidableEq, Repr

/-- A record of `this.airplanes`: one of the two shapes the module builds. -/
inductive Airplane where
  | sprite (a : SpriteAirplane)
  | fallback (a : FallbackAirplane)
deriving DecidableEq, Repr

/-- The state the scene's methods read and write: the game configuration, the
entity arrays that `update` works on, the texture manager, the cached assets,
the building images on the display list, the registered timer events and tweens,
and the error log. -/
structure Scene where
  /-- Value of `this.sys.game.config.width` (the same object as `this.game.config`). -/
  width : ℚ
  /-- Value of `this.sys.game.config.height`. -/
  height : ℚ
  /-- The module variable `gameWidth`. -/
  gameWidth : ℚ
  /-- Value of `this.vehicles` (empty while undefined: `update` treats both alike). -/
  vehicles : List Vehicle
  /-- The module variable `billboards`. -/
  billboards : List Billboard
  /-- Value of `this.airplanes` (empty while undefined: `update` treats both alike). -/
  airplanes : List Airplane
  /-- The texture manager `this.textures`: keys with what each was made from. -/
  textures : List (String × TextureSource) := []
  /-- The browser's `localStorage`, where the placeholder images are cached. -/
  localStorage : Storage := []
  /-- The display objects of `this.children.list` whose texture key includes
  `'building'`. -/
  buildings : List BuildingImage := []
  /-- The timer events registered with `this.time.addEvent`. -/
  timeEvents : List TimerEvent := []
  /-- The tweens registered with `this.tweens.add`. -/
  tweens : List Tween := []
  /-- The messages passed to `console.error`, oldest first. -/
  errors : List String := []
deriving DecidableEq, Repr

/-! ## src/js/cityscapeGame.js: building the sponsor airplanes -/

/-- Function `createSponsors()`, its `try` block: builds the two sprite airplanes with
banner, outline, text and rope and stores them in `this.airplanes`. -/
def createSponsors (s : Scene) : Scene :=
  let height := s.height
  let boltPlane : Sprite :=
    { x := 100, y := if s.gameWidth < 768 then height - 480 else height - 420 }
  let boltBanner : Rectangle :=
    { x := boltPlane.x - 350, y := boltPlane.y + 20, width := 250, height := 80,
      fillColor := 0xff3366 }
  let boltOutline : Rectangle :=
    { x := boltPlane.x - 350, y := boltPlane.y + 20, width := 254, height := 84,
      fillColor := 0xffffff }
  let boltText : Text :=
    { x := boltBanner.x, y := boltBanner.y, text := "Sponsored by\n@boltdotnew" }
  let boltRope : Graphics :=
    Graphics.fresh.draw
      [.lineStyle 2 0xffffff 1,
       .lineBetween (boltPlane.x - 50) (boltPlane.y + 10) (boltBanner.x + 150) boltBanner.y]
  let rabbitPlane : Sprite :=
    { x := s.width - 100, y := if s.gameWidth < 768 then height - 520 else height - 460 }
  let rabbitBanner : Rectangle :=
    { x := rabbitPlane.x + 350, y := rabbitPlane.y + 20, width := 250, height := 80,
      fillColor := 0x33ccff }
  let rabbitOutline : Rectangle :=
    { x := rabbitPlane.x + 350, y := rabbitPlane.y + 20, width := 254, height := 84,
      fillColor := 0xffffff }
  let rabbitText : Text :=
    { x := rabbitBanner.x, y := rabbitBanner.y, text := "Sponsored by\n@coderabbitai" }
  let rabbitRope : Graphics :=
    Graphics.fresh.draw
      [.lineStyle 2 0xffffff 1,
       .lineBetween (rabbitPlane.x + 50) (rabbitPlane.y + 10) (rabbitBanner.x - 150)
         rabbitBanner.y]
  { s with airplanes :=
      [ .sprite { plane := boltPlane, banner := boltBanner, outline := boltOutline,
                  text := boltText, rope := boltRope, direction := 1, speed := 2 },
        .sprite { plane := rabbitPlane, banner := rabbitBanner, outline := rabbitOutline,
                  text := rabbitText, rope := rabbitRope, direction := -1, speed := 2 } ] }

/-- The shape of a fallback airplane flying left to right, drawn with its tail
at `x` (the same calls in `createFallbackScene` and in `update`). -/
def planeShapeRight (x planeY planeWidth planeHeight : ℚ) : List DrawCmd :=
  [ .fillStyle (some 0xdddddd) 1,
    .fillRect x planeY (planeWidth * 0.7) (planeHeight * 0.4),
    .fillStyle (some 0x88ccff) 1,
    .fillRect (x + planeWidth * 0.5) (planeY - planeHeight * 0.1) (planeWidth * 0.15)
      (planeHeight * 0.3),
    .fillStyle (some 0xdddddd) 1,
    .fillRect (x - planeWidth * 0.05) planeY (planeWidth * 0.15) (planeHeight * 0.3),
    .fillRect x (planeY - planeHeight * 0.3) (planeWidth * 0.1) (planeHeight * 0.4),
    .fillStyle (some 0xcccccc) 1,
    .fillRect (x + planeWidth * 0.2) (planeY + planeHeight * 0.2) (planeWidth * 0.5)
      (planeHeight * 0.1),
    .fillStyle (some 0x444444) 1,
    .fillCircle (x + planeWidth * 0.75) (planeY + planeHeight * 0.2) (planeHeight * 0.12) ]

/-- The mirrored shape of a fallback airplane flying right to left. -/
def planeShapeLeft (x planeY planeWidth planeHeight : ℚ) : List DrawCmd :=
  [ .fillStyle (some 0xdddddd) 1,
    .fillRect (x - planeWidth * 0.7) planeY (planeWidth * 0.7) (planeHeight * 0.4),
    .fillStyle (some 0x88ccff) 1,
    .fillRect (x - planeWidth * 0.65) (planeY - planeHeight * 0.1) (planeWidth * 0.15)
      (planeHeight * 0.3),
    .fillStyle (some 0xdddddd) 1,
    .fillRect (x - planeWidth * 0.1) planeY (planeWidth * 0.15) (planeHeight * 0.3),
    .fillRect (x - planeWidth * 0.1) (planeY - planeHeight * 0.3) (planeWidth * 0.1)
      (planeHeight * 0.4),
    .fillStyle (some 0xcccccc) 1,
    .fillRect (x - planeWidth * 0.7) (planeY + planeHeight * 0.2) (planeWidth * 0.5)
      (planeHeight * 0.1),
    .fillStyle (some 0x444444) 1,
    .fillCircle (x - planeWidth * 0.75) (planeY + planeHeight * 0.2) (planeHeight * 0.12) ]

/-- Function `createFallbackScene()`, as far as the scene state goes:
`this.children.removeAll()` empties the display list, so no building image is
left on it, and `this.airplanes` is replaced by two simplified airplanes drawn
with graphics objects (the background, the caption and the cards it also adds
are display objects that no method reads). -/
def createFallbackScene (s : Scene) : Scene :=
  let width := s.width
  let height := s.height
  let planeX : ℚ := 0
  let planeY : ℚ := height * 0.15
  let planeWidth : ℚ := 80
  let planeHeight : ℚ := 30
  let boltPlaneGraphics := Graphics.fresh.draw (planeShapeRight planeX planeY planeWidth planeHeight)
  let boltBannerGraphics :=
    Graphics.fresh.draw [.fillStyle (some 0xff3333) 1, .fillRect (planeX + 50) (planeY - 15) 150 30]
  let boltText : Text := { x := planeX + 125, y := planeY, text := "bolt.new" }
  let boltRopeGraphics :=
    Graphics.fresh.draw
      [.lineStyle 2 0xffffff 1, .lineBetween (planeX + 15) (planeY + 5) (planeX + 50) planeY]
  let rabbitX : ℚ := width
  let rabbitY : ℚ := height * 0.3
  let rabbitPlaneGraphics :=
    Graphics.fresh.draw (planeShapeLeft rabbitX rabbitY planeWidth planeHeight)
  let rabbitBannerGraphics :=
    Graphics.fresh.draw
      [.fillStyle (some 0x44bbff) 1, .fillRect (rabbitX - 200) (rabbitY - 15) 150 30]
  let rabbitText : Text := { x := rabbitX - 125, y := rabbitY, text := "CodeRabbit" }
  let rabbitRopeGraphics :=
    Graphics.fresh.draw
      [.lineStyle 2 0xffffff 1, .lineBetween (rabbitX - 15) (rabbitY + 5) (rabbitX - 50) rabbitY]
  { s with
    buildings := []
    airplanes :=
      [ .fallback { plane := boltPlaneGraphics, banner := boltBannerGraphics, text := boltText,
                    rope := boltRopeGraphics, x := 0, direction := 1, speed := 1 },
        .fallback { plane := rabbitPlaneGraphics, banner := rabbitBannerGraphics,
                    text := rabbitText, rope := rabbitRopeGraphics, x := width,
                    direction := -1, speed := 0.8 } ] }

/-! ## src/js/cityscapeGame.js: `update` -/

/-- The drawing calls of `update` for a vehicle whose `type.type` is `'car'`. -/
def carShape (vehicle : Vehicle) : List DrawCmd :=
  let t := vehicle.type
  let roofWidth := t.width * 0.6
  let roofHeight := t.height * 0.5
  let roofX := vehicle.x + (if vehicle.direction = 1 then t.width * 0.2 else t.width * 0.2)
  let windowWidth := roofWidth * 0.4
  let windowHeight := roofHeight * 0.7
  let windowX := roofX + (if vehicle.direction = 1 then roofWidth * 0.1 else roofWidth * 0.5)
  [ .fillStyle t.colors[0]? 1,
    .fillRect vehicle.x (vehicle.y - t.height / 2) t.width t.height,
    .fillRect roofX (vehicle.y - t.height - roofHeight / 2) roofWidth roofHeight,
    .fillStyle (some 0x88ccff) 1,
    .fillRect windowX (vehicle.y - t.height - roofHeight / 2 + roofHeight * 0.15) windowWidth
      windowHeight,
    .fillStyle (some 0x000000) 1,
    .fillCircle (vehicle.x + (if vehicle.direction = 1 then t.width * 0.8 else t.width * 0.2))
      (vehicle.y + t.height / 2 - 2) t.wheelSize,
    .fillCircle (vehicle.x + (if vehicle.direction = 1 then t.width * 0.2 else t.width * 0.8))
      (vehicle.y + t.height / 2 - 2) t.wheelSize,
    .fillStyle (some 0xcccccc) 1,
    .fillCircle (vehicle.x + (if vehicle.direction = 1 then t.width * 0.8 else t.width * 0.2))
      (vehicle.y + t.height / 2 - 2) (t.wheelSize / 2),
    .fillCircle (vehicle.x + (if vehicle.direction = 1 then t.width * 0.2 else t.width * 0.8))
      (vehicle.y + t.height / 2 - 2) (t.wheelSize / 2) ]

/-- The three `fillCircle` calls that `update` makes for a truck's wheels, and
again with half the radius for the rims. -/
def truckWheels (vehicle : Vehicle) (radius : ℚ) : List DrawCmd :=
  let t := vehicle.type
  [ .fillCircle (vehicle.x + (if vehicle.direction = 1 then t.width * 0.2 else t.width * 0.8))
      (vehicle.y + t.height / 2 - 2) radius,
    .fillCircle (vehicle.x + (if vehicle.direction = 1 then t.width * 0.8 else t.width * 0.2))
      (vehicle.y + t.height / 2 - 2) radius,
    .fillCircle (vehicle.x + (if vehicle.direction = 1 then t.width * 0.65 else t.width * 0.35))
      (vehicle.y + t.height / 2 - 2) radius ]

/-- The drawing calls of `update` for a vehicle of any other type (a truck). -/
def truckShape (vehicle : Vehicle) : List DrawCmd :=
  let t := vehicle.type
  let cargoHeight := t.height * 1.2
  let cargoWidth := t.width * 0.7
  let cargoX := vehicle.x + (if vehicle.direction = 1 then t.width * 0.3 else 0)
  let cabinWidth := t.width * 0.3
  let cabinHeight := t.height * 0.8
  let cabinX := vehicle.x + (if vehicle.direction = 1 then 0 else t.width * 0.7)
  let windowWidth := cabinWidth * 0.7
  let windowHeight := cabinHeight * 0.4
  let windowX := cabinX + (if vehicle.direction = 1 then cabinWidth * 0.15 else cabinWidth * 0.15)
  [ .fillStyle t.colors[0]? 1,
    .fillRect cargoX (vehicle.y - cargoHeight / 2) cargoWidth cargoHeight,
    .fillRect cabinX (vehicle.y - cabinHeight / 2) cabinWidth cabinHeight,
    .fillStyle (some 0x88ccff) 1,
    .fillRect windowX (vehicle.y - cabinHeight / 2 + cabinHeight * 0.15) windowWidth windowHeight,
    .fillStyle (some 0x000000) 1 ]
  ++ truckWheels vehicle t.wheelSize
  ++ [ .fillStyle (some 0xcccccc) 1 ]
  ++ truckWheels vehicle (t.wheelSize / 2)

/-- The body of `this.vehicles.forEach(vehicle => ...)` in `update`: advance,
clear and redraw at the new position, then reset the position when the vehicle
has gone off screen. -/
def updateVehicle (width : ℚ) (vehicle : Vehicle) : Vehicle :=
  let vehicle := { vehicle with x := vehicle.x + vehicle.speed * vehicle.direction }
  let vehicle := { vehicle with graphics := vehicle.graphics.clear }
  let vehicle :=
    if vehicle.type.type = "car" then
      { vehicle with graphics := vehicle.graphics.draw (carShape vehicle) }
    else
      { vehicle with graphics := vehicle.graphics.draw (truckShape vehicle) }
  if (vehicle.direction > 0 ∧ vehicle.x > width + vehicle.type.width) ∨
      (vehicle.direction < 0 ∧ vehicle.x < -vehicle.type.width) then
    { vehicle with
      x := if vehicle.direction > 0 then -vehicle.type.width else width + vehicle.type.width }
  else
    vehicle

/-- The body of `billboards.forEach(billboard => ...)` in `update`: a billboard
with a `container` draws `Math.random()` (here the value `draw`) and its
container's alpha drops to 0.7 when the draw exceeds 0.995 (a timer puts it back
to 1 fifty milliseconds later). -/
def updateBillboard (draw : ℚ) (billboard : Billboard) : Billboard :=
  match billboard.container with
  | some _ => if draw > 0.995 then { billboard with container := some 0.7 } else billboard
  | none => billboard

/-- The fallback branch of `this.airplanes.forEach(airplane => ...)` in `update`
(`airplane.plane.type === 'Graphics'`). -/
def updateFallbackAirplane (width : ℚ) (airplane : FallbackAirplane) : FallbackAirplane :=
  let airplane : FallbackAirplane :=
    { airplane with
      plane := airplane.plane.clear, banner := airplane.banner.clear,
      rope := airplane.rope.clear }
  let airplane : FallbackAirplane :=
    { airplane with x := airplane.x + airplane.speed * airplane.direction * 2 }
  let airplane : FallbackAirplane :=
    if (airplane.direction > 0 ∧ airplane.x > width + 50) ∨
        (airplane.direction < 0 ∧ airplane.x < -50) then
      { airplane with x := if airplane.direction > 0 then -50 else width + 50 }
    else
      airplane
  let planeY := airplane.plane.y
  let planeWidth : ℚ := 80
  let planeHeight : ℚ := 30
  let airplane : FallbackAirplane :=
    if airplane.direction > 0 then
      { airplane with
        plane := airplane.plane.draw (planeShapeRight airplane.x planeY planeWidth planeHeight) }
    else
      { airplane with
        plane := airplane.plane.draw (planeShapeLeft airplane.x planeY planeWidth planeHeight) }
  let bannerX := if airplane.direction > 0 then airplane.x + 50 else airplane.x - 200
  let airplane : FallbackAirplane :=
    { airplane with
      banner := airplane.banner.draw
        [ .fillStyle (some (if airplane.direction > 0 then 0xff3333 else 0x44bbff)) 1,
          .fillRect bannerX (airplane.banner.y - 15) 150 30 ] }
  let airplane : FallbackAirplane :=
    { airplane with
      text := { airplane.text with
        x := if airplane.direction > 0 then airplane.x + 125 else airplane.x - 125 } }
  if airplane.direction > 0 then
    { airplane with
      rope := airplane.rope.draw
        [ .lineStyle 2 0xffffff 1, .lineBetween (airplane.x + 15) (planeY + 5) bannerX planeY ] }
  else
    { airplane with
      rope := airplane.rope.draw
        [ .lineStyle 2 0xffffff 1,
          .lineBetween (airplane.x - 15) (planeY + 5) (bannerX + 150) planeY ] }

/-- The regular branch of `this.airplanes.forEach(airplane => ...)` in `update`:
the record has a plane, a banner, a text and a rope, so each of the guards
`if (airplane.banner)`, `if (airplane.text)`, `if (airplane.rope)` is taken. -/
def updateSpriteAirplane (width : ℚ) (airplane : SpriteAirplane) : SpriteAirplane :=
  let speed := airplane.speed * 1.5
  let airplane : SpriteAirplane :=
    { airplane with
      plane := { airplane.plane with x := airplane.plane.x + speed * airplane.direction } }
  let airplane : SpriteAirplane :=
    if airplane.direction > 0 then
      let airplane : SpriteAirplane :=
        { airplane with banner := { airplane.banner with x := airplane.plane.x - 200 } }
      { airplane with text := { airplane.text with x := airplane.banner.x } }
    else
      let airplane : SpriteAirplane :=
        { airplane with banner := { airplane.banner with x := airplane.plane.x + 200 } }
      { airplane with text := { airplane.text with x := airplane.banner.x } }
  let airplane : SpriteAirplane :=
    { airplane with
      rope := airplane.rope.clear.draw
        ([ .lineStyle 2 0xffffff 1, .beginPath ] ++
          (if airplane.direction > 0 then
            [ .moveTo (airplane.plane.x - 30) (airplane.plane.y + 10),
              .lineTo (airplane.banner.x + 150) airplane.banner.y ]
          else
            [ .moveTo (airplane.plane.x + 30) (airplane.plane.y + 10),
              .lineTo (airplane.banner.x - 150) airplane.banner.y ]) ++
          [ .strokePath ]) }
  if (airplane.direction > 0 ∧ airplane.plane.x > width + 200) ∨
      (airplane.direction < 0 ∧ airplane.plane.x < -200) then
    if airplane.direction > 0 then
      let airplane : SpriteAirplane :=
        { airplane with plane := { airplane.plane with x := -200 } }
      let airplane : SpriteAirplane :=
        { airplane with banner := { airplane.banner with x := airplane.plane.x - 200 } }
      { airplane with text := { airplane.text with x := airplane.banner.x } }
    else
      let airplane : SpriteAirplane :=
        { airplane with plane := { airplane.plane with x := width + 200 } }
      let airplane : SpriteAirplane :=
        { airplane with banner := { airplane.banner with x := airplane.plane.x + 200 } }
      { airplane with text := { airplane.text with x := airplane.banner.x } }
  else
    airplane

/-- The body of `this.airplanes.forEach(airplane => ...)` in `update`. -/
def updateAirplane (width : ℚ) : Airplane → Airplane
  | .fallback a => .fallback (updateFallbackAirplane width a)
  | .sprite a => .sprite (updateSpriteAirplane width a)

/-- The billboard pass of `update`; `draws i` is what `Math.random()` returns for
the billboard at index `i`. -/
def updateBillboards (draws : Nat → ℚ) (bs : List Billboard) : List Billboard :=
  (List.range bs.length).zipWith (fun i b => updateBillboard (draws i) b) bs

/-- Function `update()`: one frame tick. -/
def update (draws : Nat → ℚ) (s : Scene) : Scene :=
  let width := s.width
  { s with
    vehicles := s.vehicles.map (updateVehicle width)
    billboards := updateBillboards draws s.billboards
    airplanes := s.airplanes.map (updateAirplane width) }

/-- Run `update` for `n` frames; `draws k` serves the random draws of frame `k`. -/
def ticks (draws : Nat → Nat → ℚ) : Nat → Scene → Scene
  | 0, s => s
  | n + 1, s => update (draws n) (ticks draws n s)

/-! ## Readings of the scene records used in the statements -/

/-- Where an airplane record's plane is: the sprite's `x`, or the record's own
`x` at which the fallback plane is drawn. -/
def Airplane.planeX : Airplane → ℚ
  | .sprite a => a.plane.x
  | .fallback a => a.x

/-- The record's `direction`. -/
def Airplane.direction : Airplane → ℚ
  | .sprite a => a.direction
  | .fallback a => a.direction

/-- The record's `speed`. -/
def Airplane.speed : Airplane → ℚ
  | .sprite a => a.speed
  | .fallback a => a.speed

/-- The horizontal extent (left edge, right edge) of a `fillRect` call. -/
def DrawCmd.rectSpan : DrawCmd → Option (ℚ × ℚ)
  | .fillRect x _ width _ => some (x, x + width)
  | _ => none

/-- The horizontal extents of the rectangles filled on a graphics object. -/
def Graphics.rectSpans (g : Graphics) : List (ℚ × ℚ) :=
  g.cmds.filterMap DrawCmd.rectSpan

/-- A vehicle record as `createVehicles` builds it for a 1200×600 viewport
(first entry of `vehicleTypes`, direction +1, lane `height - 40`, speed 1, the
value of `1 + Math.random() * 1.5` for a draw of 0), after 1300 ticks: it started
at x = -50 and has reached x = -50 + 1300 × 1 = 1250. -/
def vehicleAtRightBound : Vehicle :=
  { graphics := Graphics.fresh, x := 1250, y := 560, direction := 1, speed := 1,
    type := { type := "car", width := 50, height := 25,
              colors := [0xff3366, 0x33ccff, 0x66ff33, 0xffcc00, 0xff6633, 0x9933ff],
              wheelSize := 6 } }

/-- A 1200×600 scene holding that vehicle only. -/
def sceneAtRightBound : Scene :=
  { width := 1200, height := 600, gameWidth := 1200, vehicles := [vehicleAtRightBound],
    billboards := [], airplanes := [] }

/-- A vehicle record of the same kind placed beyond the right-hand bound
(x = 1252 > 1200 + 50). -/
def vehicleBeyondRightBound : Vehicle :=
  { vehicleAtRightBound with x := 1252 }

/-- A 1200×600 scene holding that vehicle only. -/
def sceneBeyondRightBound : Scene :=
  { width := 1200, height := 600, gameWidth := 1200, vehicles := [vehicleBeyondRightBound],
    billboards := [], airplanes := [] }

/-- A 1200×600 scene with nothing built yet, on which `createSponsors` is run. -/
def emptyScene : Scene :=
  { width := 1200, height := 600, gameWidth := 1200, vehicles := [], billboards := [],
    airplanes := [] }

/-! ## src/js/themeManager.js -/

/-- The closure variables of the theme manager: whether `body` has been assigned
`document.body` (it is undefined until `setupThemeToggle` runs), whether
`themeToggle` holds an element, and how many click listeners have been
registered on that element. -/
structure ThemeManager where
  body : Bool
  themeToggle : Bool
  clickListeners : Nat
deriving DecidableEq, Repr

/-- The theme manager as the script leaves it when loaded: nothing assigned. -/
def ThemeManager.load : ThemeManager :=
  { body := false, themeToggle := false, clickListeners := 0 }

/-- Call `classList.contains(c)`. -/
def classListContains (cs : List String) (c : String) : Bool :=
  cs.contains c

/-- Call `classList.toggle(c)`: removes the class when present, adds it
otherwise. -/
def classListToggle (cs : List String) (c : String) : List String :=
  if classListContains cs c then classListRemove cs c else classListAdd cs c

/-- Function `setupThemeToggle()`; `hasThemeToggle` tells whether
`document.getElementById('themeToggle')` finds an element.  The listener is the
one function `toggleTheme`, which an element holds at most once however often it
is added. -/
def setupThemeToggle (hasThemeToggle : Bool) (p : Page) (t : ThemeManager) :
    Page × ThemeManager :=
  let t := { t with body := true }
  let p := { p with bodyClasses := classListRemove p.bodyClasses "light-mode" }
  let p :=
    if getThemePreference p.localStorage = some "light" then
      { p with bodyClasses := classListAdd p.bodyClasses "light-mode" }
    else p
  let t := { t with themeToggle := hasThemeToggle }
  if t.themeToggle then (p, { t with clickListeners := max t.clickListeners 1 }) else (p, t)

/-- Function `toggleTheme()`, the click listener of the theme toggle.  With `body`
still undefined, `body.classList` raises a `TypeError`. -/
def toggleTheme (p : Page) (t : ThemeManager) : Run Page :=
  if t.body then
    let p := { p with bodyClasses := classListToggle p.bodyClasses "light-mode" }
    if classListContains p.bodyClasses "light-mode" then
      .done { p with localStorage := setThemePreference p.localStorage "light" }
    else
      .done { p with localStorage := setThemePreference p.localStorage "dark" }
  else
    .threw p

/-- Function `themeManager.init()`. -/
def themeManagerInit (hasThemeToggle : Bool) (p : Page) (t : ThemeManager) :
    Page × ThemeManager :=
  setupThemeToggle hasThemeToggle p t

/-- Function `getCurrentTheme()`:
`body?.classList.contains('light-mode') ? 'light' : 'dark'`. -/
def getCurrentTheme (p : Page) (t : ThemeManager) : String :=
  if t.body && classListContains p.bodyClasses "light-mode" then "light" else "dark"

/-! ## src/js/cityscapeGame.js and src/cityscapeGame.js: `createVehicles` -/

/-- Indexing a JavaScript array with `Math.floor(q)`: the element at that index,
`none` (`undefined`) when the index is negative or past the end. -/
def jsIndex {α : Type} (l : List α) (q : ℚ) : Option α :=
  if 0 ≤ ⌊q⌋ then l[⌊q⌋.toNat]? else none

/-- Value of `vehicleTypes` in `createVehicles` of src/js/cityscapeGame.js. -/
def vehicleTypes : List VehicleType :=
  [ { type := "car", width := 50, height := 25,
      colors := [0xff3366, 0x33ccff, 0x66ff33, 0xffcc00, 0xff6633, 0x9933ff], wheelSize := 6 },
    { type := "car", width := 50, height := 25,
      colors := [0x666666, 0x888888, 0x444444, 0x555555], wheelSize := 6 } ]

/-- The drawing calls `createVehicles` makes for a car.  They are made on the new
graphics object `vehicle`, reading its `x` and `y` and its `direction`, a
property graphics objects do not have (`none`). -/
def carShapeAtCreation (x y : ℚ) (direction : Option ℚ) (color : Option Nat)
    (t : VehicleType) : List DrawCmd :=
  let roofWidth := t.width * 0.6
  let roofHeight := t.height * 0.5
  let roofX := x + (if direction = some 1 then t.width * 0.2 else t.width * 0.2)
  let windowWidth := roofWidth * 0.4
  let windowHeight := roofHeight * 0.7
  let windowX := roofX + (if direction = some 1 then roofWidth * 0.1 else roofWidth * 0.5)
  [ .fillStyle color 1,
    .fillRect x (y - t.height / 2) t.width t.height,
    .fillStyle color 1,
    .fillRect roofX (y - t.height / 2 - roofHeight / 4) roofWidth roofHeight,
    .fillStyle (some 0x88ccff) 1,
    .fillRect windowX (y - t.height / 2 - roofHeight / 2 + roofHeight * 0.15) windowWidth
      windowHeight,
    .fillStyle (some 0x000000) 1 ]
  ++ [ .fillCircle (x + (if direction = some 1 then t.width * 0.8 else t.width * 0.2))
        (y + t.height / 2 - 2) t.wheelSize,
       .fillCircle (x + (if direction = some 1 then t.width * 0.2 else t.width * 0.8))
        (y + t.height / 2 - 2) t.wheelSize,
       .fillStyle (some 0xcccccc) 1 ]
  ++ [ .fillCircle (x + (if direction = some 1 then t.width * 0.8 else t.width * 0.2))
        (y + t.height / 2 - 2) (t.wheelSize / 2),
       .fillCircle (x + (if direction = some 1 then t.width * 0.2 else t.width * 0.8))
        (y + t.height / 2 - 2) (t.wheelSize / 2) ]

/-- The three wheel circles `createVehicles` draws for a truck, and again with
half the radius for the rims. -/
def truckWheelsAtCreation (x y : ℚ) (direction : Option ℚ) (t : VehicleType) (radius : ℚ) :
    List DrawCmd :=
  [ .fillCircle (x + (if direction = some 1 then t.width * 0.2 else t.width * 0.8))
      (y + t.height / 2 - 2) radius,
    .fillCircle (x + (if direction = some 1 then t.width * 0.8 else t.width * 0.2))
      (y + t.height / 2 - 2) radius,
    .fillCircle (x + (if direction = some 1 then t.width * 0.65 else t.width * 0.35))
      (y + t.height / 2 - 2) radius ]

/-- The drawing calls `createVehicles` makes for a vehicle that is not a car. -/
def truckShapeAtCreation (x y : ℚ) (direction : Option ℚ) (color : Option Nat)
    (shouldFlipX : Bool) (t : VehicleType) : List DrawCmd :=
  let cargoHeight := t.height * 1.2
  let cargoWidth := t.width * 0.7
  let cargoX := if shouldFlipX then x else x + t.width * 0.3
  let cabinWidth := t.width * 0.3
  let cabinHeight := t.height * 0.8
  let cabinX := if shouldFlipX then x + t.width * 0.7 else x
  let windowWidth := cabinWidth * 0.7
  let windowHeight := cabinHeight * 0.4
  let windowX := cabinX + cabinWidth * 0.15
  [ .fillStyle color 1,
    .fillRect cargoX (y - cargoHeight / 2) cargoWidth cargoHeight,
    .fillRect cabinX (y - cabinHeight / 2) cabinWidth cabinHeight,
    .fillStyle (some 0x88ccff) 1,
    .fillRect windowX (y - cabinHeight / 2 + cabinHeight * 0.15) windowWidth windowHeight,
    .fillStyle (some 0x000000) 1 ]
  ++ truckWheelsAtCreation x y direction t t.wheelSize
  ++ [ .fillStyle (some 0xcccccc) 1 ]
  ++ truckWheelsAtCreation x y direction t (t.wheelSize / 2)

/-- One pass of the loop of `createVehicles` (src/js/cityscapeGame.js), for loop
index `i`; `rand k` is the value of the `k`-th call of `Math.random()` (three
calls per pass: vehicle type, colour, speed).  The result is the record pushed
onto `this.vehicles`, or `none` when `vehicleTypes[...]` is undefined and reading
its `colors` raises a `TypeError`.  The depth set on the graphics object is not
recorded. -/
def createVehicle (rand : Nat → ℚ) (width height : ℚ) (i : Nat) : Option Vehicle :=
  let direction : ℚ := if i % 2 = 0 then -1 else 1
  match jsIndex vehicleTypes (rand (3 * i) * vehicleTypes.length) with
  | none => none
  | some vehicleType =>
    let actualDirection := direction
    let lane := if actualDirection = 1 then height - 40 else height - 20
    let color := jsIndex vehicleType.colors (rand (3 * i + 1) * vehicleType.colors.length)
    let vehicle := Graphics.fresh
    let startX := if actualDirection = 1 then -vehicleType.width else width + vehicleType.width
    let shouldFlipX : Bool := vehicleType.type = "truck"
    let vehicle :=
      if vehicleType.type = "car" then
        vehicle.draw (carShapeAtCreation vehicle.x vehicle.y none color vehicleType)
      else
        vehicle.draw
          (truckShapeAtCreation vehicle.x vehicle.y none color shouldFlipX vehicleType)
    some { graphics := vehicle, x := startX, y := lane, direction := actualDirection,
           speed := 1 + rand (3 * i + 2) * 1.5, type := vehicleType }

/-- The loop of a `createVehicles` over the remaining loop indices, pushing onto
the records built so far; an exception leaves the loop with what has been
pushed. -/
def pushVehicles (build : Nat → Option Vehicle) : List Nat → List Vehicle → Run (List Vehicle)
  | [], built => .done built
  | i :: rest, built =>
    match build i with
    | none => .threw built
    | some v => pushVehicles build rest (built ++ [v])

/-- Function `createVehicles()` of src/js/cityscapeGame.js: `this.vehicles = []`,
then four passes of the loop. -/
def createVehicles (rand : Nat → ℚ) (s : Scene) : Run Scene :=
  match pushVehicles (createVehicle rand s.width s.height) (List.range 4) [] with
  | .done vs => .done { s with vehicles := vs }
  | .threw vs => .threw { s with vehicles := vs }

namespace TopLevel

/-- Value of `vehicleTypes` in `createVehicles` of src/cityscapeGame.js. -/
def vehicleTypes : List VehicleType :=
  [ { type := "car", width := 50, height := 25, colors := [0xff0000, 0x888888],
      wheelSize := 6 } ]

/-- The drawing calls of `createVehicles` of src/cityscapeGame.js, made on the new
graphics object (which has no `direction`). -/
def carShapeAtCreation (x y : ℚ) (direction : Option ℚ) (color : Option Nat)
    (t : VehicleType) : List DrawCmd :=
  let roofWidth := t.width * 0.6
  let roofHeight := t.height * 0.5
  let roofX := x + (if direction = some 1 then t.width * 0.2 else t.width * 0.2)
  let windowWidth := roofWidth * 0.4
  let windowHeight := roofHeight * 0.7
  let windowX := roofX + (if direction = some 1 then roofWidth * 0.1 else roofWidth * 0.5)
  [ .fillStyle color 1,
    .fillRect x (y - t.height / 2) t.width t.height,
    .fillRect roofX (y - t.height / 2 - roofHeight / 4) roofWidth roofHeight,
    .fillStyle (some 0x88ccff) 1,
    .fillRect windowX (y - t.height / 2 - roofHeight / 2 + roofHeight * 0.15) windowWidth
      windowHeight,
    .fillStyle (some 0x000000) 1 ]
  ++ [ .fillCircle (x + (if direction = some 1 then t.width * 0.8 else t.width * 0.2))
        (y + t.height / 2 - 2) t.wheelSize,
       .fillCircle (x + (if direction = some 1 then t.width * 0.2 else t.width * 0.8))
        (y + t.height / 2 - 2) t.wheelSize,
       .fillStyle (some 0xcccccc) 1 ]
  ++ [ .fillCircle (x + (if direction = some 1 then t.width * 0.8 else t.width * 0.2))
        (y + t.height / 2 - 2) (t.wheelSize / 2),
       .fillCircle (x + (if direction = some 1 then t.width * 0.2 else t.width * 0.8))
        (y + t.height / 2 - 2) (t.wheelSize / 2) ]

/-- One pass of the loop of `createVehicles` of src/cityscapeGame.js, for loop
index `i`; `rand k` is the value of the `k`-th call of `Math.random()` (two calls
per pass: colour, speed).  The vehicle type is always `vehicleTypes[0]`. -/
def createVehicle (rand : Nat → ℚ) (width height : ℚ) (i : Nat) : Option Vehicle :=
  let direction : ℚ := if i % 2 = 0 then -1 else 1
  match vehicleTypes[0]? with
  | none => none
  | some vehicleType =>
    let actualDirection := direction
    let lane := if actualDirection = 1 then height - 40 else height - 20
    let color := jsIndex vehicleType.colors (rand (2 * i) * vehicleType.colors.length)
    let vehicle := Graphics.fresh
    let startX := if actualDirection = 1 then -vehicleType.width else width + vehicleType.width
    let vehicle :=
      vehicle.draw (carShapeAtCreation vehicle.x vehicle.y none color vehicleType)
    some { graphics := vehicle, x := startX, y := lane, direction := actualDirection,
           speed := 1 + rand (2 * i + 1) * 1.5, type := vehicleType }

/-- Function `createVehicles` of src/cityscapeGame.js. -/
def createVehicles (rand : Nat → ℚ) (s : Scene) : Run Scene :=
  match pushVehicles (createVehicle rand s.width s.height) (List.range 4) [] with
  | .done vs => .done { s with vehicles := vs }
  | .threw vs => .threw { s with vehicles := vs }

end TopLevel

/-! ## src/js/cityscapeGame.js: textures, placeholders and `preload` -/

/-- Whether the characters `sub` occur in a row somewhere in a list of
characters. -/
def includesChars (sub : List Char) : List Char → Bool
  | [] => sub.isEmpty
  | c :: cs => sub.isPrefixOf (c :: cs) || includesChars sub cs

/-- Call `s.includes(sub)` on strings. -/
def jsIncludes (s sub : String) : Bool :=
  includesChars sub.data s.data

/-- Call `console.error(message)`. -/
def Scene.logError (s : Scene) (message : String) : Scene :=
  { s with errors := s.errors ++ [message] }

/-- Call `this.textures.exists(key)`. -/
def Scene.texturesExists (s : Scene) (key : String) : Bool :=
  (s.textures.lookup key).isSome

/-- Call `this.textures.remove(key)`. -/
def Scene.texturesRemove (s : Scene) (key : String) : Scene :=
  { s with textures := s.textures.filter (fun p => p.1 != key) }

/-- Calls `this.textures.addCanvas(key, canvas)` and
`this.textures.addImage(key, img)`: the texture manager stores the texture under
the key unless the key is already in use.  The keys passed are the asset names;
the empty key, which the texture manager refuses, is not among them. -/
def Scene.texturesAdd (s : Scene) (key : String) (source : TextureSource) : Scene :=
  if s.texturesExists key then s else { s with textures := s.textures ++ [(key, source)] }

/-- What the browser does with the placeholder canvases and the cached images,
per asset name: whether the shape helper that `createPlaceholder` calls raises
an exception, the data URL `canvas.toDataURL` yields, whether saving it to
`localStorage` raises an exception, whether the image built from the cached
data URL loads (`onload`) or not (`onerror`), and whether
`textures.addImage` raises an exception for it. -/
structure AssetEnv where
  shapeThrows : String → Bool
  toDataURL : String → String
  saveThrows : String → Bool
  imageLoads : String → Bool
  addImageThrows : String → Bool

/-- The `localStorage` key under which an asset is cached:
`phaser_asset_` followed by the asset's name. -/
def assetKey (name : String) : String :=
  "phaser_asset_" ++ name

/-- The canvas size `createPlaceholder` chooses for a key. -/
def placeholderSize (key : String) : Nat × Nat :=
  if key = "sky" then (1200, 600)
  else if jsIncludes key "building" then
    (300, if key = "building1" then 500 else (if key = "building2" then 400 else 300))
  else if key = "billboard" then (250, 200)
  else if key = "airplane" then (200, 100)
  else (200, 200)

/-- The colour `createPlaceholder` chooses for a key. -/
def placeholderColor (key : String) : String :=
  let color := "#4488aa"
  let color := if key = "building1" then "#335577" else color
  let color := if key = "building2" then "#446688" else color
  let color := if key = "building3" then "#557799" else color
  let color := if key = "billboard" then "#aa6644" else color
  let color := if key = "sky" then "#001133" else color
  let color := if key = "airplane" then "#eeeeee" else color
  color

/-- Function `createPlaceholder(key)`: a canvas of the size and colour chosen for
the key; in the `try` block the shape helper draws on it, the canvas becomes the
texture and its data URL is saved to `localStorage` (a failure to save is caught
and logged); if the shape helper raises an exception, the `catch` block refills
the canvas with the plain colour and makes that the texture. -/
def createPlaceholder (env : AssetEnv) (key : String) (s : Scene) : Scene :=
  let size := placeholderSize key
  let color := placeholderColor key
  if env.shapeThrows key then
    (s.logError ("Error creating placeholder for " ++ key ++ ":")).texturesAdd key
      (.canvas size.1 size.2 color false)
  else
    let s := s.texturesAdd key (.canvas size.1 size.2 color true)
    if env.saveThrows key then
      s.logError "Could not save placeholder to localStorage:"
    else
      { s with localStorage := s.localStorage.setItem (assetKey key) (env.toDataURL key) }

/-- Value of `assetNames` in `preload`. -/
def assetNames : List String :=
  ["building1", "building2", "building3", "sky", "billboard", "airplane"]

/-- The first loop of `preload`: every existing texture of an asset name is
removed. -/
def preloadRemove (names : List String) (s : Scene) : Scene :=
  names.foldl (fun s name => if s.texturesExists name then s.texturesRemove name else s) s

/-- The promise executors of `preload`, run in turn over the asset names: a name
with a non-empty data URL in `localStorage` gets an image whose load is pending
(the pair is added to `pending`), any other name gets its placeholder at once. -/
def preloadExecutors (env : AssetEnv) :
    List String → Scene → List (String × String) → Scene × List (String × String)
  | [], s, pending => (s, pending)
  | name :: rest, s, pending =>
    match s.localStorage.getItem (assetKey name) with
    | some dataURL =>
      if dataURL ≠ "" then preloadExecutors env rest s (pending ++ [(name, dataURL)])
      else preloadExecutors env rest (createPlaceholder env name s) pending
    | none => preloadExecutors env rest (createPlaceholder env name s) pending

/-- The `onload` or `onerror` handler of the image of one asset. `onload` adds the
image as texture unless the key exists, and falls back to the placeholder when
that raises an exception; `onerror` falls back to the placeholder. -/
def imageSettled (env : AssetEnv) (s : Scene) (name dataURL : String) : Scene :=
  if env.imageLoads name then
    if env.addImageThrows name then
      createPlaceholder env name (s.logError ("Failed to add texture for " ++ name ++ ":"))
    else
      s.texturesAdd name (.image dataURL)
  else
    createPlaceholder env name (s.logError ("Failed to load " ++ name ++ " from localStorage"))

/-- The callback of `Promise.all(loadPromises).then`: every asset name still
without a texture gets an emergency placeholder. -/
def preloadVerify (env : AssetEnv) (names : List String) (s : Scene) : Scene :=
  names.foldl
    (fun s name =>
      if s.texturesExists name then s
      else createPlaceholder env name
        (s.logError ("Texture " ++ name ++ " still missing, creating emergency placeholder")))
    s

/-- Function `preload()` up to the completion of its asset loading: the textures
of the asset names are removed, the executors run, the pending images settle
(here in the order of `assetNames`), and the `then` callback verifies that every
texture exists.  The `catch` callback of the promise chain is not reached: no
promise of `loadPromises` is ever rejected. -/
def preload (env : AssetEnv) (s : Scene) : Scene :=
  let s := preloadRemove assetNames s
  let r := preloadExecutors env assetNames s []
  let s := r.2.foldl (fun s p => imageSettled env s p.1 p.2) r.1
  preloadVerify env assetNames s

/-- Every image texture held under one of the asset names is accounted for: the cache
`cache` held that data URL, non-empty, for the asset, its image loaded, and
adding it raised no exception. -/
def ImagesAccountedFor (env : AssetEnv) (cache : Storage) (s : Scene) : Prop :=
  ∀ n d, n ∈ assetNames → s.textures.lookup n = some (TextureSource.image d) →
    cache.getItem (assetKey n) = some d ∧ d ≠ "" ∧ env.imageLoads n = true ∧
      env.addImageThrows n = false

/-! ## src/js/cityscapeGame.js: building the scene -/

/-- What the environment supplies while the scene is built: the browser's
handling of assets, the values of `Math.random()` (`cityRandom k` for the `k`-th
draw of `createCityscape`, three per building; `vehicleRandom k` for the `k`-th
draw of `createVehicles`), and the width the engine measures for a text of a
given font size in pixels and wrap width. -/
structure SceneEnv where
  assets : AssetEnv
  cityRandom : Nat → ℚ
  vehicleRandom : Nat → ℚ
  measureText : String → ℚ → ℚ → ℚ

/-- Which calls into the rendering engine raise an exception while the scene is
built or rebuilt; a stage that fails does so at its first engine call.  `sky`:
the sky stage of `create`; `cityscape`: `createCityscape` outside its per-building
`try`; `building layer i`: the construction of one building; `simplifiedCityscape`:
`createSimplifiedCityscape`; `street` and `fallbackStreet`: the two `try` blocks
of `createStreet`; `vehicles`: `createVehicles`; `card i`: the construction of the
billboard at index `i`; `sponsors`: the `try` block of `createSponsors`; `timer`:
`this.time.addEvent`; `fallbackScene`: `createFallbackScene`. -/
structure Faults where
  sky : Bool
  cityscape : Bool
  building : Nat → Nat → Bool
  simplifiedCityscape : Bool
  street : Bool
  fallbackStreet : Bool
  vehicles : Bool
  card : Nat → Bool
  sponsors : Bool
  timer : Bool
  fallbackScene : Bool

/-- No engine call fails. -/
def Faults.none : Faults :=
  { sky := false, cityscape := false, building := fun _ _ => false,
    simplifiedCityscape := false, street := false, fallbackStreet := false,
    vehicles := false, card := fun _ => false, sponsors := false, timer := false,
    fallbackScene := false }

/-- An entry of `cardData` (its `style` hints are read nowhere). -/
structure Card where
  title : String
  content : String
deriving DecidableEq, Repr

/-- Value of `cardData`. -/
def cardData : List Card :=
  [ { title := "About the Jam",
      content := "Join us for the inaugural game jam dedicated to AI-assisted vibe coding!" },
    { title := "Meet the Jury",
      content := "@karpathy + @timsoret + @mrdoob + @s13k_ + @levelsio" },
    { title := "Sponsors", content := "@boltdotnew + @coderabbitai" } ]

/-- Call `Math.round(q)`. -/
def jsRound (q : ℚ) : ℤ :=
  ⌊q + 1 / 2⌋

/-- Call `Phaser.Display.Color.GetColor(red, green, blue)`: the three components
packed into one integer. -/
def getColor (red green blue : ℤ) : ℤ :=
  red * 65536 + green * 256 + blue

/-- The number of buildings in the layers before `layer` (layer `l` has
`8 + l * 3` buildings). -/
def buildingOffset (layer : Nat) : Nat :=
  (List.range layer).foldl (fun acc l => acc + (8 + l * 3)) 0

/-- The building image that `createCityscape` adds at position `i` of a layer. -/
def createBuilding (env : SceneEnv) (width height : ℚ) (layer i : Nat) : BuildingImage :=
  let buildingKey := "building" ++ toString (layer + 1)
  let buildingCount : ℚ := 8 + layer * 3
  let yPos := height - 100 + layer * 20
  let scale : ℚ := 0.7 - layer * 0.15
  let xPos := (width / buildingCount) * i
  let j := buildingOffset layer + i
  let heightVariation := env.cityRandom (3 * j) * 0.3 + 0.6
  let widthVariation := env.cityRandom (3 * j + 1) * 0.3 + 0.9
  let colorVariation := jsRound (env.cityRandom (3 * j + 2) * 40 - 20)
  let baseRed : ℤ := 150 - layer * 30
  let baseGreen : ℤ := 150 - layer * 30
  let baseBlue : ℤ := 170 - layer * 20
  let tint := getColor (max 0 (min 255 (baseRed + colorVariation)))
    (max 0 (min 255 (baseGreen + colorVariation)))
    (max 0 (min 255 (baseBlue + colorVariation + 10)))
  { key := buildingKey, x := xPos, y := yPos, scaleX := scale * widthVariation,
    scaleY := scale * heightVariation, tint := tint }

/-- One pass of the layer loop of `createCityscape`: the layer's texture gets a
placeholder if it does not exist, then the buildings are added one by one, a
building whose construction fails being logged and left out.  The shadow
rectangles added beside the buildings carry no texture and are not recorded. -/
def cityscapeLayer (env : SceneEnv) (f : Faults) (width height : ℚ) (s : Scene)
    (layer : Nat) : Scene :=
  let buildingKey := "building" ++ toString (layer + 1)
  let s :=
    if s.texturesExists buildingKey then s
    else createPlaceholder env.assets buildingKey
      (s.logError ("Texture " ++ buildingKey ++ " does not exist, creating placeholder"))
  (List.range (8 + layer * 3)).foldl
    (fun s i =>
      if f.building layer i then
        s.logError ("Error creating building at layer " ++ toString layer ++ ", position " ++
          toString i ++ ":")
      else
        { s with buildings := s.buildings ++ [createBuilding env width height layer i] })
    s

/-- Function `createSimplifiedCityscape()`: it draws on one graphics object, which
no method reads; it can fail. -/
def createSimplifiedCityscape (f : Faults) (s : Scene) : Run Scene :=
  if f.simplifiedCityscape then .threw s else .done s

/-- Function `createCityscape()`: three layers of building images; when the `try`
block fails, the error is logged and `createSimplifiedCityscape` runs in the
`catch` block, unguarded. -/
def createCityscape (env : SceneEnv) (f : Faults) (s : Scene) : Run Scene :=
  if f.cityscape then
    createSimplifiedCityscape f (s.logError "Error in createCityscape:")
  else
    .done ((List.range 3).foldl (cityscapeLayer env f s.width s.height) s)

/-- Function `createStreet()`: the street is drawn on a graphics object that no
method reads; a failure is caught and logged, and so is a failure of the simple
street drawn in its place. -/
def createStreet (f : Faults) (s : Scene) : Scene :=
  if f.street then
    let s := s.logError "Error creating street:"
    if f.fallbackStreet then s.logError "Even fallback street creation failed:" else s
  else s

/-- Function `createVehicles()` as a stage that can fail: a failing engine call
leaves `this.vehicles` empty. -/
def createVehiclesStage (env : SceneEnv) (f : Faults) (s : Scene) : Run Scene :=
  if f.vehicles then .threw { s with vehicles := [] } else createVehicles env.vehicleRandom s

/-- Call `array.splice(start, 1)` with `start` the result of a `findIndex`: the
element at that index is removed; for the index -1 (`none`) the last element is
removed. -/
def spliceOne {α : Type} (l : List α) (start : Option Nat) : List α :=
  match start with
  | some i => l.eraseIdx i
  | none => l.dropLast

/-- The computation of `displayCards` in `createBillboards`: on mobile the first
card whose title includes "Sponsors" is spliced out; on desktop that card is
moved to the end. -/
def displayCards (cards : List Card) (isMobile : Bool) : List Card :=
  if isMobile then
    spliceOne cards (cards.findIdx? (fun card => jsIncludes card.title "Sponsors"))
  else
    match cards.find? (fun card => jsIncludes card.title "Sponsors") with
    | some sponsorCard =>
      spliceOne cards (cards.findIdx? (fun card => jsIncludes card.title "Sponsors")) ++
        [sponsorCard]
    | none => cards

/-- The loop of `createClickableContent` over the sections of a content string:
one text object per section, a section wider than `maxWidth` being pushed one
line further down. -/
def contentObjects (env : SceneEnv) (xPos lineHeight maxWidth fontSize : ℚ) :
    List String → ℚ → List Text
  | [], _ => []
  | sec :: rest, currentY =>
    let part := sec.trim
    let wordWidth := env.measureText part fontSize maxWidth
    let currentY := if wordWidth > maxWidth then currentY + lineHeight else currentY
    { x := xPos, y := currentY, text := part } ::
      contentObjects env xPos lineHeight maxWidth fontSize rest (currentY + lineHeight)

/-- Function `createClickableContent(content, xPos, yPos, fontSize, billboardWidth)`:
the array of text objects it returns; `fontSize` is the number of pixels. -/
def createClickableContent (env : SceneEnv) (content : String)
    (xPos yPos fontSize billboardWidth : ℚ) : List Text :=
  let sections := content.splitOn " + "
  let lineHeight := fontSize * (if jsIncludes content "@karpathy" then 1.1 else 1.5)
  let maxWidth := billboardWidth - 40
  let startY := yPos + (if jsIncludes content "@karpathy" then lineHeight * 0.3 else lineHeight)
  contentObjects env xPos lineHeight maxWidth fontSize sections startY

/-- The gradient rows of a billboard frame: for `i = 0, 4, 8, ...` below
`bgHeight`, a fill style and a row of height 4. -/
def frameGradient (bgX bgY bgWidth : ℚ) (bgHeight : Nat) : List DrawCmd :=
  (List.range ((bgHeight + 3) / 4)).flatMap (fun k =>
    [ DrawCmd.fillStyle (some (0x222222 + (4 * k) * 0x000101)) 1,
      DrawCmd.fillRect bgX (bgY + (4 * k : Nat)) bgWidth 4 ])

/-- The record that `createBillboards` pushes for the card at position `index` of
`count` display cards. -/
def createBillboard (env : SceneEnv) (width height : ℚ) (isMobile : Bool) (count index : Nat)
    (card : Card) : Billboard :=
  let xPos : ℚ := if isMobile then width / 2 else width * (index + 0.5) / count
  let yPos : ℚ := if isMobile then (height - 100) - index * 160 else height - 180
  let support := Graphics.fresh.draw [ .fillStyle (some 0x444444) 1 ]
  let support :=
    if !(isMobile && jsIncludes card.title "Meet the Jury") then
      support.draw [ .fillRect (xPos - 8) yPos 16 (height - yPos - 60) ]
    else support
  let bgWidth : ℚ := if isMobile then 220 else 280
  let bgHeight : Nat := if isMobile then 140 else 180
  let bgX := xPos - bgWidth / 2
  let bgY := yPos - (if isMobile then 130 else 170)
  let frame := Graphics.fresh.draw
    (frameGradient bgX bgY bgWidth bgHeight ++
      [ .lineStyle 4 0x777777 1,
        .strokeRect bgX bgY bgWidth bgHeight,
        .lineStyle 2 0x555555 1,
        .strokeRect (bgX + 8) (bgY + 8) (bgWidth - 16) (bgHeight - 16),
        .lineStyle 2 0xaaaaaa 0.5,
        .lineBetween (bgX + 12) (bgY + bgHeight - 4) (bgX + bgWidth - 12)
          (bgY + bgHeight - 4) ])
  let contentSize : ℚ := if isMobile then 12 else 14
  let objects := createClickableContent env card.content xPos
    (bgY + (if isMobile then 65 else 85)) contentSize (bgWidth - 24)
  { container := none, title := card.title, titleX := xPos,
    titleY := bgY + (if isMobile then 35 else 45), content := .texts objects,
    support := some support, frame := some frame, isMobile := some isMobile }

/-- Function `createBillboards()`: `billboards` is emptied and one record is pushed
per display card, a card whose construction fails being logged and left out.
Outside the per-card `try` the function calls nothing that can fail, so its
`catch` block with `createSimplifiedBillboards` is not reached. -/
def createBillboards (env : SceneEnv) (f : Faults) (s : Scene) : Scene :=
  let width := s.width
  let height := s.height
  let s := { s with billboards := [] }
  let isMobile : Bool := width < 768
  let cards := displayCards cardData isMobile
  ((List.range cards.length).zip cards).foldl
    (fun s p =>
      if f.card p.1 then
        s.logError ("Error creating billboard for card " ++ toString p.1 ++ ":")
      else
        { s with billboards :=
            s.billboards ++ [createBillboard env width height isMobile cards.length p.1 p.2] })
    s

/-- Function `createFallbackScene()` as a stage that can fail. -/
def createFallbackSceneStage (f : Faults) (s : Scene) : Run Scene :=
  if f.fallbackScene then .threw s else .done (createFallbackScene s)

/-- Function `createSponsors()` with its `try` and `catch`: the airplane texture
gets a placeholder if it does not exist and the two airplanes are built; when
the `try` block fails, the error is logged and `createFallbackScene` runs in the
`catch` block, unguarded. -/
def createSponsorsStage (env : SceneEnv) (f : Faults) (s : Scene) : Run Scene :=
  if f.sponsors then
    createFallbackSceneStage f (s.logError "Error creating sponsors:")
  else
    .done (createSponsors
      (if s.texturesExists "airplane" then s else createPlaceholder env.assets "airplane" s))

/-- Function `setupCamera()`: one tween over the containers of the billboards that
have one; nothing when there is none.  Its body is wrapped in a `try`. -/
def setupCamera (s : Scene) : Scene :=
  let validContainers := s.billboards.filter (fun b => b.container.isSome)
  if s.billboards.length > 0 ∧ validContainers.length > 0 then
    { s with tweens := s.tweens ++ [{ targets := validContainers.length, duration := 3000 }] }
  else s

/-- Value of `this.airplaneSpawnInterval`. -/
def airplaneSpawnInterval : ℚ := 8000

/-- The `try` block of `create()`: sky, cityscape, street, vehicles, billboards,
sponsors, camera, spawn timer, each stage skipped once an exception is on its
way. -/
def createStages (env : SceneEnv) (f : Faults) (s : Scene) : Run Scene :=
  (((((((if f.sky then Run.threw s
      else Run.done
        (if s.texturesExists "sky" then s
         else s.logError "Sky texture does not exist, using fallback")).andThen
    (createCityscape env f)).andThen
    (fun s => .done (createStreet f s))).andThen
    (createVehiclesStage env f)).andThen
    (fun s => .done (createBillboards env f s))).andThen
    (createSponsorsStage env f)).andThen
    (fun s => .done (setupCamera s))).andThen
    (fun s =>
      if f.timer then .threw s
      else .done { s with timeEvents := s.timeEvents ++
        [{ delay := airplaneSpawnInterval, callback := "spawnAirplane", loop := true }] })

/-- Function `create()`: the stages run in a `try`; the `catch` block logs the
error and calls `createFallbackScene`, unguarded. -/
def create (env : SceneEnv) (f : Faults) (s : Scene) : Run Scene :=
  match createStages env f s with
  | .done s => .done s
  | .threw s => createFallbackSceneStage f (s.logError "Error in create method:")

/-- The billboard loop of `adjustForResize`: `destroy()` is called on the
container (if the record has one), on the title and on the content.  A content
that is an array has no `destroy` method, so the call raises a `TypeError` and
the loop is left with the remaining records untouched. -/
def destroyBillboards : List Billboard → Run (List Billboard)
  | [] => .done []
  | b :: rest =>
    let b := if b.container.isSome then { b with containerDestroyed := true } else b
    let b := { b with titleDestroyed := true }
    match b.content with
    | .texts _ => .threw (b :: rest)
    | .text _ =>
      match destroyBillboards rest with
      | .done r => .done ({ b with contentDestroyed := true } :: r)
      | .threw r => .threw ({ b with contentDestroyed := true } :: r)

/-- The `try` block of `adjustForResize(width, height)`: the building images are
destroyed, the billboards and the airplanes are destroyed and their arrays
emptied, then cityscape, street, billboards, sponsors and camera are built
again.  The two arguments are only logged. -/
def adjustForResizeStages (env : SceneEnv) (f : Faults) (s : Scene) : Run Scene :=
  let s := { s with buildings := [] }
  match destroyBillboards s.billboards with
  | .threw bs => .threw { s with billboards := bs }
  | .done _ =>
    let s := { s with billboards := [] }
    let s := { s with airplanes := [] }
    ((((createCityscape env f s).andThen
      (fun s => .done (createStreet f s))).andThen
      (fun s => .done (createBillboards env f s))).andThen
      (createSponsorsStage env f)).andThen
      (fun s => .done (setupCamera s))

/-- Function `adjustForResize(width, height)`: the `catch` block logs the error and
calls `createFallbackScene`, unguarded. -/
def adjustForResize (env : SceneEnv) (f : Faults) (_width _height : ℚ) (s : Scene) :
    Run Scene :=
  match adjustForResizeStages env f s with
  | .done s => .done s
  | .threw s =>
    createFallbackSceneStage f (s.logError "Error in adjustForResize method:")

/-! ## Concrete inputs used in the statements about the scene -/

/-- An environment in which nothing fails: shape helpers and saves succeed, a
data URL is produced for every asset, cached images load, every random draw is
0 and every text measures 0 wide. -/
def plainEnv : SceneEnv :=
  { assets :=
      { shapeThrows := fun _ => false, toDataURL := fun name => "data:image/png;" ++ name,
        saveThrows := fun _ => false, imageLoads := fun _ => true,
        addImageThrows := fun _ => false },
    cityRandom := fun _ => 0, vehicleRandom := fun _ => 0, measureText := fun _ _ _ => 0 }

/-- The scene that `create()` builds at 1200×600 when nothing fails. -/
def createdScene : Scene :=
  (create plainEnv Faults.none emptyScene).state

/-- The outcome of `adjustForResize(800, 600)` on that scene, the module variable
`gameWidth` having been set to 800 by `cityscapeGame.resize` beforehand. -/
def resizedScene : Run Scene :=
  adjustForResize plainEnv Faults.none 800 600 { createdScene with gameWidth := 800 }

/-- A 500×600 scene with nothing built yet (a mobile viewport: width < 768). -/
def emptyMobileScene : Scene :=
  { width := 500, height := 600, gameWidth := 500, vehicles := [], billboards := [],
    airplanes := [] }

/-- The sky stage fails and so does `createFallbackScene`; nothing else does. -/
def skyAndFallbackFail : Faults :=
  { Faults.none with sky := true, fallbackScene := true }

/-! ## src/js/cityscapeGame.js: the module's public functions -/

/-- A DOM element as `createFallbackView` sets it up: tag, class name, text
content, and the style properties assigned (property name, value). -/
structure DomElement where
  tag : String
  className : String
  textContent : String
  style : Storage
deriving DecidableEq, Repr

/-- Assignment `element.style[property] = value`. -/
def DomElement.setStyle (e : DomElement) (property value : String) : DomElement :=
  { e with style := e.style.setItem property value }

/-- Call `document.createElement(tag)`. -/
def createElement (tag : String) : DomElement :=
  { tag := tag, className := "", textContent := "", style := [] }

/-- A fallback billboard: the `div` with its two children, the `h3` title and
the `p` content. -/
structure FallbackBillboard where
  element : DomElement
  title : DomElement
  content : DomElement
deriving DecidableEq, Repr

/-- The children that `createFallbackView` gives the container: the header and
the card container holding the billboards. -/
structure FallbackView where
  header : DomElement
  cardContainer : DomElement
  billboards : List FallbackBillboard
deriving DecidableEq, Repr

/-- A container element of the page: its style and, once `createFallbackView`
has replaced its children, the fallback view (`none`: its original children). -/
structure Container where
  style : Storage
  view : Option FallbackView
deriving DecidableEq, Repr

/-- A recurring timer registered with `setInterval`: its period in milliseconds
and the fallback billboard (container id, index) its callback works on. -/
structure Interval where
  delay : Nat
  container : String
  billboard : Nat
deriving DecidableEq, Repr

/-- A one-shot timer registered with `setTimeout`. -/
structure Timeout where
  delay : Nat
  container : String
  billboard : Nat
deriving DecidableEq, Repr

/-- The configuration a `Phaser.Game` was constructed with, as far as `init`
computes it. -/
structure GameConfig where
  width : ℚ
  height : ℚ
  parent : String
deriving DecidableEq, Repr

/-- The page as the module's public functions see it: the elements that
`document.getElementById` finds, the window size, `localStorage`, the module
variables `game`, `gameWidth` and `gameHeight`, the timers registered, and the
messages passed to `console.error`. -/
structure Site where
  containers : List (String × Container)
  innerWidth : ℚ
  innerHeight : ℚ
  localStorage : Storage
  game : Option GameConfig
  gameWidth : ℚ
  gameHeight : ℚ
  intervals : List Interval
  timeouts : List Timeout
  errors : List String
deriving DecidableEq, Repr

/-- What the browser and the engine do when the module calls them: the data URL
a placeholder canvas yields, whether building or caching the placeholder of an
asset raises an exception, whether the global `Phaser` is missing, whether
`game.destroy` or `new Phaser.Game` raises an exception, and whether the DOM
calls of `createFallbackView` raise an exception. -/
structure SiteEnv where
  toDataURL : String → String
  placeholderThrows : String → Bool
  phaserMissing : Bool
  destroyThrows : Bool
  gameThrows : Bool
  domThrows : Bool

/-- The elements of the page with the element of the given id replaced. -/
def setContainer (containers : List (String × Container)) (containerId : String)
    (container : Container) : List (String × Container) :=
  containers.map (fun p => if p.1 = containerId then (containerId, container) else p)

/-- A list with the function applied to the element at an index (unchanged when
the index is past the end). -/
def modifyAt {α : Type} (f : α → α) : Nat → List α → List α
  | _, [] => []
  | 0, a :: rest => f a :: rest
  | n + 1, a :: rest => a :: modifyAt f n rest

/-- Call `console.error(message)`. -/
def Site.logError (site : Site) (message : String) : Site :=
  { site with errors := site.errors ++ [message] }

/-- The body shared by the placeholder functions of the module: in a `try`, a
canvas is drawn and its data URL stored under `phaser_asset_` + name; a failure
is caught and logged. -/
def cachePlaceholder (env : SiteEnv) (name : String) (site : Site) : Site :=
  if env.placeholderThrows name then
    site.logError ("Error creating " ++ name ++ " placeholder:")
  else
    { site with localStorage := site.localStorage.setItem (assetKey name) (env.toDataURL name) }

/-- Function `createSkyPlaceholder()`. -/
def createSkyPlaceholder (env : SiteEnv) (site : Site) : Site :=
  cachePlaceholder env "sky" site

/-- Function `createBuildingPlaceholders()`: one placeholder per entry of its
`buildings` table. -/
def createBuildingPlaceholders (env : SiteEnv) (site : Site) : Site :=
  ["building1", "building2", "building3"].foldl (fun site name => cachePlaceholder env name site)
    site

/-- Function `createBillboardPlaceholder()`. -/
def createBillboardPlaceholder (env : SiteEnv) (site : Site) : Site :=
  cachePlaceholder env "billboard" site

/-- The property `createAirplanePlaceholder` of the module object: the object
returned by the module defines `init`, `createAssetsDirectory`,
`createSimplePlaceholders`, `createSkyPlaceholder`, `createBuildingPlaceholders`,
`createBillboardPlaceholder`, `resize`, `destroy` and `createFallbackView`, and no
`createAirplanePlaceholder`. -/
def createAirplanePlaceholder : Option (SiteEnv → Site → Site) :=
  none

/-- Function `createSimplePlaceholders()`: sky, buildings, billboard, then the
call `this.createAirplanePlaceholder()`, which raises a `TypeError` when the
property is undefined. -/
def createSimplePlaceholders (env : SiteEnv) (site : Site) : Run Site :=
  let site := createSkyPlaceholder env site
  let site := createBuildingPlaceholders env site
  let site := createBillboardPlaceholder env site
  match createAirplanePlaceholder with
  | some placeholder => .done (placeholder env site)
  | none => .threw site

/-- Function `createAssetsDirectory()`: `createSimplePlaceholders` in a `try`, an
exception being caught and logged. -/
def createAssetsDirectory (env : SiteEnv) (site : Site) : Site :=
  match createSimplePlaceholders env site with
  | .done site => site
  | .threw site => site.logError "Could not create placeholder assets:"

/-- The fallback billboard that `createFallbackView` builds for a card. -/
def fallbackBillboard (card : Card) : FallbackBillboard :=
  let billboard := { createElement "div" with className := "fallback-billboard" }
  let billboard := billboard.setStyle "width" "200px"
  let billboard := billboard.setStyle "backgroundColor" "#222222"
  let billboard := billboard.setStyle "padding" "15px"
  let billboard := billboard.setStyle "border" "4px solid #ff3366"
  let billboard := billboard.setStyle "borderRadius" "4px"
  let billboard := billboard.setStyle "boxShadow" "0 0 10px rgba(255, 51, 102, 0.5)"
  let title := { createElement "h3" with textContent := card.title }
  let title := title.setStyle "color" "#ffffff"
  let title := title.setStyle "fontFamily" "\"Press Start 2P\", cursive"
  let title := title.setStyle "fontSize" "14px"
  let title := title.setStyle "marginBottom" "15px"
  let title := title.setStyle "textAlign" "center"
  let content := { createElement "p" with textContent := card.content }
  let content := content.setStyle "color" "#e0ffe0"
  let content := content.setStyle "fontFamily" "Inter, sans-serif"
  let content := content.setStyle "fontSize" "12px"
  let content := content.setStyle "textAlign" "center"
  { element := billboard, title := title, content := content }

/-- Function `createFallbackView(containerId)`: nothing when the container is
missing; otherwise, in a `try` whose failure is caught and logged, the container
is emptied and styled, a header and a card container are added, and for each
card a billboard is added and a flicker callback registered with
`setInterval(..., 500)`. -/
def createFallbackView (env : SiteEnv) (containerId : String) (site : Site) : Site :=
  match site.containers.lookup containerId with
  | none => site
  | some container =>
    if env.domThrows then site.logError "Error creating fallback view:"
    else
      let style := (container.style.setItem "backgroundColor" "#001133").setItem "padding" "20px"
      let header := { createElement "h2" with textContent := "CITYSCAPE VIEW" }
      let header := header.setStyle "color" "#ffffff"
      let header := header.setStyle "textAlign" "center"
      let header := header.setStyle "fontFamily" "\"Press Start 2P\", cursive"
      let header := header.setStyle "marginBottom" "40px"
      let cardContainer := createElement "div"
      let cardContainer := cardContainer.setStyle "display" "flex"
      let cardContainer := cardContainer.setStyle "justifyContent" "space-around"
      let cardContainer := cardContainer.setStyle "flexWrap" "wrap"
      let cardContainer := cardContainer.setStyle "gap" "20px"
      let view : FallbackView :=
        { header := header, cardContainer := cardContainer,
          billboards := cardData.map fallbackBillboard }
      { site with
        containers := setContainer site.containers containerId { style := style, view := some view }
        intervals := site.intervals ++
          (List.range cardData.length).map
            (fun i => { delay := 500, container := containerId, billboard := i }) }

/-- Assignment `billboard.style.opacity = value` on the fallback billboard at an
index of a container's view. -/
def Site.setBillboardOpacity (site : Site) (containerId : String) (index : Nat)
    (value : String) : Site :=
  match site.containers.lookup containerId with
  | none => site
  | some container =>
    match container.view with
    | none => site
    | some view =>
      { site with
        containers := setContainer site.containers containerId
          { container with
            view := some { view with
              billboards := modifyAt
                (fun b => { b with element := b.element.setStyle "opacity" value })
                index view.billboards } } }

/-- The callback that `createFallbackView` registers with `setInterval` for a
billboard, run once; `draw` is the value of its `Math.random()`.  A draw above
0.95 sets the billboard's opacity to 0.7 and registers, with
`setTimeout(..., 100)`, the callback that sets it back to 1. -/
def flickerCallback (draw : ℚ) (interval : Interval) (site : Site) : Site :=
  if draw > 0.95 then
    let site := site.setBillboardOpacity interval.container interval.billboard "0.7"
    { site with timeouts := site.timeouts ++
        [{ delay := 100, container := interval.container, billboard := interval.billboard }] }
  else site

/-- The callback registered with `setTimeout` by the flicker callback. -/
def flickerTimeout (timeout : Timeout) (site : Site) : Site :=
  site.setBillboardOpacity timeout.container timeout.billboard "1"

/-- What a call of a module function hands back to its caller. -/
inductive Returned where
  | module
  | undefined
  | exception
deriving DecidableEq, Repr

/-- Function `init(containerId)`, its effect on the page.  A missing container
ends it at once.  Otherwise the window size is recorded, the placeholder assets
are created, and the game is constructed (an existing game being destroyed
first); when building the configuration, destroying the old game or
constructing the new one raises an exception, `createFallbackView` runs in the
`catch` block. -/
def init (env : SiteEnv) (containerId : String) (site : Site) : Run Site :=
  match site.containers.lookup containerId with
  | none => .done site
  | some _ =>
    let site := { site with gameWidth := site.innerWidth, gameHeight := site.innerHeight }
    let site := createAssetsDirectory env site
    if env.phaserMissing then .done (createFallbackView env containerId site)
    else
      let config : GameConfig :=
        { width := site.gameWidth, height := site.gameHeight, parent := containerId }
      match site.game with
      | some _ =>
        if env.destroyThrows then .done (createFallbackView env containerId site)
        else
          let site := { site with game := none }
          if env.gameThrows then .done (createFallbackView env containerId site)
          else .done { site with game := some config }
      | none =>
        if env.gameThrows then .done (createFallbackView env containerId site)
        else .done { site with game := some config }

/-- Function `init(containerId)`, what it hands back: its early return and its
final statement are both `return this`. -/
def initReturned (env : SiteEnv) (containerId : String) (site : Site) : Returned :=
  match init env containerId site with
  | .done _ => .module
  | .threw _ => .exception

/-- An environment of the module in which nothing fails. -/
def plainSiteEnv : SiteEnv :=
  { toDataURL := fun name => "data:image/png;" ++ name, placeholderThrows := fun _ => false,
    phaserMissing := false, destroyThrows := false, gameThrows := false, domThrows := false }

/-- The same, except that constructing the `Phaser.Game` raises an exception. -/
def engineFailsEnv : SiteEnv :=
  { plainSiteEnv with gameThrows := true }

/-- A 1200×600 page holding the element `cityscape-container`, with an empty
`localStorage`, no game and no timer. -/
def freshSite : Site :=
  { containers := [("cityscape-container", { style := [], view := none })],
    innerWidth := 1200, innerHeight := 600, localStorage := [], game := none, gameWidth := 0,
    gameHeight := 0, intervals := [], timeouts := [], errors := [] }

/-- The page after `createFallbackView('cityscape-container')`. -/
def fallbackSite : Site :=
  createFallbackView plainSiteEnv "cityscape-container" freshSite

/-- The opacity assigned to the fallback billboard at an index of a container's
view (`none` when none was assigned, or there is no such billboard). -/
def Site.billboardOpacity (site : Site) (containerId : String) (index : Nat) : Option String :=
  ((site.containers.lookup containerId).bind (fun c => c.view)).bind
    (fun view => (view.billboards[index]?).bind (fun b => b.element.style.getItem "opacity"))

/-! ## Readings and concrete inputs used in the statements about layout and redraw -/

/-- The arguments (x, y, width, height) of a `fillRect` call. -/
def DrawCmd.filledRect : DrawCmd → Option (ℚ × ℚ × ℚ × ℚ)
  | .fillRect x y width height => some (x, y, width, height)
  | _ => none

/-- The arguments (x, y, width, height) of a `strokeRect` call. -/
def DrawCmd.strokedRect : DrawCmd → Option (ℚ × ℚ × ℚ × ℚ)
  | .strokeRect x y width height => some (x, y, width, height)
  | _ => none

/-- The pole of a billboard: the first rectangle filled on its `support`
graphics, as (x, y, width, height). -/
def Billboard.pole (b : Billboard) : Option (ℚ × ℚ × ℚ × ℚ) :=
  b.support.bind (fun g => (g.cmds.filterMap DrawCmd.filledRect).head?)

/-- The outline of a billboard frame: the first rectangle stroked on its `frame`
graphics, as (x, y, width, height). -/
def Billboard.frameOutline (b : Billboard) : Option (ℚ × ℚ × ℚ × ℚ) :=
  b.frame.bind (fun g => (g.cmds.filterMap DrawCmd.strokedRect).head?)

/-- A 768×600 scene with nothing built yet: the narrowest desktop viewport. -/
def narrowDesktopScene : Scene :=
  { width := 768, height := 600, gameWidth := 768, vehicles := [], billboards := [],
    airplanes := [] }

/-- A card list in which no title includes "Sponsors": the first two cards of
`cardData`. -/
def cardsWithoutSponsors : List Card :=
  [ { title := "About the Jam",
      content := "Join us for the inaugural game jam dedicated to AI-assisted vibe coding!" },
    { title := "Meet the Jury",
      content := "@karpathy + @timsoret + @mrdoob + @s13k_ + @levelsio" } ]

/-- A sprite airplane like the first one of `createSponsors` in a 1200×600 scene
after 433 ticks: the plane started at x = 100 and has reached
x = 100 + 433 × 3 = 1399, banner and text are 200 behind, the outline is where
it was built; the rope is left blank. -/
def boltAirplaneAtRightBound : SpriteAirplane :=
  { plane := { x := 1399, y := 180 },
    banner := { x := 1199, y := 200, width := 250, height := 80, fillColor := 0xff3366 },
    outline := { x := -250, y := 200, width := 254, height := 84, fillColor := 0xffffff },
    text := { x := 1199, y := 200, text := "Sponsored by\n@boltdotnew" },
    rope := Graphics.fresh, direction := 1, speed := 2 }

/-- A 1200×600 scene holding that airplane only. -/
def sceneWithBoltAtRightBound : Scene :=
  { width := 1200, height := 600, gameWidth := 1200, vehicles := [], billboards := [],
    airplanes := [.sprite boltAirplaneAtRightBound] }

/-- Draws of `Math.random()` that are all 0. -/
def drawsAllZero : Nat → ℚ := fun _ => 0

/-- Draws of `Math.random()` that are all 0 except the second, which is 1/2: in
`createVehicles` the second draw picks the colour of the first vehicle. -/
def drawsColourHalf : Nat → ℚ := fun k => if k = 1 then 1 / 2 else 0

/-! ## Preference store: theorems -/

theorem Storage.getItem_setItem_same (s : Storage) (key value : String) :
    (s.setItem key value).getItem key = some value := by
  simp [Storage.getItem, Storage.setItem, List.lookup]

/-- C5: a preference that was set reads back unchanged, for every string:
`setThemePreference(v)` then `getThemePreference()` gives `v`, and
`setMusicPreference(v)` then `getMusicPreference()` gives `v`; in particular
theme `"light"` reads back `"light"`. -/
theorem C5_preference_round_trip (s : Storage) (v : String) :
    getThemePreference (setThemePreference s v) = some v ∧
    getMusicPreference (setMusicPreference s v) = some v ∧
    getThemePreference (setThemePreference s "light") = some "light" := by
  simp [getThemePreference, setThemePreference, getMusicPreference, setMusicPreference,
    getItem, setItem, Storage.getItem_setItem_same]

/-- C6: `get(key, default)` returns the stored value when the key is present
and the default when it is absent, so the result is the default only if the key
is absent or the default is the very value stored; with no theme (music) entry
stored `getThemePreference()` is `"dark"` (`getMusicPreference()` is `"off"`),
in particular on the empty storage. -/
theorem C6_get_default_iff_absent (s : Storage) (key : String) (d : Option String) :
    (∀ v, s.getItem key = some v → getItem s key d = some v) ∧
    (s.getItem key = none → getItem s key d = d) ∧
    (getItem s key d = d ↔ s.getItem key = none ∨ s.getItem key = d) ∧
    (s.getItem KEYS_THEME = none → getThemePreference s = some "dark") ∧
    (s.getItem KEYS_MUSIC = none → getMusicPreference s = some "off") ∧
    getThemePreference [] = some "dark" ∧ getMusicPreference [] = some "off" := by
  refine ⟨?_, ?_, ?_, ?_, ?_, ?_, ?_⟩
  · intro v h
    simp [getItem, h]
  · intro h
    simp [getItem, h]
  · cases h : s.getItem key with
    | none => simp [getItem, h]
    | some v =>
      simp only [getItem, h]
      constructor
      · intro e
        exact Or.inr e
      · intro e
        rcases e with e | e
        · cases e
        · exact e
  · intro h
    simp [getThemePreference, getItem, h]
  · intro h
    simp [getMusicPreference, getItem, h]
  · rfl
  · rfl

/-! ## Arpeggiator: theorems -/

theorem chordSequence_getElem (c : Nat) (hc : c < 4) :
    ∃ chord, chordSequence[c]? = some chord ∧ chord.length = 5 := by
  interval_cases c <;> simp [chordSequence, cMaj9, ebMaj9, fMaj9, fMin9]

theorem arpCallback_done (p : Page) (chord : List String)
    (h : chordSequence[p.currentChord]? = some chord) :
    (arpCallback p).state.currentNote = (p.currentNote + 1) % chord.length ∧
    (arpCallback p).state.currentChord =
      (if (p.currentNote + 1) % chord.length = 0 then
        (p.currentChord + 1) % chordSequence.length else p.currentChord) ∧
    (arpCallback p).state.triggered = p.triggered ++ [chord[p.currentNote]?] := by
  unfold arpCallback
  rw [h]
  by_cases hw : (p.currentNote + 1) % chord.length = 0 <;> simp [hw, Run.state]

theorem arpSteps_succ (n : Nat) (p : Page) :
    arpSteps (n + 1) p = (arpCallback (arpSteps n p)).state := by
  induction n generalizing p with
  | zero => rfl
  | succ n ih =>
    show arpSteps (n + 1) (arpCallback p).state = _
    rw [ih]
    rfl

theorem arpSteps_from_start (p : Page) (hc : p.currentChord = 0) (hn : p.currentNote = 0)
    (n : Nat) :
    (arpSteps n p).currentChord = (n / 5) % 4 ∧
    (arpSteps n p).currentNote = n % 5 ∧
    (arpSteps n p).triggered =
      p.triggered ++
        (List.range n).map (fun i => (chordSequence[(i / 5) % 4]?).bind (fun ch => ch[i % 5]?)) := by
  induction n with
  | zero => simp [arpSteps, hc, hn]
  | succ n ih =>
    obtain ⟨ih1, ih2, ih3⟩ := ih
    obtain ⟨chord, hch, hlen⟩ := chordSequence_getElem ((n / 5) % 4) (Nat.mod_lt _ (by decide))
    have hch2 : chordSequence[(arpSteps n p).currentChord]? = some chord := by rw [ih1]; exact hch
    obtain ⟨s1, s2, s3⟩ := arpCallback_done (arpSteps n p) chord hch2
    rw [arpSteps_succ]
    have hl : chordSequence.length = 4 := rfl
    rw [hlen, ih2] at s1
    rw [hlen, hl, ih1, ih2] at s2
    rw [ih2, ih3] at s3
    refine ⟨?_, ?_, ?_⟩
    · rw [s2]
      split <;> omega
    · rw [s1]
      omega
    · rw [s3, List.range_succ, List.map_append, List.append_assoc]
      simp [hch]

/-- C7: from the first note of the first chord, 20 runs of the loop callback
bring `(currentChord, currentNote)` back to `(0, 0)` and no smaller positive
number of runs does; `chordSequence` has 4 chords of 5 notes each, and the 20
notes triggered are those chords in order. -/
theorem C7_arpeggiator_cycle_of_20 (p : Page) (hc : p.currentChord = 0)
    (hn : p.currentNote = 0) :
    ((arpSteps 20 p).currentChord = 0 ∧ (arpSteps 20 p).currentNote = 0) ∧
    (∀ k, 0 < k → k < 20 →
      ¬ ((arpSteps k p).currentChord = 0 ∧ (arpSteps k p).currentNote = 0)) ∧
    chordSequence.length = 4 ∧ (∀ chord ∈ chordSequence, chord.length = 5) ∧
    (arpSteps 20 p).triggered = p.triggered ++ chordSequence.flatten.map some := by
  refine ⟨?_, ?_, rfl, ?_, ?_⟩
  · obtain ⟨h1, h2, _⟩ := arpSteps_from_start p hc hn 20
    exact ⟨by rw [h1], by rw [h2]⟩
  · intro k hk0 hk20 hback
    obtain ⟨h1, h2, _⟩ := arpSteps_from_start p hc hn k
    rw [h1, h2] at hback
    omega
  · intro chord hmem
    simp only [chordSequence, List.mem_cons, List.mem_singleton, List.not_mem_nil,
      or_false] at hmem
    rcases hmem with h | h | h | h <;> subst h <;> rfl
  · obtain ⟨_, _, h3⟩ := arpSteps_from_start p hc hn 20
    rw [h3]
    rfl

/-- C7 at the page as loaded (`currentChord = 0`, `currentNote = 0`). -/
theorem C7_arpeggiator_cycle_of_20_witness :
    ((arpSteps 20 (Page.load [] [] true false)).currentChord = 0 ∧
      (arpSteps 20 (Page.load [] [] true false)).currentNote = 0) ∧
    (∀ k, 0 < k → k < 20 →
      ¬ ((arpSteps k (Page.load [] [] true false)).currentChord = 0 ∧
        (arpSteps k (Page.load [] [] true false)).currentNote = 0)) ∧
    chordSequence.length = 4 ∧ (∀ chord ∈ chordSequence, chord.length = 5) ∧
    (arpSteps 20 (Page.load [] [] true false)).triggered =
      (Page.load [] [] true false).triggered ++ chordSequence.flatten.map some :=
  C7_arpeggiator_cycle_of_20 (Page.load [] [] true false) rfl rfl

/-- C8: starting from `currentChord = 0`, `currentNote = 0` with nothing played
yet, the note triggered by the `n`-th run of the loop callback (counting from 0)
is `chordSequence[(n div 5) mod 4][n mod 5]`, a defined note; before that run
the indices are `(n div 5) mod 4` and `n mod 5`; each run advances the note
index by one modulo 5 and advances the chord index by one modulo 4 exactly when
the note index wraps to 0; the chords come in the order cMaj9, ebMaj9, fMaj9,
fMin9. -/
theorem C8_nth_note (p : Page) (hc : p.currentChord = 0) (hn : p.currentNote = 0)
    (ht : p.triggered = []) (n : Nat) :
    (arpSteps (n + 1) p).triggered[n]? =
      some ((chordSequence[(n / 5) % 4]?).bind (fun chord => chord[n % 5]?)) ∧
    (∃ note, (chordSequence[(n / 5) % 4]?).bind (fun chord => chord[n % 5]?) = some note) ∧
    ((arpSteps n p).currentChord = (n / 5) % 4 ∧ (arpSteps n p).currentNote = n % 5) ∧
    (arpSteps (n + 1) p).currentNote = ((arpSteps n p).currentNote + 1) % 5 ∧
    (arpSteps (n + 1) p).currentChord =
      (if (arpSteps (n + 1) p).currentNote = 0 then ((arpSteps n p).currentChord + 1) % 4
       else (arpSteps n p).currentChord) ∧
    chordSequence = [cMaj9, ebMaj9, fMaj9, fMin9] := by
  obtain ⟨a1, a2, _⟩ := arpSteps_from_start p hc hn n
  obtain ⟨b1, b2, b3⟩ := arpSteps_from_start p hc hn (n + 1)
  refine ⟨?_, ?_, ⟨a1, a2⟩, ?_, ?_, rfl⟩
  · rw [b3, ht, List.nil_append, List.getElem?_map, List.getElem?_range (Nat.lt_succ_self n)]
    rfl
  · obtain ⟨chord, hch, hlen⟩ := chordSequence_getElem ((n / 5) % 4) (Nat.mod_lt _ (by decide))
    have hk : n % 5 < chord.length := by rw [hlen]; exact Nat.mod_lt _ (by decide)
    exact ⟨chord[n % 5], by simp [hch, List.getElem?_eq_getElem hk]⟩
  · rw [b2, a2]
    omega
  · rw [b1, b2, a1]
    split <;> omega

/-- C8 at the page as loaded, for the run n = 7: the third note of the second
chord. -/
theorem C8_nth_note_witness :
    (arpSteps (7 + 1) (Page.load [] [] true false)).triggered[7]? =
      some ((chordSequence[(7 / 5) % 4]?).bind (fun chord => chord[7 % 5]?)) ∧
    (∃ note, (chordSequence[(7 / 5) % 4]?).bind (fun chord => chord[7 % 5]?) = some note) ∧
    ((arpSteps 7 (Page.load [] [] true false)).currentChord = (7 / 5) % 4 ∧
      (arpSteps 7 (Page.load [] [] true false)).currentNote = 7 % 5) ∧
    (arpSteps (7 + 1) (Page.load [] [] true false)).currentNote =
      ((arpSteps 7 (Page.load [] [] true false)).currentNote + 1) % 5 ∧
    (arpSteps (7 + 1) (Page.load [] [] true false)).currentChord =
      (if (arpSteps (7 + 1) (Page.load [] [] true false)).currentNote = 0 then
        ((arpSteps 7 (Page.load [] [] true false)).currentChord + 1) % 4
       else (arpSteps 7 (Page.load [] [] true false)).currentChord) ∧
    chordSequence = [cMaj9, ebMaj9, fMaj9, fMin9] :=
  C8_nth_note (Page.load [] [] true false) rfl rfl rfl 7

/-! ## Music toggle: theorems -/

theorem startMusic_of_arpeggiator (p : Page) (h : p.arpeggiator ≠ none) :
    (startMusic p).hasThrown = false ∧ (startMusic p).state.musicPlaying = true ∧
    (startMusic p).state.arpeggiator ≠ none ∧
    getMusicPreference (startMusic p).state.localStorage = some "on" := by
  cases ha : p.arpeggiator with
  | none => exact absurd ha h
  | some r =>
    by_cases hr : p.contextRunning <;>
      simp [startMusic, ha, hr, Run.hasThrown, Run.state, getMusicPreference,
        setMusicPreference, getItem, setItem, Storage.getItem_setItem_same]

theorem stopMusic_of_arpeggiator (p : Page) (h : p.arpeggiator ≠ none) :
    (stopMusic p).hasThrown = false ∧ (stopMusic p).state.musicPlaying = false ∧
    (stopMusic p).state.arpeggiator ≠ none ∧
    getMusicPreference (stopMusic p).state.localStorage = some "off" := by
  cases ha : p.arpeggiator with
  | none => exact absurd ha h
  | some r =>
    simp [stopMusic, ha, Run.hasThrown, Run.state, getMusicPreference,
      setMusicPreference, getItem, setItem, Storage.getItem_setItem_same]

/-- C9: once `musicSynth.init` has created the arpeggiator loop, the
`musicToggle` click handler and `vibeJamApp.toggleMusic` both run without an
exception, flip the playing state and persist the new state: from stopped the
music ends playing with stored preference `"on"`, from playing it ends stopped
with stored preference `"off"`; the loop still exists afterwards. -/
theorem C9_toggle_flips_and_persists (p : Page) (h : p.arpeggiator ≠ none) :
    ((musicToggleClick p).hasThrown = false ∧
      isPlaying (musicToggleClick p).state = !isPlaying p ∧
      getMusicPreference (musicToggleClick p).state.localStorage =
        some (if isPlaying p then "off" else "on") ∧
      (musicToggleClick p).state.arpeggiator ≠ none) ∧
    ((toggleMusic p).hasThrown = false ∧
      isPlaying (toggleMusic p).state = !isPlaying p ∧
      getMusicPreference (toggleMusic p).state.localStorage =
        some (if isPlaying p then "off" else "on") ∧
      (toggleMusic p).state.arpeggiator ≠ none) := by
  obtain ⟨a1, a2, a3, a4⟩ := startMusic_of_arpeggiator p h
  obtain ⟨b1, b2, b3, b4⟩ := stopMusic_of_arpeggiator p h
  cases hp : p.musicPlaying <;>
    simp [musicToggleClick, toggleMusic, isPlaying, hp, a1, a2, a3, a4, b1, b2, b3, b4]

/-- C9 at the page reached by `musicSynth.init` from an empty storage. -/
theorem C9_toggle_flips_and_persists_witness :
    ((musicToggleClick (musicSynthInit (Page.load [] [] true false)).state).hasThrown = false ∧
      isPlaying (musicToggleClick (musicSynthInit (Page.load [] [] true false)).state).state =
        !isPlaying (musicSynthInit (Page.load [] [] true false)).state ∧
      getMusicPreference
          (musicToggleClick (musicSynthInit (Page.load [] [] true false)).state).state.localStorage =
        some (if isPlaying (musicSynthInit (Page.load [] [] true false)).state then "off"
          else "on") ∧
      (musicToggleClick (musicSynthInit (Page.load [] [] true false)).state).state.arpeggiator ≠
        none) ∧
    ((toggleMusic (musicSynthInit (Page.load [] [] true false)).state).hasThrown = false ∧
      isPlaying (toggleMusic (musicSynthInit (Page.load [] [] true false)).state).state =
        !isPlaying (musicSynthInit (Page.load [] [] true false)).state ∧
      getMusicPreference
          (toggleMusic (musicSynthInit (Page.load [] [] true false)).state).state.localStorage =
        some (if isPlaying (musicSynthInit (Page.load [] [] true false)).state then "off"
          else "on") ∧
      (toggleMusic (musicSynthInit (Page.load [] [] true false)).state).state.arpeggiator ≠
        none) :=
  C9_toggle_flips_and_persists (musicSynthInit (Page.load [] [] true false)).state (by decide)

/-- C10: run on a page whose music is not playing (as at load), `musicSynth.init`
leaves `isPlaying()` true exactly when the music preference stored beforehand is
`"on"`; for any other stored value, or none, the music stays stopped and
`localStorage` is left as it was.  Either way the arpeggiator loop exists
afterwards. -/
theorem C10_init_follows_stored_preference (p : Page) (h : p.musicPlaying = false) :
    (isPlaying (musicSynthInit p).state = true ↔
      p.localStorage.getItem KEYS_MUSIC = some "on") ∧
    (p.localStorage.getItem KEYS_MUSIC ≠ some "on" →
      isPlaying (musicSynthInit p).state = false ∧
      (musicSynthInit p).state.localStorage = p.localStorage) ∧
    (musicSynthInit p).state.arpeggiator ≠ none := by
  have hpref : getMusicPreference p.localStorage = some "on" ↔
      p.localStorage.getItem KEYS_MUSIC = some "on" := by
    cases hg : p.localStorage.getItem KEYS_MUSIC <;> simp [getMusicPreference, getItem, hg]
  by_cases hon : p.localStorage.getItem KEYS_MUSIC = some "on"
  · have hon2 := hpref.mpr hon
    by_cases ht : p.hasMusicToggle <;> by_cases hr : p.contextRunning <;>
      simp [musicSynthInit, setupMusicToggle, setupArpeggiator, setupSynth, startMusic,
        Run.andThen, Run.state, isPlaying, hon, hon2, ht, hr]
  · have hon2 : ¬ getMusicPreference p.localStorage = some "on" := fun e => hon (hpref.mp e)
    by_cases ht : p.hasMusicToggle <;>
      simp [musicSynthInit, setupMusicToggle, setupArpeggiator, setupSynth,
        Run.andThen, Run.state, isPlaying, hon, hon2, ht, h]

/-- C10 at a freshly loaded page whose storage holds music = `"on"`. -/
theorem C10_init_follows_stored_preference_witness :
    (isPlaying (musicSynthInit (Page.load [("music", "on")] [] true false)).state = true ↔
      (Page.load [("music", "on")] [] true false).localStorage.getItem KEYS_MUSIC = some "on") ∧
    ((Page.load [("music", "on")] [] true false).localStorage.getItem KEYS_MUSIC ≠ some "on" →
      isPlaying (musicSynthInit (Page.load [("music", "on")] [] true false)).state = false ∧
      (musicSynthInit (Page.load [("music", "on")] [] true false)).state.localStorage =
        (Page.load [("music", "on")] [] true false).localStorage) ∧
    (musicSynthInit (Page.load [("music", "on")] [] true false)).state.arpeggiator ≠ none :=
  C10_init_follows_stored_preference (Page.load [("music", "on")] [] true false) rfl

/-! ## Vehicles: theorems -/

theorem updateVehicle_x (width : ℚ) (v : Vehicle) :
    (updateVehicle width v).x =
      (if (v.direction > 0 ∧ v.x + v.speed * v.direction > width + v.type.width) ∨
          (v.direction < 0 ∧ v.x + v.speed * v.direction < -v.type.width) then
        (if v.direction > 0 then -v.type.width else width + v.type.width)
      else v.x + v.speed * v.direction) := by
  by_cases hcar : v.type.type = "car" <;>
    simp only [updateVehicle, hcar, if_true, if_false] <;>
    split_ifs <;> rfl

theorem updateVehicle_fields (width : ℚ) (v : Vehicle) :
    (updateVehicle width v).direction = v.direction ∧ (updateVehicle width v).speed = v.speed ∧
    (updateVehicle width v).type = v.type ∧ (updateVehicle width v).y = v.y := by
  by_cases hcar : v.type.type = "car" <;>
    simp only [updateVehicle, hcar, if_true, if_false] <;>
    split_ifs <;> exact ⟨rfl, rfl, rfl, rfl⟩

theorem update_vehicles (draws : Nat → ℚ) (s : Scene) :
    (update draws s).vehicles = s.vehicles.map (updateVehicle s.width) := rfl

theorem update_airplanes (draws : Nat → ℚ) (s : Scene) :
    (update draws s).airplanes = s.airplanes.map (updateAirplane s.width) := rfl

/-- C1, as stated, fails on the tick that wraps: in a 1200 wide scene a vehicle
of width 50 at x = 1250 with speed 1 and direction +1 is at x = -50 after the
tick, whereas x + speed × direction = 1251. -/
theorem C1_counterexample_wrap_tick :
    (update (fun _ => 0) sceneAtRightBound).vehicles.map (fun v => v.x) = [-50] ∧
    sceneAtRightBound.vehicles.map (fun v => v.x + v.speed * v.direction) = [1251] ∧
    (update (fun _ => 0) sceneAtRightBound).vehicles.map (fun v => v.x) ≠
      sceneAtRightBound.vehicles.map (fun v => v.x + v.speed * v.direction) := by
  have h1 : (update (fun _ => 0) sceneAtRightBound).vehicles.map (fun v => v.x) = [-50] := by
    simp only [update_vehicles, sceneAtRightBound, List.map_cons, List.map_nil, updateVehicle_x]
    norm_num [vehicleAtRightBound]
  have h2 : sceneAtRightBound.vehicles.map (fun v => v.x + v.speed * v.direction) = [1251] := by
    norm_num [sceneAtRightBound, vehicleAtRightBound]
  refine ⟨h1, h2, ?_⟩
  rw [h1, h2]
  norm_num

/-- C1, amended: one tick of `update` maps every vehicle (pairing the list
before with the list after) to a vehicle with the same direction, speed, type
and lane whose x is x + speed × direction, unless that new position lies beyond
the viewport bound in the direction of travel (above width + vehicle width when
direction > 0, below -vehicle width when direction < 0): then x is the opposite
bound. -/
theorem C1_vehicle_advances_or_wraps (draws : Nat → ℚ) (s : Scene) :
    List.Forall₂
      (fun v w =>
        w.direction = v.direction ∧ w.speed = v.speed ∧ w.type = v.type ∧ w.y = v.y ∧
        w.x =
          (if (v.direction > 0 ∧ v.x + v.speed * v.direction > s.width + v.type.width) ∨
              (v.direction < 0 ∧ v.x + v.speed * v.direction < -v.type.width) then
            (if v.direction > 0 then -v.type.width else s.width + v.type.width)
          else v.x + v.speed * v.direction))
      s.vehicles (update draws s).vehicles := by
  rw [update_vehicles, List.forall₂_map_right_iff, List.forall₂_same]
  intro v _
  obtain ⟨h1, h2, h3, h4⟩ := updateVehicle_fields s.width v
  exact ⟨h1, h2, h3, h4, updateVehicle_x s.width v⟩

/-- C2: for a vehicle of positive speed in a scene of any width, if before a
tick of `update` its x is beyond the viewport bound in its direction of travel
(x > width + vehicle width with direction +1, x < -vehicle width with direction
-1), then after the tick its x is the opposite bound: -vehicle width for
direction +1, width + vehicle width for direction -1. -/
theorem C2_vehicle_beyond_bound_wraps (draws : Nat → ℚ) (s : Scene) (i : Nat) (v : Vehicle)
    (hv : s.vehicles[i]? = some v) (hs : 0 < v.speed) :
    (v.direction = 1 → v.x > s.width + v.type.width →
      ((update draws s).vehicles[i]?).map (fun w => w.x) = some (-v.type.width)) ∧
    (v.direction = -1 → v.x < -v.type.width →
      ((update draws s).vehicles[i]?).map (fun w => w.x) = some (s.width + v.type.width)) := by
  have hi : ((update draws s).vehicles[i]?).map (fun w => w.x) =
      some (updateVehicle s.width v).x := by
    rw [update_vehicles, List.getElem?_map, hv]
    rfl
  rw [hi, updateVehicle_x]
  constructor
  · intro hd hx
    have hc : v.direction > 0 ∧ v.x + v.speed * v.direction > s.width + v.type.width := by
      rw [hd]
      constructor
      · norm_num
      · linarith
    rw [if_pos (Or.inl hc), if_pos hc.1]
  · intro hd hx
    have hc : v.direction < 0 ∧ v.x + v.speed * v.direction < -v.type.width := by
      rw [hd]
      constructor
      · norm_num
      · linarith
    have hneg : ¬ v.direction > 0 := by
      rw [hd]
      norm_num
    rw [if_pos (Or.inr hc), if_neg hneg]

/-- C2 at a vehicle of width 50 at x = 1252 in a 1200 wide scene, direction +1,
speed 1: after the tick it is at x = -50. -/
theorem C2_vehicle_beyond_bound_wraps_witness :
    ((update (fun _ => 0) sceneBeyondRightBound).vehicles[0]?).map (fun w => w.x) =
      some (-50 : ℚ) :=
  (C2_vehicle_beyond_bound_wraps (fun _ => 0) sceneBeyondRightBound 0 vehicleBeyondRightBound
    rfl (by norm_num [vehicleBeyondRightBound, vehicleAtRightBound])).1 rfl
    (by norm_num [vehicleBeyondRightBound, vehicleAtRightBound, sceneBeyondRightBound])

/-! ## Sponsor airplanes: theorems -/

theorem updateSpriteAirplane_plane_x (width : ℚ) (a : SpriteAirplane) :
    (updateSpriteAirplane width a).plane.x =
      (if (a.direction > 0 ∧ a.plane.x + a.speed * 1.5 * a.direction > width + 200) ∨
          (a.direction < 0 ∧ a.plane.x + a.speed * 1.5 * a.direction < -200) then
        (if a.direction > 0 then -200 else width + 200)
      else a.plane.x + a.speed * 1.5 * a.direction) := by
  simp only [updateSpriteAirplane]
  split_ifs <;> rfl

theorem updateSpriteAirplane_banner_x (width : ℚ) (a : SpriteAirplane) :
    (updateSpriteAirplane width a).banner.x =
      (if a.direction > 0 then (updateSpriteAirplane width a).plane.x - 200
       else (updateSpriteAirplane width a).plane.x + 200) ∧
    (updateSpriteAirplane width a).text.x = (updateSpriteAirplane width a).banner.x := by
  simp only [updateSpriteAirplane]
  split_ifs <;> exact ⟨rfl, rfl⟩

theorem updateSpriteAirplane_fields (width : ℚ) (a : SpriteAirplane) :
    (updateSpriteAirplane width a).direction = a.direction ∧
    (updateSpriteAirplane width a).speed = a.speed ∧
    (updateSpriteAirplane width a).outline = a.outline := by
  simp only [updateSpriteAirplane]
  split_ifs <;> exact ⟨rfl, rfl, rfl⟩

theorem updateFallbackAirplane_x (width : ℚ) (a : FallbackAirplane) :
    (updateFallbackAirplane width a).x =
      (if (a.direction > 0 ∧ a.x + a.speed * a.direction * 2 > width + 50) ∨
          (a.direction < 0 ∧ a.x + a.speed * a.direction * 2 < -50) then
        (if a.direction > 0 then -50 else width + 50)
      else a.x + a.speed * a.direction * 2) := by
  simp only [updateFallbackAirplane]
  split_ifs <;> rfl

theorem updateFallbackAirplane_fields (width : ℚ) (a : FallbackAirplane) :
    (updateFallbackAirplane width a).direction = a.direction ∧
    (updateFallbackAirplane width a).speed = a.speed := by
  simp only [updateFallbackAirplane]
  split_ifs <;> exact ⟨rfl, rfl⟩

theorem updateFallbackAirplane_banner (width : ℚ) (a : FallbackAirplane) :
    (updateFallbackAirplane width a).banner.rectSpans =
      [if a.direction > 0 then
        ((updateFallbackAirplane width a).x + 50, (updateFallbackAirplane width a).x + 200)
       else ((updateFallbackAirplane width a).x - 200, (updateFallbackAirplane width a).x - 50)] := by
  simp only [updateFallbackAirplane]
  split_ifs <;>
    simp [Graphics.rectSpans, Graphics.draw, Graphics.clear, DrawCmd.rectSpan] <;> ring

theorem ticks_succ_airplanes (draws : Nat → Nat → ℚ) (n : Nat) (s : Scene) :
    (ticks draws (n + 1) s).airplanes =
      (ticks draws n s).airplanes.map (updateAirplane (ticks draws n s).width) := rfl

theorem ticks_airplanes_length (draws : Nat → Nat → ℚ) (n : Nat) (s : Scene) :
    (ticks draws n s).airplanes.length = s.airplanes.length := by
  induction n with
  | zero => rfl
  | succ n ih => rw [ticks_succ_airplanes, List.length_map, ih]

theorem createSponsors_airplanes (s : Scene) :
    ∀ a ∈ (createSponsors s).airplanes, ∃ p, a = Airplane.sprite p ∧
      (p.direction = 1 ∨ p.direction = -1) ∧ p.banner.x = p.plane.x - 350 * p.direction := by
  intro a ha
  simp only [createSponsors, List.mem_cons, List.mem_singleton, List.not_mem_nil,
    or_false] at ha
  rcases ha with h | h
  · exact ⟨_, h, Or.inl rfl, by norm_num⟩
  · exact ⟨_, h, Or.inr rfl, by norm_num⟩

theorem ticks_createSponsors_sprite (draws : Nat → Nat → ℚ) (s : Scene) (n : Nat) :
    ∀ a ∈ (ticks draws n (createSponsors s)).airplanes, ∃ p, a = Airplane.sprite p ∧
      (p.direction = 1 ∨ p.direction = -1) := by
  induction n with
  | zero =>
    intro a ha
    obtain ⟨p, hp, hd, _⟩ := createSponsors_airplanes s a ha
    exact ⟨p, hp, hd⟩
  | succ n ih =>
    intro a ha
    rw [ticks_succ_airplanes, List.mem_map] at ha
    obtain ⟨b, hb, hab⟩ := ha
    obtain ⟨q, hq, hd⟩ := ih b hb
    subst hq
    refine ⟨updateSpriteAirplane (ticks draws n (createSponsors s)).width q, hab.symm, ?_⟩
    rw [(updateSpriteAirplane_fields _ q).1]
    exact hd

theorem ticks_createSponsors_banner (draws : Nat → Nat → ℚ) (s : Scene) (n : Nat) :
    ∀ a ∈ (ticks draws (n + 1) (createSponsors s)).airplanes, ∃ p, a = Airplane.sprite p ∧
      p.banner.x = p.plane.x - 200 * p.direction := by
  intro a ha
  rw [ticks_succ_airplanes, List.mem_map] at ha
  obtain ⟨b, hb, hab⟩ := ha
  obtain ⟨q, hq, hd⟩ := ticks_createSponsors_sprite draws s n b hb
  subst hq
  refine ⟨updateSpriteAirplane (ticks draws n (createSponsors s)).width q, hab.symm, ?_⟩
  rw [(updateSpriteAirplane_banner_x _ q).1, (updateSpriteAirplane_fields _ q).1]
  rcases hd with hd | hd <;> rw [hd] <;> norm_num

theorem ticks_createFallbackScene_banner (draws : Nat → Nat → ℚ) (s : Scene) (n : Nat) :
    ∀ a ∈ (ticks draws n (createFallbackScene s)).airplanes, ∃ p, a = Airplane.fallback p ∧
      ((p.direction = 1 ∧ p.banner.rectSpans = [(p.x + 50, p.x + 200)]) ∨
       (p.direction = -1 ∧ p.banner.rectSpans = [(p.x - 200, p.x - 50)])) := by
  induction n with
  | zero =>
    intro a ha
    simp only [ticks, createFallbackScene, List.mem_cons, List.mem_singleton, List.not_mem_nil,
      or_false] at ha
    rcases ha with h | h
    · refine ⟨_, h, Or.inl ⟨rfl, ?_⟩⟩
      simp [Graphics.rectSpans, Graphics.draw, Graphics.fresh, DrawCmd.rectSpan]
      norm_num
    · refine ⟨_, h, Or.inr ⟨rfl, ?_⟩⟩
      simp [Graphics.rectSpans, Graphics.draw, Graphics.fresh, DrawCmd.rectSpan]
      ring
  | succ n ih =>
    intro a ha
    rw [ticks_succ_airplanes, List.mem_map] at ha
    obtain ⟨b, hb, hab⟩ := ha
    obtain ⟨q, hq, hd⟩ := ih b hb
    subst hq
    refine ⟨updateFallbackAirplane (ticks draws n (createFallbackScene s)).width q, hab.symm, ?_⟩
    rw [updateFallbackAirplane_banner, (updateFallbackAirplane_fields _ q).1]
    rcases hd with ⟨hd, _⟩ | ⟨hd, _⟩
    · left
      refine ⟨hd, ?_⟩
      rw [hd]
      norm_num
    · right
      refine ⟨hd, ?_⟩
      rw [hd]
      norm_num

/-- C3, as stated, fails: no single distance d > 0 serves every state of the
scene that `createSponsors` builds at 1200×600.  Right after `createSponsors`
the first plane is at x = 100 with its banner at x = -250 (350 behind); after
one tick the plane is at x = 103 and the banner at x = -97 (200 behind). -/
theorem C3_counterexample_no_single_distance :
    ¬ ∃ d : ℚ, 0 < d ∧
      ∀ n : Nat, ∀ a ∈ (ticks (fun _ _ => 0) n (createSponsors emptyScene)).airplanes,
        ∀ p, a = Airplane.sprite p → p.banner.x = p.plane.x - d * p.direction := by
  rintro ⟨d, _, h⟩
  have h0 := h 0
  have h1 := h 1
  simp only [ticks, update_airplanes, createSponsors, List.map_cons, List.map_nil,
    updateAirplane, List.mem_cons, List.mem_singleton, List.not_mem_nil, or_false] at h0 h1
  have e0 := h0 _ (Or.inl rfl) _ rfl
  have e1 := h1 _ (Or.inl rfl) _ rfl
  rw [(updateSpriteAirplane_banner_x _ _).1, updateSpriteAirplane_plane_x,
    (updateSpriteAirplane_fields _ _).1] at e1
  norm_num [emptyScene] at e0 e1
  linarith

/-- C3, amended: for the two airplanes that `createSponsors` builds, after every
update tick (one or more) the banner trails the plane by the fixed distance 200,
banner.x = plane.x - 200 × direction, while right after `createSponsors` the
banner is 350 behind, banner.x = plane.x - 350 × direction.  For the two
airplanes that `createFallbackScene` builds, right after construction and after
any number of ticks the banner rectangle lies ahead of the plane's x in the
direction of travel: it spans x + 50 to x + 200 for direction +1 and x - 200 to
x - 50 for direction -1. -/
theorem C3_banner_offsets (draws : Nat → Nat → ℚ) (s : Scene) (n : Nat) :
    ((createSponsors s).airplanes.length = 2 ∧
      ∀ a ∈ (createSponsors s).airplanes, ∃ p, a = Airplane.sprite p ∧
        p.banner.x = p.plane.x - 350 * p.direction) ∧
    ((ticks draws (n + 1) (createSponsors s)).airplanes.length = 2 ∧
      ∀ a ∈ (ticks draws (n + 1) (createSponsors s)).airplanes, ∃ p, a = Airplane.sprite p ∧
        p.banner.x = p.plane.x - 200 * p.direction) ∧
    ((ticks draws n (createFallbackScene s)).airplanes.length = 2 ∧
      ∀ a ∈ (ticks draws n (createFallbackScene s)).airplanes, ∃ p, a = Airplane.fallback p ∧
        ((p.direction = 1 ∧ p.banner.rectSpans = [(p.x + 50, p.x + 200)]) ∨
         (p.direction = -1 ∧ p.banner.rectSpans = [(p.x - 200, p.x - 50)]))) := by
  refine ⟨⟨rfl, ?_⟩, ⟨?_, ticks_createSponsors_banner draws s n⟩,
    ⟨?_, ticks_createFallbackScene_banner draws s n⟩⟩
  · intro a ha
    obtain ⟨p, hp, _, hb⟩ := createSponsors_airplanes s a ha
    exact ⟨p, hp, hb⟩
  · rw [ticks_airplanes_length]
    rfl
  · rw [ticks_airplanes_length]
    rfl

/-- C4, as stated, fails: in the 1200×600 scene that `createSponsors` builds the
planes have speed 2 and directions +1 and -1 and stand at x = 100 and x = 1100;
one tick moves them to x = 103 and x = 1097, not to x + speed × direction = 102
and 1098. -/
theorem C4_counterexample_sprite_step :
    (createSponsors emptyScene).airplanes.map Airplane.planeX = [100, 1100] ∧
    (createSponsors emptyScene).airplanes.map
      (fun a => a.planeX + a.speed * a.direction) = [102, 1098] ∧
    (update (fun _ => 0) (createSponsors emptyScene)).airplanes.map Airplane.planeX =
      [103, 1097] ∧
    (update (fun _ => 0) (createSponsors emptyScene)).airplanes.map Airplane.planeX ≠
      (createSponsors emptyScene).airplanes.map (fun a => a.planeX + a.speed * a.direction) := by
  have h1 : (createSponsors emptyScene).airplanes.map Airplane.planeX = [100, 1100] := by
    norm_num [createSponsors, emptyScene, Airplane.planeX]
  have h2 : (createSponsors emptyScene).airplanes.map
      (fun a => a.planeX + a.speed * a.direction) = [102, 1098] := by
    norm_num [createSponsors, emptyScene, Airplane.planeX, Airplane.speed, Airplane.direction]
  have h3 : (update (fun _ => 0) (createSponsors emptyScene)).airplanes.map Airplane.planeX =
      [103, 1097] := by
    simp only [update_airplanes, createSponsors, List.map_cons, List.map_nil, updateAirplane,
      Airplane.planeX, updateSpriteAirplane_plane_x]
    norm_num [emptyScene]
  refine ⟨h1, h2, h3, ?_⟩
  rw [h2, h3]
  norm_num

/-- C4, amended: one tick of `update` keeps every airplane's direction and speed
and moves its plane by 1.5 × speed × direction when the plane is a sprite and by
2 × speed × direction when it is a fallback (graphics) plane, unless the new
position lies beyond the wrap bound in the direction of travel (200 outside the
viewport for a sprite, 50 for a fallback plane): then the plane is put on the
opposite bound. -/
theorem C4_airplane_step (draws : Nat → ℚ) (s : Scene) :
    List.Forall₂
      (fun a b =>
        b.direction = a.direction ∧ b.speed = a.speed ∧
        b.planeX =
          (match a with
           | .sprite p =>
             (if (p.direction > 0 ∧ p.plane.x + 1.5 * p.speed * p.direction > s.width + 200) ∨
                 (p.direction < 0 ∧ p.plane.x + 1.5 * p.speed * p.direction < -200) then
               (if p.direction > 0 then -200 else s.width + 200)
             else p.plane.x + 1.5 * p.speed * p.direction)
           | .fallback p =>
             (if (p.direction > 0 ∧ p.x + 2 * p.speed * p.direction > s.width + 50) ∨
                 (p.direction < 0 ∧ p.x + 2 * p.speed * p.direction < -50) then
               (if p.direction > 0 then -50 else s.width + 50)
             else p.x + 2 * p.speed * p.direction)))
      s.airplanes (update draws s).airplanes := by
  rw [update_airplanes, List.forall₂_map_right_iff, List.forall₂_same]
  intro a _
  cases a with
  | sprite p =>
    refine ⟨(updateSpriteAirplane_fields s.width p).1, (updateSpriteAirplane_fields s.width p).2.1,
      ?_⟩
    show (updateSpriteAirplane s.width p).plane.x = _
    rw [updateSpriteAirplane_plane_x]
    have e : p.plane.x + p.speed * 1.5 * p.direction =
        p.plane.x + 1.5 * p.speed * p.direction := by ring
    rw [e]
  | fallback p =>
    refine ⟨(updateFallbackAirplane_fields s.width p).1,
      (updateFallbackAirplane_fields s.width p).2, ?_⟩
    show (updateFallbackAirplane s.width p).x = _
    rw [updateFallbackAirplane_x]
    have e : p.x + p.speed * p.direction * 2 = p.x + 2 * p.speed * p.direction := by ring
    rw [e]

/-! ## Theme manager: theorems -/

theorem classListContains_add (cs : List String) (c : String) :
    classListContains (classListAdd cs c) c = true := by
  unfold classListContains classListAdd
  by_cases h : c ∈ cs <;> simp [h]

theorem classListContains_remove (cs : List String) (c : String) :
    classListContains (classListRemove cs c) c = false := by
  simp [classListContains, classListRemove]

/-- C11: after `themeManager.init` the current theme follows the stored
preference, whatever classes the body carried and whether or not a toggle
element exists: `getCurrentTheme()` is `"light"` when the stored theme is
`"light"`, and `"dark"` when it is `"dark"` or absent (indeed for any stored
value other than `"light"`); `localStorage` is left as it was. -/
theorem C11_init_theme_is_stored_preference (hasThemeToggle : Bool) (p : Page)
    (t : ThemeManager) :
    (p.localStorage.getItem KEYS_THEME = some "light" →
      getCurrentTheme (themeManagerInit hasThemeToggle p t).1
        (themeManagerInit hasThemeToggle p t).2 = "light") ∧
    (p.localStorage.getItem KEYS_THEME = some "dark" ∨ p.localStorage.getItem KEYS_THEME = none →
      getCurrentTheme (themeManagerInit hasThemeToggle p t).1
        (themeManagerInit hasThemeToggle p t).2 = "dark") ∧
    (p.localStorage.getItem KEYS_THEME ≠ some "light" →
      getCurrentTheme (themeManagerInit hasThemeToggle p t).1
        (themeManagerInit hasThemeToggle p t).2 = "dark") ∧
    (themeManagerInit hasThemeToggle p t).1.localStorage = p.localStorage := by
  have hpref : getThemePreference p.localStorage = some "light" ↔
      p.localStorage.getItem KEYS_THEME = some "light" := by
    cases hg : p.localStorage.getItem KEYS_THEME <;> simp [getThemePreference, getItem, hg]
  have hlight : p.localStorage.getItem KEYS_THEME = some "light" →
      getCurrentTheme (themeManagerInit hasThemeToggle p t).1
        (themeManagerInit hasThemeToggle p t).2 = "light" := by
    intro h
    have h2 := hpref.mpr h
    cases hasThemeToggle <;>
      simp [themeManagerInit, setupThemeToggle, getCurrentTheme, h2, classListContains_add]
  have hdark : p.localStorage.getItem KEYS_THEME ≠ some "light" →
      getCurrentTheme (themeManagerInit hasThemeToggle p t).1
        (themeManagerInit hasThemeToggle p t).2 = "dark" := by
    intro h
    have h2 : ¬ getThemePreference p.localStorage = some "light" := fun e => h (hpref.mp e)
    cases hasThemeToggle <;>
      simp [themeManagerInit, setupThemeToggle, getCurrentTheme, h2, classListContains_remove]
  refine ⟨hlight, ?_, hdark, ?_⟩
  · intro h
    apply hdark
    rcases h with h | h <;> rw [h] <;> simp
  · by_cases h2 : getThemePreference p.localStorage = some "light" <;>
      cases hasThemeToggle <;> simp [themeManagerInit, setupThemeToggle, h2]

/-- C12: once `init` has bound `body`, every run of `toggleTheme` returns
normally, flips the current theme between `"dark"` and `"light"` and persists
it: `getCurrentTheme()` afterwards differs from its value before, and
`getThemePreference()` afterwards equals `getCurrentTheme()`. -/
theorem C12_toggle_flips_and_persists_theme (p : Page) (t : ThemeManager)
    (h : t.body = true) :
    (toggleTheme p t).hasThrown = false ∧
    getCurrentTheme (toggleTheme p t).state t ≠ getCurrentTheme p t ∧
    (getCurrentTheme p t = "dark" ∨ getCurrentTheme p t = "light") ∧
    (getCurrentTheme (toggleTheme p t).state t = "dark" ∨
      getCurrentTheme (toggleTheme p t).state t = "light") ∧
    getThemePreference (toggleTheme p t).state.localStorage =
      some (getCurrentTheme (toggleTheme p t).state t) := by
  by_cases hc : classListContains p.bodyClasses "light-mode" = true
  · simp [toggleTheme, getCurrentTheme, classListToggle, h, hc, classListContains_remove,
      Run.hasThrown, Run.state, getThemePreference, setThemePreference, getItem, setItem,
      Storage.getItem_setItem_same]
  · simp [toggleTheme, getCurrentTheme, classListToggle, h, hc, classListContains_add,
      Run.hasThrown, Run.state, getThemePreference, setThemePreference, getItem, setItem,
      Storage.getItem_setItem_same]

/-- C12 at the page reached by `themeManager.init` from an empty storage with a
toggle element present. -/
theorem C12_toggle_flips_and_persists_theme_witness :
    (toggleTheme (themeManagerInit true (Page.load [] [] true false) ThemeManager.load).1
        (themeManagerInit true (Page.load [] [] true false) ThemeManager.load).2).hasThrown =
      false ∧
    getCurrentTheme
        (toggleTheme (themeManagerInit true (Page.load [] [] true false) ThemeManager.load).1
          (themeManagerInit true (Page.load [] [] true false) ThemeManager.load).2).state
        (themeManagerInit true (Page.load [] [] true false) ThemeManager.load).2 = "light" ∧
    getThemePreference
        (toggleTheme (themeManagerInit true (Page.load [] [] true false) ThemeManager.load).1
          (themeManagerInit true (Page.load [] [] true false)
            ThemeManager.load).2).state.localStorage = some "light" := by
  have h := C12_toggle_flips_and_persists_theme
    (themeManagerInit true (Page.load [] [] true false) ThemeManager.load).1
    (themeManagerInit true (Page.load [] [] true false) ThemeManager.load).2 rfl
  refine ⟨h.1, by decide, by decide⟩

/-! ## `createVehicles`: theorems -/

theorem jsIndex_pair {α : Type} (a b : α) (r : ℚ) (h0 : 0 ≤ r) (h1 : r < 1) :
    jsIndex [a, b] (r * 2) = some a ∨ jsIndex [a, b] (r * 2) = some b := by
  have hf0 : 0 ≤ ⌊r * 2⌋ := Int.floor_nonneg.mpr (by linarith)
  have hf1 : ⌊r * 2⌋ < 2 := Int.floor_lt.mpr (by push_cast; linarith)
  unfold jsIndex
  rw [if_pos hf0]
  have h2 : ⌊r * 2⌋.toNat < 2 := by omega
  interval_cases h : ⌊r * 2⌋.toNat
  · left; rfl
  · right; rfl

theorem createVehicle_some (rand : Nat → ℚ) (hr : ∀ k, 0 ≤ rand k ∧ rand k < 1)
    (width height : ℚ) (i : Nat) :
    ∃ v, createVehicle rand width height i = some v ∧
      v.direction = (if i % 2 = 0 then -1 else 1) ∧
      v.y = (if i % 2 = 0 then height - 20 else height - 40) ∧
      v.x = (if i % 2 = 0 then width + v.type.width else -v.type.width) ∧
      v.type ∈ vehicleTypes := by
  have hlen : ((vehicleTypes.length : Nat) : ℚ) = 2 := by norm_num [vehicleTypes]
  have hidx := jsIndex_pair vehicleTypes[0] vehicleTypes[1] (rand (3 * i)) (hr _).1 (hr _).2
  have hlist : vehicleTypes = [vehicleTypes[0], vehicleTypes[1]] := rfl
  rw [← hlist] at hidx
  unfold createVehicle
  rw [hlen]
  rcases hidx with h | h <;> rw [h] <;>
    by_cases hi : i % 2 = 0 <;>
    refine ⟨_, rfl, ?_, ?_, ?_, ?_⟩ <;>
    norm_num [hi, vehicleTypes]

theorem createVehicle_some_topLevel (rand : Nat → ℚ) (width height : ℚ) (i : Nat) :
    ∃ v, TopLevel.createVehicle rand width height i = some v ∧
      v.direction = (if i % 2 = 0 then -1 else 1) ∧
      v.y = (if i % 2 = 0 then height - 20 else height - 40) ∧
      v.x = (if i % 2 = 0 then width + v.type.width else -v.type.width) ∧
      v.type ∈ TopLevel.vehicleTypes := by
  by_cases hi : i % 2 = 0 <;>
    refine ⟨_, rfl, ?_, ?_, ?_, ?_⟩ <;>
    norm_num [hi, TopLevel.vehicleTypes]

theorem pushVehicles_four (build : Nat → Option Vehicle) (v0 v1 v2 v3 : Vehicle)
    (h0 : build 0 = some v0) (h1 : build 1 = some v1) (h2 : build 2 = some v2)
    (h3 : build 3 = some v3) :
    pushVehicles build (List.range 4) [] = .done [v0, v1, v2, v3] := by
  have hr : List.range 4 = [0, 1, 2, 3] := rfl
  rw [hr]
  simp [pushVehicles, h0, h1, h2, h3]

theorem vehicles_of_four (width height : ℚ) (v0 v1 v2 v3 : Vehicle)
    (h0 : v0.direction = -1 ∧ v0.y = height - 20 ∧ v0.x = width + v0.type.width)
    (h1 : v1.direction = 1 ∧ v1.y = height - 40 ∧ v1.x = -v1.type.width)
    (h2 : v2.direction = -1 ∧ v2.y = height - 20 ∧ v2.x = width + v2.type.width)
    (h3 : v3.direction = 1 ∧ v3.y = height - 40 ∧ v3.x = -v3.type.width) :
    [v0, v1, v2, v3].length = 4 ∧
    [v0, v1, v2, v3].map (fun v => v.direction) = [-1, 1, -1, 1] ∧
    ∀ v ∈ [v0, v1, v2, v3],
      (v.direction = 1 → v.y = height - 40 ∧ v.x = -v.type.width) ∧
      (v.direction = -1 → v.y = height - 20 ∧ v.x = width + v.type.width) := by
  refine ⟨rfl, ?_, ?_⟩
  · simp [h0.1, h1.1, h2.1, h3.1]
  · intro v hv
    simp only [List.mem_cons, List.mem_singleton, List.not_mem_nil, or_false] at hv
    rcases hv with h | h | h | h <;> subst h
    · exact ⟨fun e => absurd (h0.1.symm.trans e) (by norm_num), fun _ => h0.2⟩
    · exact ⟨fun _ => h1.2, fun e => absurd (h1.1.symm.trans e) (by norm_num)⟩
    · exact ⟨fun e => absurd (h2.1.symm.trans e) (by norm_num), fun _ => h2.2⟩
    · exact ⟨fun _ => h3.2, fun e => absurd (h3.1.symm.trans e) (by norm_num)⟩

/-- C20: with every `Math.random()` draw in [0, 1), `createVehicles` (in
src/js/cityscapeGame.js and in src/cityscapeGame.js alike) returns normally having
created exactly 4 vehicles with directions -1, +1, -1, +1 in that order; every
+1 vehicle is on lane y = height - 40 and starts at x = -vehicle width, every -1
vehicle is on lane y = height - 20 and starts at x = width + vehicle width. -/
theorem C20_createVehicles_four_alternating (rand : Nat → ℚ)
    (hr : ∀ k, 0 ≤ rand k ∧ rand k < 1) (s : Scene) :
    ((createVehicles rand s).hasThrown = false ∧
      (createVehicles rand s).state.vehicles.length = 4 ∧
      (createVehicles rand s).state.vehicles.map (fun v => v.direction) = [-1, 1, -1, 1] ∧
      ∀ v ∈ (createVehicles rand s).state.vehicles,
        (v.direction = 1 → v.y = s.height - 40 ∧ v.x = -v.type.width) ∧
        (v.direction = -1 → v.y = s.height - 20 ∧ v.x = s.width + v.type.width)) ∧
    ((TopLevel.createVehicles rand s).hasThrown = false ∧
      (TopLevel.createVehicles rand s).state.vehicles.length = 4 ∧
      (TopLevel.createVehicles rand s).state.vehicles.map (fun v => v.direction) =
        [-1, 1, -1, 1] ∧
      ∀ v ∈ (TopLevel.createVehicles rand s).state.vehicles,
        (v.direction = 1 → v.y = s.height - 40 ∧ v.x = -v.type.width) ∧
        (v.direction = -1 → v.y = s.height - 20 ∧ v.x = s.width + v.type.width)) := by
  constructor
  · obtain ⟨v0, e0, d0, y0, x0, _⟩ := createVehicle_some rand hr s.width s.height 0
    obtain ⟨v1, e1, d1, y1, x1, _⟩ := createVehicle_some rand hr s.width s.height 1
    obtain ⟨v2, e2, d2, y2, x2, _⟩ := createVehicle_some rand hr s.width s.height 2
    obtain ⟨v3, e3, d3, y3, x3, _⟩ := createVehicle_some rand hr s.width s.height 3
    have hp := pushVehicles_four (createVehicle rand s.width s.height) v0 v1 v2 v3 e0 e1 e2 e3
    have hc : createVehicles rand s = .done { s with vehicles := [v0, v1, v2, v3] } := by
      unfold createVehicles
      rw [hp]
    rw [hc]
    exact ⟨rfl, vehicles_of_four s.width s.height v0 v1 v2 v3
      ⟨by simpa using d0, by simpa using y0, by simpa using x0⟩
      ⟨by simpa using d1, by simpa using y1, by simpa using x1⟩
      ⟨by simpa using d2, by simpa using y2, by simpa using x2⟩
      ⟨by simpa using d3, by simpa using y3, by simpa using x3⟩⟩
  · obtain ⟨v0, e0, d0, y0, x0, _⟩ := createVehicle_some_topLevel rand s.width s.height 0
    obtain ⟨v1, e1, d1, y1, x1, _⟩ := createVehicle_some_topLevel rand s.width s.height 1
    obtain ⟨v2, e2, d2, y2, x2, _⟩ := createVehicle_some_topLevel rand s.width s.height 2
    obtain ⟨v3, e3, d3, y3, x3, _⟩ := createVehicle_some_topLevel rand s.width s.height 3
    have hp := pushVehicles_four (TopLevel.createVehicle rand s.width s.height) v0 v1 v2 v3
      e0 e1 e2 e3
    have hc : TopLevel.createVehicles rand s = .done { s with vehicles := [v0, v1, v2, v3] } := by
      unfold TopLevel.createVehicles
      rw [hp]
    rw [hc]
    exact ⟨rfl, vehicles_of_four s.width s.height v0 v1 v2 v3
      ⟨by simpa using d0, by simpa using y0, by simpa using x0⟩
      ⟨by simpa using d1, by simpa using y1, by simpa using x1⟩
      ⟨by simpa using d2, by simpa using y2, by simpa using x2⟩
      ⟨by simpa using d3, by simpa using y3, by simpa using x3⟩⟩

/-- C20 in the 1200×600 scene with every draw equal to 0. -/
theorem C20_createVehicles_four_alternating_witness :
    (createVehicles (fun _ => 0) emptyScene).state.vehicles.length = 4 ∧
    (createVehicles (fun _ => 0) emptyScene).state.vehicles.map (fun v => v.direction) =
      [-1, 1, -1, 1] ∧
    (TopLevel.createVehicles (fun _ => 0) emptyScene).state.vehicles.length = 4 :=
  have h := C20_createVehicles_four_alternating (fun _ => 0)
    (fun _ => ⟨le_refl 0, by norm_num⟩) emptyScene
  ⟨h.1.2.1, h.1.2.2.1, h.2.2.1⟩

/-! ## Textures and `preload`: theorems -/

theorem Scene.lookup_texturesAdd (s : Scene) (k k2 : String) (src : TextureSource) :
    (s.texturesAdd k src).textures.lookup k2 =
      (s.textures.lookup k2).or (if k2 = k then some src else none) := by
  unfold Scene.texturesAdd Scene.texturesExists
  cases h : s.textures.lookup k with
  | some v =>
    by_cases e : k2 = k
    · subst e
      simp [h]
    · simp [e]
  | none =>
    by_cases e : k2 = k
    · simp [List.lookup_append, List.lookup, e]
    · have e2 : (k2 == k) = false := by simpa using e
      simp [List.lookup_append, List.lookup, e, e2]

theorem Scene.lookup_texturesRemove (s : Scene) (k k2 : String) :
    (s.texturesRemove k).textures.lookup k2 =
      (if k2 = k then none else s.textures.lookup k2) := by
  unfold Scene.texturesRemove
  simp only
  induction s.textures with
  | nil => simp
  | cons p l ih =>
    obtain ⟨a, b⟩ := p
    by_cases ha : a = k
    · subst ha
      by_cases e : k2 = a
      · simp [List.filter, e] at ih ⊢
        exact ih
      · have e2 : (k2 == a) = false := by simpa using e
        simp [List.filter, List.lookup, e, e2] at ih ⊢
        exact ih
    · have hk : (a != k) = true := by simpa using ha
      by_cases e : k2 = k
      · subst e
        have e2 : (k2 == a) = false := by simpa using fun h => ha h.symm
        simp [List.filter, hk, List.lookup, e2] at ih ⊢
        exact ih
      · by_cases e3 : k2 = a
        · subst e3
          simp [List.filter, hk, e]
        · have e4 : (k2 == a) = false := by simpa using e3
          simp [List.filter, hk, List.lookup, e4, e] at ih ⊢
          exact ih

theorem createPlaceholder_lookup (env : AssetEnv) (k k2 : String) (s : Scene) :
    (createPlaceholder env k s).textures.lookup k2 =
      (s.textures.lookup k2).or
        (if k2 = k then
          some (.canvas (placeholderSize k).1 (placeholderSize k).2 (placeholderColor k)
            (!env.shapeThrows k))
         else none) := by
  unfold createPlaceholder
  by_cases h1 : env.shapeThrows k = true
  · simp only [h1, if_true]
    rw [Scene.lookup_texturesAdd]
    rfl
  · have h1f : env.shapeThrows k = false := by simpa using h1
    by_cases h2 : env.saveThrows k = true
    · simp only [h1f, h2, if_true, Bool.false_eq_true, if_false]
      show (s.texturesAdd k _).textures.lookup k2 = _
      rw [Scene.lookup_texturesAdd]
      rfl
    · simp only [h1f, h2, Bool.false_eq_true, if_false]
      show (s.texturesAdd k _).textures.lookup k2 = _
      rw [Scene.lookup_texturesAdd]
      rfl

theorem assetKey_injective (a b : String) (h : assetKey a = assetKey b) : a = b := by
  unfold assetKey at h
  have hd := congrArg String.data h
  rw [String.data_append, String.data_append] at hd
  exact String.ext (List.append_cancel_left hd)

theorem Storage.getItem_setItem_ne (s : Storage) (k k2 v : String) (h : k2 ≠ k) :
    (s.setItem k v).getItem k2 = s.getItem k2 := by
  unfold Storage.getItem Storage.setItem
  have e : (k2 == k) = false := by simpa using h
  simp only [List.lookup, e]
  induction s with
  | nil => rfl
  | cons p l ih =>
    obtain ⟨a, b⟩ := p
    by_cases ha : a = k
    · subst ha
      have e2 : (k2 == a) = false := e
      simp [List.filter, List.lookup, e2]
      exact ih
    · have hk : (a != k) = true := by simpa using ha
      by_cases e3 : k2 = a
      · subst e3
        simp [List.filter, hk]
      · have e4 : (k2 == a) = false := by simpa using e3
        simp [List.filter, hk, List.lookup, e4]
        exact ih

theorem createPlaceholder_getItem (env : AssetEnv) (k k2 : String) (s : Scene)
    (h : k2 ≠ assetKey k) :
    (createPlaceholder env k s).localStorage.getItem k2 = s.localStorage.getItem k2 := by
  unfold createPlaceholder
  by_cases h1 : env.shapeThrows k = true
  · simp only [h1, if_true]
    unfold Scene.texturesAdd Scene.logError
    split <;> rfl
  · have h1f : env.shapeThrows k = false := by simpa using h1
    by_cases h2 : env.saveThrows k = true
    · simp only [h1f, h2, if_true, Bool.false_eq_true, if_false]
      unfold Scene.texturesAdd Scene.logError
      split <;> rfl
    · simp only [h1f, h2, Bool.false_eq_true, if_false]
      rw [Storage.getItem_setItem_ne _ _ _ _ h]
      unfold Scene.texturesAdd
      split <;> rfl

theorem createPlaceholder_texturesExists (env : AssetEnv) (k : String) (s : Scene) :
    (createPlaceholder env k s).texturesExists k = true := by
  unfold Scene.texturesExists
  rw [createPlaceholder_lookup]
  cases s.textures.lookup k <;> simp

theorem createPlaceholder_texturesExists_mono (env : AssetEnv) (k k2 : String) (s : Scene)
    (h : s.texturesExists k2 = true) : (createPlaceholder env k s).texturesExists k2 = true := by
  unfold Scene.texturesExists at h ⊢
  rw [createPlaceholder_lookup]
  cases hl : s.textures.lookup k2 with
  | none => rw [hl] at h; cases h
  | some v => rfl

theorem preloadVerify_mono (env : AssetEnv) (names : List String) (s : Scene) (k : String)
    (h : s.texturesExists k = true) : (preloadVerify env names s).texturesExists k = true := by
  induction names generalizing s with
  | nil => exact h
  | cons name rest ih =>
    show (preloadVerify env rest _).texturesExists k = true
    apply ih
    beta_reduce
    by_cases he : s.texturesExists name = true
    · rw [if_pos he]
      exact h
    · rw [if_neg he]
      exact createPlaceholder_texturesExists_mono env name k _ h

theorem preloadVerify_exists (env : AssetEnv) (names : List String) (s : Scene) :
    ∀ n ∈ names, (preloadVerify env names s).texturesExists n = true := by
  induction names generalizing s with
  | nil => intro n hn; cases hn
  | cons name rest ih =>
    intro n hn
    show (preloadVerify env rest _).texturesExists n = true
    rcases List.mem_cons.mp hn with h | h
    · subst h
      apply preloadVerify_mono
      beta_reduce
      by_cases he : s.texturesExists n = true
      · rw [if_pos he]
        exact he
      · rw [if_neg he]
        exact createPlaceholder_texturesExists env n _
    · exact ih _ n h

theorem ImagesAccountedFor.createPlaceholder {env : AssetEnv} {cache : Storage} {s : Scene}
    (h : ImagesAccountedFor env cache s) (k : String) :
    ImagesAccountedFor env cache (createPlaceholder env k s) := by
  intro n d hn hl
  rw [createPlaceholder_lookup] at hl
  cases hs : s.textures.lookup n with
  | some v =>
    rw [hs] at hl
    exact h n d hn (hs.trans hl)
  | none =>
    rw [hs] at hl
    by_cases e : n = k
    · simp [e] at hl
    · simp [e] at hl

theorem ImagesAccountedFor.logError {env : AssetEnv} {cache : Storage} {s : Scene}
    (h : ImagesAccountedFor env cache s) (m : String) :
    ImagesAccountedFor env cache (s.logError m) := h

theorem ImagesAccountedFor.imageSettled {env : AssetEnv} {cache : Storage} {s : Scene}
    (h : ImagesAccountedFor env cache s) (k d : String)
    (hp : cache.getItem (assetKey k) = some d ∧ d ≠ "") :
    ImagesAccountedFor env cache (imageSettled env s k d) := by
  unfold VibeJam.imageSettled
  by_cases h1 : env.imageLoads k = true
  · by_cases h2 : env.addImageThrows k = true
    · rw [if_pos h1, if_pos h2]
      exact (h.logError _).createPlaceholder k
    · rw [if_pos h1, if_neg h2]
      intro n d2 hn hl
      rw [Scene.lookup_texturesAdd] at hl
      cases hs : s.textures.lookup n with
      | some v =>
        rw [hs] at hl
        exact h n d2 hn (hs.trans hl)
      | none =>
        rw [hs] at hl
        by_cases e : n = k
        · subst e
          simp at hl
          subst hl
          exact ⟨hp.1, hp.2, h1, by simpa using h2⟩
        · simp [e] at hl
  · rw [if_neg h1]
    exact (h.logError _).createPlaceholder k

theorem preloadExecutors_accounted (env : AssetEnv) (cache : Storage) :
    ∀ (rest : List String) (s : Scene) (pending : List (String × String)),
      rest.Nodup →
      (∀ n ∈ rest, s.localStorage.getItem (assetKey n) = cache.getItem (assetKey n)) →
      ImagesAccountedFor env cache s →
      (∀ p ∈ pending, cache.getItem (assetKey p.1) = some p.2 ∧ p.2 ≠ "") →
      ImagesAccountedFor env cache (preloadExecutors env rest s pending).1 ∧
      ∀ p ∈ (preloadExecutors env rest s pending).2,
        cache.getItem (assetKey p.1) = some p.2 ∧ p.2 ≠ "" := by
  intro rest
  induction rest with
  | nil =>
    intro s pending _ _ hj hp
    exact ⟨hj, hp⟩
  | cons name rest ih =>
    intro s pending hnd hc hj hp
    have hnd2 := (List.nodup_cons.mp hnd).2
    have hnot := (List.nodup_cons.mp hnd).1
    have hframe : ∀ n ∈ rest, (createPlaceholder env name s).localStorage.getItem (assetKey n) =
        cache.getItem (assetKey n) := by
      intro n hn
      have hne : assetKey n ≠ assetKey name := by
        intro e
        have := assetKey_injective n name e
        subst this
        exact hnot hn
      rw [createPlaceholder_getItem env name (assetKey n) s hne]
      exact hc n (List.mem_cons_of_mem _ hn)
    have hrest : ∀ n ∈ rest, s.localStorage.getItem (assetKey n) = cache.getItem (assetKey n) :=
      fun n hn => hc n (List.mem_cons_of_mem _ hn)
    have hname := hc name (List.mem_cons_self _ _)
    unfold preloadExecutors
    cases hg : s.localStorage.getItem (assetKey name) with
    | none =>
      simp only
      exact ih _ _ hnd2 hframe (hj.createPlaceholder name) hp
    | some dataURL =>
      simp only
      by_cases hd : dataURL ≠ ""
      · rw [if_pos hd]
        apply ih _ _ hnd2 hrest hj
        intro p hpm
        rcases List.mem_append.mp hpm with h | h
        · exact hp p h
        · simp only [List.mem_singleton] at h
          subst h
          exact ⟨by rw [← hname, hg], hd⟩
      · rw [if_neg hd]
        exact ih _ _ hnd2 hframe (hj.createPlaceholder name) hp

theorem settle_accounted (env : AssetEnv) (cache : Storage) :
    ∀ (pending : List (String × String)) (s : Scene),
      ImagesAccountedFor env cache s →
      (∀ p ∈ pending, cache.getItem (assetKey p.1) = some p.2 ∧ p.2 ≠ "") →
      ImagesAccountedFor env cache
        (pending.foldl (fun s p => imageSettled env s p.1 p.2) s) := by
  intro pending
  induction pending with
  | nil => intro s hj _; exact hj
  | cons p rest ih =>
    intro s hj hp
    exact ih _ (hj.imageSettled p.1 p.2 (hp p (List.mem_cons_self _ _)))
      (fun q hq => hp q (List.mem_cons_of_mem _ hq))

theorem preloadVerify_accounted (env : AssetEnv) (cache : Storage) :
    ∀ (names : List String) (s : Scene), ImagesAccountedFor env cache s →
      ImagesAccountedFor env cache (preloadVerify env names s) := by
  intro names
  induction names with
  | nil => intro s hj; exact hj
  | cons name rest ih =>
    intro s hj
    show ImagesAccountedFor env cache (preloadVerify env rest _)
    apply ih
    beta_reduce
    by_cases he : s.texturesExists name = true
    · rw [if_pos he]
      exact hj
    · rw [if_neg he]
      exact (hj.logError _).createPlaceholder name

theorem preloadRemove_localStorage (names : List String) (s : Scene) :
    (preloadRemove names s).localStorage = s.localStorage := by
  induction names generalizing s with
  | nil => rfl
  | cons name rest ih =>
    show (preloadRemove rest _).localStorage = _
    rw [ih]
    beta_reduce
    split <;> rfl

theorem preloadRemove_lookup (names : List String) (s : Scene) (n : String)
    (h : n ∈ names ∨ s.textures.lookup n = none) :
    (preloadRemove names s).textures.lookup n = none := by
  induction names generalizing s with
  | nil =>
    rcases h with h | h
    · cases h
    · exact h
  | cons name rest ih =>
    show (preloadRemove rest _).textures.lookup n = none
    apply ih
    beta_reduce
    by_cases hn : n = name
    · subst hn
      right
      by_cases he : s.texturesExists n = true
      · rw [if_pos he, Scene.lookup_texturesRemove]
        simp
      · rw [if_neg he]
        unfold Scene.texturesExists at he
        cases hl : s.textures.lookup n with
        | none => rfl
        | some v => rw [hl] at he; simp at he
    · rcases h with h | h
      · rcases List.mem_cons.mp h with h2 | h2
        · exact absurd h2 hn
        · exact Or.inl h2
      · right
        by_cases he : s.texturesExists name = true
        · rw [if_pos he, Scene.lookup_texturesRemove, if_neg hn]
          exact h
        · rw [if_neg he]
          exact h

theorem preload_accounted (env : AssetEnv) (s : Scene) :
    ImagesAccountedFor env s.localStorage (preload env s) := by
  unfold preload
  have hnd : assetNames.Nodup := by decide
  have h0 : ImagesAccountedFor env s.localStorage (preloadRemove assetNames s) := by
    intro n d hn hl
    rw [preloadRemove_lookup assetNames s n (Or.inl hn)] at hl
    cases hl
  have h1 := preloadExecutors_accounted env s.localStorage assetNames (preloadRemove assetNames s)
    [] hnd (by intro n _; rw [preloadRemove_localStorage]) h0 (by intro p hp; cases hp)
  exact preloadVerify_accounted env _ _ _ (settle_accounted env _ _ _ h1.1 h1.2)

/-- C16: whatever `localStorage` holds for the six assets and however their
images fare, once the asset loading of `preload` completes a texture exists for
each of sky, building1, building2, building3, billboard and airplane.  A texture
is the cached image only if the cache held a non-empty data URL for the asset,
its image loaded and adding it raised no exception; for an asset that is
missing from the cache, cached as an empty string, fails to load or cannot be
added, the texture is a generated placeholder canvas.  The final check of
`preload` alone already ensures the six textures, from any state. -/
theorem C16_preload_textures_exist (env : AssetEnv) (s : Scene) :
    assetNames = ["building1", "building2", "building3", "sky", "billboard", "airplane"] ∧
    (∀ n ∈ assetNames, (preload env s).texturesExists n = true) ∧
    (∀ n ∈ assetNames, ∀ d,
      (preload env s).textures.lookup n = some (TextureSource.image d) →
        s.localStorage.getItem (assetKey n) = some d ∧ d ≠ "" ∧ env.imageLoads n = true ∧
          env.addImageThrows n = false) ∧
    (∀ n ∈ assetNames,
      (s.localStorage.getItem (assetKey n) = none ∨
        s.localStorage.getItem (assetKey n) = some "" ∨
        env.imageLoads n = false ∨ env.addImageThrows n = true) →
      ∃ w h c d, (preload env s).textures.lookup n = some (TextureSource.canvas w h c d)) ∧
    (∀ t : Scene, ∀ n ∈ assetNames, (preloadVerify env assetNames t).texturesExists n = true) := by
  have hex : ∀ n ∈ assetNames, (preload env s).texturesExists n = true :=
    fun n hn => preloadVerify_exists env assetNames _ n hn
  have hacc := preload_accounted env s
  refine ⟨rfl, hex, fun n hn d hl => hacc n d hn hl, ?_,
    fun t n hn => preloadVerify_exists env assetNames t n hn⟩
  intro n hn hbad
  have he := hex n hn
  unfold Scene.texturesExists at he
  cases hl : (preload env s).textures.lookup n with
  | none => rw [hl] at he; cases he
  | some src =>
    cases src with
    | canvas w h c d => exact ⟨w, h, c, d, rfl⟩
    | image d =>
      exfalso
      obtain ⟨a1, a2, a3, a4⟩ := hacc n d hn hl
      rcases hbad with hb | hb | hb | hb
      · rw [hb] at a1; cases a1
      · rw [hb] at a1
        exact a2 (Option.some.inj a1).symm
      · rw [hb] at a3; cases a3
      · rw [hb] at a4; cases a4

/-! ## Building the scene: theorems -/

theorem createPlaceholder_frame (env : AssetEnv) (k : String) (s : Scene) :
    (createPlaceholder env k s).width = s.width ∧
    (createPlaceholder env k s).height = s.height ∧
    (createPlaceholder env k s).billboards = s.billboards ∧
    (createPlaceholder env k s).buildings = s.buildings ∧
    (createPlaceholder env k s).gameWidth = s.gameWidth := by
  unfold createPlaceholder Scene.texturesAdd Scene.logError
  simp only
  split_ifs <;> exact ⟨rfl, rfl, rfl, rfl, rfl⟩

theorem cityscapeLayer_frame (env : SceneEnv) (f : Faults) (w h : ℚ) (s : Scene) (layer : Nat) :
    (cityscapeLayer env f w h s layer).width = s.width ∧
    (cityscapeLayer env f w h s layer).height = s.height := by
  unfold cityscapeLayer
  simp only
  have key : ∀ (l : List Nat) (t : Scene),
      (l.foldl (fun s i =>
        if f.building layer i then
          s.logError ("Error creating building at layer " ++ toString layer ++ ", position " ++
            toString i ++ ":")
        else
          { s with buildings := s.buildings ++ [createBuilding env w h layer i] }) t).width =
        t.width ∧
      (l.foldl (fun s i =>
        if f.building layer i then
          s.logError ("Error creating building at layer " ++ toString layer ++ ", position " ++
            toString i ++ ":")
        else
          { s with buildings := s.buildings ++ [createBuilding env w h layer i] }) t).height =
        t.height := by
    intro l
    induction l with
    | nil => intro t; exact ⟨rfl, rfl⟩
    | cons i rest ih =>
      intro t
      rw [List.foldl_cons]
      obtain ⟨a, b⟩ := ih (if f.building layer i then
          t.logError ("Error creating building at layer " ++ toString layer ++ ", position " ++
            toString i ++ ":")
        else
          { t with buildings := t.buildings ++ [createBuilding env w h layer i] })
      rw [a, b]
      split <;> exact ⟨rfl, rfl⟩
  obtain ⟨a, b⟩ := key (List.range (8 + layer * 3))
    (if s.texturesExists ("building" ++ toString (layer + 1)) then s
      else createPlaceholder env.assets ("building" ++ toString (layer + 1))
        (s.logError ("Texture " ++ ("building" ++ toString (layer + 1)) ++
          " does not exist, creating placeholder")))
  rw [a, b]
  split
  · exact ⟨rfl, rfl⟩
  · exact ⟨(createPlaceholder_frame _ _ _).1, (createPlaceholder_frame _ _ _).2.1⟩

theorem createCityscape_frame (env : SceneEnv) (f : Faults) (s : Scene)
    (hc : f.cityscape = false) :
    ∃ t, createCityscape env f s = .done t ∧ t.width = s.width ∧ t.height = s.height := by
  unfold createCityscape
  rw [hc]
  refine ⟨_, rfl, ?_⟩
  have key : ∀ (l : List Nat) (t : Scene),
      (l.foldl (cityscapeLayer env f s.width s.height) t).width = t.width ∧
      (l.foldl (cityscapeLayer env f s.width s.height) t).height = t.height := by
    intro l
    induction l with
    | nil => intro t; exact ⟨rfl, rfl⟩
    | cons i rest ih =>
      intro t
      rw [List.foldl_cons]
      obtain ⟨a, b⟩ := ih (cityscapeLayer env f s.width s.height t i)
      obtain ⟨c, d⟩ := cityscapeLayer_frame env f s.width s.height t i
      exact ⟨a.trans c, b.trans d⟩
  exact key _ s

theorem createVehicles_done (rand : Nat → ℚ) (hr : ∀ k, 0 ≤ rand k ∧ rand k < 1) (s : Scene) :
    ∃ vs, createVehicles rand s = .done { s with vehicles := vs } := by
  obtain ⟨v0, e0, _⟩ := createVehicle_some rand hr s.width s.height 0
  obtain ⟨v1, e1, _⟩ := createVehicle_some rand hr s.width s.height 1
  obtain ⟨v2, e2, _⟩ := createVehicle_some rand hr s.width s.height 2
  obtain ⟨v3, e3, _⟩ := createVehicle_some rand hr s.width s.height 3
  refine ⟨[v0, v1, v2, v3], ?_⟩
  unfold createVehicles
  rw [pushVehicles_four _ v0 v1 v2 v3 e0 e1 e2 e3]

theorem createBillboards_billboards (env : SceneEnv) (f : Faults) (s : Scene)
    (hf : ∀ i, f.card i = false) :
    (createBillboards env f s).billboards =
      ((List.range (displayCards cardData (decide (s.width < 768))).length).zip
        (displayCards cardData (decide (s.width < 768)))).map
        (fun p => createBillboard env s.width s.height (decide (s.width < 768))
          (displayCards cardData (decide (s.width < 768))).length p.1 p.2) := by
  unfold createBillboards
  simp only
  have key : ∀ (g : Nat × Card → Billboard) (l : List (Nat × Card)) (t : Scene),
      (l.foldl (fun s p =>
        if f.card p.1 then
          s.logError ("Error creating billboard for card " ++ toString p.1 ++ ":")
        else { s with billboards := s.billboards ++ [g p] }) t).billboards =
        t.billboards ++ l.map g := by
    intro g l
    induction l with
    | nil => intro t; simp
    | cons p rest ih =>
      intro t
      rw [List.foldl_cons, ih, hf p.1]
      simp
  rw [key (fun p => createBillboard env s.width s.height (decide (s.width < 768))
    (displayCards cardData (decide (s.width < 768))).length p.1 p.2)]
  simp

theorem displayCards_cardData :
    displayCards cardData true = [cardData[0], cardData[1]] ∧
    displayCards cardData false = [cardData[0], cardData[1], cardData[2]] := by
  decide

theorem createBillboards_titles (env : SceneEnv) (f : Faults) (s : Scene)
    (hf : ∀ i, f.card i = false) :
    (createBillboards env f s).billboards.map (fun b => b.title) =
      (displayCards cardData (decide (s.width < 768))).map (fun card => card.title) ∧
    (createBillboards env f s).billboards.length =
      (displayCards cardData (decide (s.width < 768))).length := by
  rw [createBillboards_billboards env f s hf]
  constructor
  · rw [List.map_map]
    have e : ((fun b : Billboard => b.title) ∘ fun p : Nat × Card =>
        createBillboard env s.width s.height (decide (s.width < 768))
          (displayCards cardData (decide (s.width < 768))).length p.1 p.2) =
        (fun card : Card => card.title) ∘ Prod.snd := by
      funext p
      rfl
    rw [e, ← List.map_map, List.map_snd_zip]
    simp
  · simp

/-- C14, as stated, fails on a mobile viewport: at 500×600 `createBillboards`
builds two billboards, for "About the Jam" and "Meet the Jury", although
`cardData` has three cards. -/
theorem C14_counterexample_mobile_two_billboards :
    (createBillboards plainEnv Faults.none emptyMobileScene).billboards.length = 2 ∧
    (createBillboards plainEnv Faults.none emptyMobileScene).billboards.map (fun b => b.title) =
      ["About the Jam", "Meet the Jury"] ∧
    cardData.length = 3 := by
  obtain ⟨h1, h2⟩ := createBillboards_titles plainEnv Faults.none emptyMobileScene (fun _ => rfl)
  have hm : decide (emptyMobileScene.width < 768) = true := by
    simp only [emptyMobileScene]
    norm_num
  rw [hm, displayCards_cardData.1] at h1 h2
  exact ⟨h2, h1, rfl⟩

/-- C14, amended: when no card's construction fails, `createBillboards` builds
one billboard per card of `cardData` in the desktop layout (width ≥ 768): three
billboards, titled "About the Jam", "Meet the Jury", "Sponsors" in that order.
In the mobile layout (width < 768) it leaves the Sponsors card out and builds
two billboards, "About the Jam" and "Meet the Jury".  The height plays no
part. -/
theorem C14_billboards_per_layout (env : SceneEnv) (f : Faults) (s : Scene)
    (hf : ∀ i, f.card i = false) :
    (768 ≤ s.width →
      (createBillboards env f s).billboards.length = cardData.length ∧
      (createBillboards env f s).billboards.length = 3 ∧
      (createBillboards env f s).billboards.map (fun b => b.title) =
        ["About the Jam", "Meet the Jury", "Sponsors"]) ∧
    (s.width < 768 →
      (createBillboards env f s).billboards.length = 2 ∧
      (createBillboards env f s).billboards.map (fun b => b.title) =
        ["About the Jam", "Meet the Jury"]) := by
  obtain ⟨h1, h2⟩ := createBillboards_titles env f s hf
  constructor
  · intro hw
    have hm : decide (s.width < 768) = false := by simpa using hw
    rw [hm, displayCards_cardData.2] at h1 h2
    exact ⟨h2, h2, h1⟩
  · intro hw
    have hm : decide (s.width < 768) = true := by simpa using hw
    rw [hm, displayCards_cardData.1] at h1 h2
    exact ⟨h2, h1⟩

/-- C14, amended, at the 1200×600 scene with nothing failing: three billboards. -/
theorem C14_billboards_per_layout_witness :
    (createBillboards plainEnv Faults.none emptyScene).billboards.length = 3 ∧
    (createBillboards plainEnv Faults.none emptyScene).billboards.map (fun b => b.title) =
      ["About the Jam", "Meet the Jury", "Sponsors"] :=
  have h := (C14_billboards_per_layout plainEnv Faults.none emptyScene (fun _ => rfl)).1
    (by norm_num [emptyScene])
  ⟨h.2.1, h.2.2⟩

theorem createFallbackScene_errors (s : Scene) :
    (createFallbackScene s).errors = s.errors ∧
    (createFallbackScene s).billboards = s.billboards ∧
    (createFallbackScene s).buildings = [] := ⟨rfl, rfl, rfl⟩

theorem createFallbackSceneStage_logged (f : Faults) (s : Scene) (m : String) :
    m ∈ (createFallbackSceneStage f (s.logError m)).state.errors := by
  unfold createFallbackSceneStage
  by_cases h : f.fallbackScene = true
  · rw [if_pos h]
    simp [Run.state, Scene.logError]
  · rw [if_neg h]
    simp [Run.state, Scene.logError, (createFallbackScene_errors _).1]

/-- C15, as stated, fails: when the sky stage throws and `createFallbackScene`
throws as well, the exception leaves `create`. -/
theorem C15_counterexample_fallback_scene_throws :
    (create plainEnv skyAndFallbackFail emptyScene).hasThrown = true := by
  simp [create, createStages, skyAndFallbackFail, Faults.none, Run.andThen,
    createFallbackSceneStage, Run.hasThrown]

/-- C15, amended: an exception leaves `create` exactly when an exception reaches
its `catch` block and `createFallbackScene`, called there, throws as well.
Whenever an exception reaches the `catch` block the error is logged, and unless
`createFallbackScene` throws, the fallback scene is built and `create` returns
normally; when no exception reaches the `catch` block, `create` returns what its
stages built.  Of the stages with a recovery of their own, `createCityscape`
throws only when both it and `createSimplifiedCityscape` fail, and
`createSponsors` only when both it and `createFallbackScene` fail. -/
theorem C15_create_throws_only_with_fallback (env : SceneEnv) (f : Faults) (s : Scene) :
    ((create env f s).hasThrown = true ↔
      ((createStages env f s).hasThrown = true ∧ f.fallbackScene = true)) ∧
    ((createStages env f s).hasThrown = true →
      "Error in create method:" ∈ (create env f s).state.errors) ∧
    ((createStages env f s).hasThrown = true → f.fallbackScene = false →
      create env f s =
        .done (createFallbackScene
          ((createStages env f s).state.logError "Error in create method:"))) ∧
    ((createStages env f s).hasThrown = false → create env f s = createStages env f s) ∧
    (createCityscape env f s).hasThrown = (f.cityscape && f.simplifiedCityscape) ∧
    (createSponsorsStage env f s).hasThrown = (f.sponsors && f.fallbackScene) := by
  refine ⟨?_, ?_, ?_, ?_, ?_, ?_⟩
  · unfold create
    cases hst : createStages env f s with
    | done t => simp [Run.hasThrown]
    | threw t =>
      cases hfb : f.fallbackScene <;> simp [Run.hasThrown, createFallbackSceneStage, hfb]
  · intro h
    unfold create
    cases hst : createStages env f s with
    | done t => rw [hst] at h; cases h
    | threw t => exact createFallbackSceneStage_logged f t _
  · intro h hfb
    unfold create
    cases hst : createStages env f s with
    | done t => rw [hst] at h; cases h
    | threw t => simp [createFallbackSceneStage, hfb, Run.state]
  · intro h
    unfold create
    cases hst : createStages env f s with
    | done t => rfl
    | threw t => rw [hst] at h; cases h
  · unfold createCityscape createSimplifiedCityscape
    cases f.cityscape <;> cases f.simplifiedCityscape <;> simp [Run.hasThrown]
  · unfold createSponsorsStage createFallbackSceneStage
    cases f.sponsors <;> cases f.fallbackScene <;> simp [Run.hasThrown]

theorem createSponsorsStage_frame (env : SceneEnv) (f : Faults) (s : Scene)
    (hs : f.sponsors = false) :
    ∃ t, createSponsorsStage env f s = .done t ∧ t.billboards = s.billboards := by
  unfold createSponsorsStage
  rw [hs]
  refine ⟨_, rfl, ?_⟩
  show (if s.texturesExists "airplane" = true then s
    else createPlaceholder env.assets "airplane" s).billboards = s.billboards
  split
  · rfl
  · exact (createPlaceholder_frame _ _ _).2.2.1

theorem setupCamera_billboards (s : Scene) : (setupCamera s).billboards = s.billboards := by
  unfold setupCamera
  simp only
  split <;> rfl

theorem create_none_billboards (env : SceneEnv)
    (hr : ∀ k, 0 ≤ env.vehicleRandom k ∧ env.vehicleRandom k < 1) (s : Scene) :
    ∃ t, create env Faults.none s = .done t ∧
      t.billboards =
        ((List.range (displayCards cardData (decide (s.width < 768))).length).zip
          (displayCards cardData (decide (s.width < 768)))).map
          (fun p => createBillboard env s.width s.height (decide (s.width < 768))
            (displayCards cardData (decide (s.width < 768))).length p.1 p.2) := by
  obtain ⟨s2, e2, w2, h2⟩ := createCityscape_frame env Faults.none
    (if s.texturesExists "sky" then s
      else s.logError "Sky texture does not exist, using fallback") rfl
  have w2s : s2.width = s.width := by
    rw [w2]
    split <;> rfl
  have h2s : s2.height = s.height := by
    rw [h2]
    split <;> rfl
  obtain ⟨vs, e3⟩ := createVehicles_done env.vehicleRandom hr s2
  obtain ⟨s5, e5, b5⟩ := createSponsorsStage_frame env Faults.none
    (createBillboards env Faults.none { s2 with vehicles := vs }) rfl
  have hstages : createStages env Faults.none s =
      .done { setupCamera s5 with timeEvents := (setupCamera s5).timeEvents ++
        [{ delay := airplaneSpawnInterval, callback := "spawnAirplane", loop := true }] } := by
    unfold createStages
    simp only [Faults.none, Bool.false_eq_true, if_false]
    simp only [Faults.none] at e2 e5
    rw [Run.andThen, e2]
    simp only [Run.andThen, createStreet, createVehiclesStage, Bool.false_eq_true, if_false]
    rw [e3]
    simp only [e5]
  refine ⟨_, by unfold create; rw [hstages], ?_⟩
  show (setupCamera s5).billboards = _
  rw [setupCamera_billboards, b5,
    createBillboards_billboards env Faults.none _ (fun _ => rfl)]
  simp only [w2s, h2s]

theorem destroyBillboards_texts (b : Billboard) (rest : List Billboard) (objects : List Text)
    (hc : b.content = .texts objects) (hn : b.container = none) :
    destroyBillboards (b :: rest) = .threw ({ b with titleDestroyed := true } :: rest) := by
  unfold destroyBillboards
  simp [hc, hn]

/-- C13 evaluated at the claim's own scenario: `create()` builds the 1200×600
scene without an exception, with three billboards; `adjustForResize(800, 600)`
on that scene raises an exception in its `try` block while tearing down the
first billboard (whose content is an array), so it rebuilds nothing: the error
is logged, the three old billboard records are still in `billboards` (only the
first title destroyed), no building image is left, and the airplanes are those
of `createFallbackScene`. -/
theorem C13_resize_of_created_scene_fails_teardown :
    (create plainEnv Faults.none emptyScene).hasThrown = false ∧
    createdScene.billboards.length = 3 ∧
    (adjustForResizeStages plainEnv Faults.none
      { createdScene with gameWidth := 800 }).hasThrown = true ∧
    resizedScene.hasThrown = false ∧
    "Error in adjustForResize method:" ∈ resizedScene.state.errors ∧
    resizedScene.state.billboards.map (fun b => (b.title, b.titleDestroyed)) =
      [("About the Jam", true), ("Meet the Jury", false), ("Sponsors", false)] ∧
    resizedScene.state.buildings = [] ∧
    resizedScene.state.airplanes = (createFallbackScene createdScene).airplanes := by
  obtain ⟨t, ht, hb⟩ := create_none_billboards plainEnv
    (fun _ => ⟨le_refl 0, by norm_num [plainEnv]⟩) emptyScene
  have hm : decide (emptyScene.width < 768) = false := by
    simp only [emptyScene]
    norm_num
  rw [hm, displayCards_cardData.2] at hb
  have hcs : createdScene = t := by
    unfold createdScene
    rw [ht]
    rfl
  have hbl : t.billboards =
      [createBillboard plainEnv emptyScene.width emptyScene.height false 3 0 cardData[0],
       createBillboard plainEnv emptyScene.width emptyScene.height false 3 1 cardData[1],
       createBillboard plainEnv emptyScene.width emptyScene.height false 3 2 cardData[2]] := by
    rw [hb]
    rfl
  have hstages : adjustForResizeStages plainEnv Faults.none { t with gameWidth := 800 } =
      .threw { t with
        gameWidth := 800
        buildings := []
        billboards :=
          [{ createBillboard plainEnv emptyScene.width emptyScene.height false 3 0 cardData[0]
              with titleDestroyed := true },
           createBillboard plainEnv emptyScene.width emptyScene.height false 3 1 cardData[1],
           createBillboard plainEnv emptyScene.width emptyScene.height false 3 2
             cardData[2]] } := by
    unfold adjustForResizeStages
    simp only [hbl]
    rw [destroyBillboards_texts _ _ _ rfl rfl]
  have hres : resizedScene = .done (createFallbackScene
      (({ t with
        gameWidth := 800
        buildings := []
        billboards :=
          [{ createBillboard plainEnv emptyScene.width emptyScene.height false 3 0 cardData[0]
              with titleDestroyed := true },
           createBillboard plainEnv emptyScene.width emptyScene.height false 3 1 cardData[1],
           createBillboard plainEnv emptyScene.width emptyScene.height false 3 2
             cardData[2]] } : Scene).logError "Error in adjustForResize method:")) := by
    unfold resizedScene adjustForResize
    rw [hcs, hstages]
    rfl
  refine ⟨by rw [ht]; rfl, by rw [hcs, hbl]; rfl, by rw [hcs, hstages]; rfl,
    by rw [hres]; rfl, ?_, ?_, ?_, ?_⟩
  · rw [hres]
    simp [Run.state, Scene.logError, createFallbackScene]
  · rw [hres]
    rfl
  · rw [hres]
    rfl
  · rw [hres, hcs]
    rfl

/-! ## The module's public functions: theorems -/

theorem cachePlaceholder_frame (env : SiteEnv) (name : String) (site : Site) :
    (cachePlaceholder env name site).containers = site.containers ∧
    (cachePlaceholder env name site).game = site.game ∧
    (cachePlaceholder env name site).intervals = site.intervals ∧
    (cachePlaceholder env name site).timeouts = site.timeouts := by
  unfold cachePlaceholder
  split <;> exact ⟨rfl, rfl, rfl, rfl⟩

theorem cachePlaceholder_getItem (env : SiteEnv) (name key : String) (site : Site)
    (h : key ≠ assetKey name) :
    (cachePlaceholder env name site).localStorage.getItem key = site.localStorage.getItem key := by
  unfold cachePlaceholder
  split
  · rfl
  · exact Storage.getItem_setItem_ne _ _ _ _ h

theorem cachePlaceholder_getItem_self (env : SiteEnv) (name : String) (site : Site)
    (h : env.placeholderThrows name = false) :
    (cachePlaceholder env name site).localStorage.getItem (assetKey name) =
      some (env.toDataURL name) := by
  unfold cachePlaceholder
  rw [h]
  exact Storage.getItem_setItem_same _ _ _

theorem createSimplePlaceholders_eq (env : SiteEnv) (site : Site) :
    createSimplePlaceholders env site =
      .threw (cachePlaceholder env "billboard" (cachePlaceholder env "building3"
        (cachePlaceholder env "building2" (cachePlaceholder env "building1"
          (cachePlaceholder env "sky" site))))) := rfl

theorem createAssetsDirectory_eq (env : SiteEnv) (site : Site) :
    createAssetsDirectory env site =
      (cachePlaceholder env "billboard" (cachePlaceholder env "building3"
        (cachePlaceholder env "building2" (cachePlaceholder env "building1"
          (cachePlaceholder env "sky" site))))).logError
        "Could not create placeholder assets:" := rfl

theorem createAssetsDirectory_frame (env : SiteEnv) (site : Site) :
    (createAssetsDirectory env site).containers = site.containers ∧
    (createAssetsDirectory env site).game = site.game ∧
    (createAssetsDirectory env site).intervals = site.intervals ∧
    (createAssetsDirectory env site).timeouts = site.timeouts := by
  rw [createAssetsDirectory_eq]
  obtain ⟨a1, a2, a3, a4⟩ := cachePlaceholder_frame env "sky" site
  obtain ⟨b1, b2, b3, b4⟩ := cachePlaceholder_frame env "building1"
    (cachePlaceholder env "sky" site)
  obtain ⟨c1, c2, c3, c4⟩ := cachePlaceholder_frame env "building2"
    (cachePlaceholder env "building1" (cachePlaceholder env "sky" site))
  obtain ⟨d1, d2, d3, d4⟩ := cachePlaceholder_frame env "building3"
    (cachePlaceholder env "building2" (cachePlaceholder env "building1"
      (cachePlaceholder env "sky" site)))
  obtain ⟨e1, e2, e3, e4⟩ := cachePlaceholder_frame env "billboard"
    (cachePlaceholder env "building3" (cachePlaceholder env "building2"
      (cachePlaceholder env "building1" (cachePlaceholder env "sky" site))))
  exact ⟨by show (cachePlaceholder _ _ _).containers = _; rw [e1, d1, c1, b1, a1],
    by show (cachePlaceholder _ _ _).game = _; rw [e2, d2, c2, b2, a2],
    by show (cachePlaceholder _ _ _).intervals = _; rw [e3, d3, c3, b3, a3],
    by show (cachePlaceholder _ _ _).timeouts = _; rw [e4, d4, c4, b4, a4]⟩

theorem lookup_setContainer (containers : List (String × Container)) (containerId : String)
    (c0 c : Container) (h : containers.lookup containerId = some c0) :
    (setContainer containers containerId c).lookup containerId = some c := by
  unfold setContainer
  induction containers with
  | nil => cases h
  | cons p rest ih =>
    obtain ⟨a, b⟩ := p
    simp only [List.map_cons]
    by_cases e : a = containerId
    · rw [if_pos e]
      simp [List.lookup]
    · have e2 : (containerId == a) = false := by simpa using fun h => e h.symm
      simp only [List.lookup, e2] at h
      rw [if_neg e]
      simp only [List.lookup, e2]
      exact ih h

theorem createFallbackView_view (env : SiteEnv) (containerId : String) (site : Site)
    (c0 : Container) (h : site.containers.lookup containerId = some c0)
    (hd : env.domThrows = false) :
    (createFallbackView env containerId site).game = site.game ∧
    (createFallbackView env containerId site).timeouts = site.timeouts ∧
    (createFallbackView env containerId site).intervals =
      site.intervals ++ (List.range cardData.length).map
        (fun i => { delay := 500, container := containerId, billboard := i }) ∧
    ∃ view, ((createFallbackView env containerId site).containers.lookup containerId).bind
        (fun c => c.view) = some view ∧
      view.billboards = cardData.map fallbackBillboard := by
  unfold createFallbackView
  simp only [h, hd, Bool.false_eq_true, if_false]
  refine ⟨trivial, trivial, trivial, ?_⟩
  rw [lookup_setContainer _ _ c0 _ h]
  exact ⟨_, rfl, rfl⟩

theorem createFallbackView_game (env : SiteEnv) (containerId : String) (site : Site) :
    (createFallbackView env containerId site).game = site.game := by
  unfold createFallbackView
  cases site.containers.lookup containerId with
  | none => rfl
  | some c => cases env.domThrows <;> rfl

theorem init_done (env : SiteEnv) (containerId : String) (site : Site) :
    ∃ t, init env containerId site = .done t := by
  unfold init
  cases site.containers.lookup containerId with
  | none => exact ⟨_, rfl⟩
  | some c =>
    simp only
    cases env.phaserMissing
    · cases (createAssetsDirectory env
        { site with gameWidth := site.innerWidth, gameHeight := site.innerHeight }).game with
      | none => cases env.gameThrows <;> exact ⟨_, rfl⟩
      | some g => cases env.destroyThrows <;> cases env.gameThrows <;> exact ⟨_, rfl⟩
    · exact ⟨_, rfl⟩

/-- C17: `init` never throws and hands back the module.  With the container
element missing it changes nothing, so no game is created.  With the container
present, `Phaser` defined and any old game destroyed without error, a failure of
`new Phaser.Game` leaves no game and (the DOM calls succeeding) puts the fallback
view into that container, with exactly one fallback billboard per card of
`cardData`, showing the card's title and content. -/
theorem C17_init_never_throws (env : SiteEnv) (containerId : String) (site : Site) :
    (init env containerId site).hasThrown = false ∧
    initReturned env containerId site = Returned.module ∧
    (site.containers.lookup containerId = none → (init env containerId site).state = site) ∧
    (∀ container, site.containers.lookup containerId = some container →
      env.phaserMissing = false → (site.game = none ∨ env.destroyThrows = false) →
      env.gameThrows = true → env.domThrows = false →
      (init env containerId site).state.game = none ∧
      ∃ view,
        ((init env containerId site).state.containers.lookup containerId).bind
          (fun c => c.view) = some view ∧
        view.billboards.length = cardData.length ∧
        view.billboards.map (fun b => (b.title.textContent, b.content.textContent)) =
          cardData.map (fun card => (card.title, card.content))) := by
  obtain ⟨t, ht⟩ := init_done env containerId site
  refine ⟨by rw [ht]; rfl, by unfold initReturned; rw [ht], ?_, ?_⟩
  · intro h
    unfold init
    rw [h]
    rfl
  · intro container hc hp hg hthrow hdom
    obtain ⟨f1, f2, _, _⟩ := createAssetsDirectory_frame env
      { site with gameWidth := site.innerWidth, gameHeight := site.innerHeight }
    have hX : ∃ X, init env containerId site = .done (createFallbackView env containerId X) ∧
        X.containers.lookup containerId = some container ∧ X.game = none := by
      unfold init
      rw [hc]
      simp only [hp, Bool.false_eq_true, if_false, hthrow, if_true]
      cases hgame : (createAssetsDirectory env
          { site with gameWidth := site.innerWidth, gameHeight := site.innerHeight }).game with
      | none =>
        exact ⟨_, rfl, by rw [f1]; exact hc, hgame⟩
      | some g =>
        have hds : env.destroyThrows = false := by
          rcases hg with hg | hg
          · rw [f2] at hgame
            rw [hg] at hgame
            cases hgame
          · exact hg
        simp only [hds, Bool.false_eq_true, if_false]
        exact ⟨_, rfl, by show (createAssetsDirectory _ _).containers.lookup _ = _; rw [f1]; exact hc,
          rfl⟩
    obtain ⟨X, hi, hXc, hXg⟩ := hX
    obtain ⟨v1, _, _, view, hv, hb⟩ := createFallbackView_view env containerId X container hXc hdom
    rw [hi]
    refine ⟨by show (createFallbackView env containerId X).game = none; rw [v1, hXg], view, hv, ?_, ?_⟩
    · rw [hb, List.length_map]
    · rw [hb, List.map_map]
      rfl

/-- C18, as stated, fails: building the fallback view on a page with the
container registers three recurring 500 ms timers, one per card, and a run of
the first timer's callback with a draw of 0.96 changes the first billboard's
style: its opacity, unset before, becomes 0.7. -/
theorem C18_counterexample_flicker_timers :
    fallbackSite.intervals =
      [ { delay := 500, container := "cityscape-container", billboard := 0 },
        { delay := 500, container := "cityscape-container", billboard := 1 },
        { delay := 500, container := "cityscape-container", billboard := 2 } ] ∧
    fallbackSite.billboardOpacity "cityscape-container" 0 = none ∧
    (flickerCallback (24 / 25)
      { delay := 500, container := "cityscape-container", billboard := 0 }
      fallbackSite).billboardOpacity "cityscape-container" 0 = some "0.7" := by
  refine ⟨by decide, by decide, ?_⟩
  have h : ((24 : ℚ) / 25 > 0.95) := by norm_num
  unfold flickerCallback
  rw [if_pos h]
  decide

theorem setBillboardOpacity_frame (site : Site) (containerId : String) (index : Nat)
    (value : String) :
    (site.setBillboardOpacity containerId index value).intervals = site.intervals ∧
    (site.setBillboardOpacity containerId index value).timeouts = site.timeouts ∧
    (site.setBillboardOpacity containerId index value).game = site.game ∧
    (site.setBillboardOpacity containerId index value).localStorage = site.localStorage := by
  unfold Site.setBillboardOpacity
  split
  · exact ⟨rfl, rfl, rfl, rfl⟩
  · split <;> exact ⟨rfl, rfl, rfl, rfl⟩

/-- C18, amended: building the fallback view in an existing container (the DOM
calls succeeding) registers exactly one recurring timer per card of `cardData`,
each with a period of 500 ms, and no one-shot timer.  A run of such a timer's
callback changes nothing unless its random draw exceeds 0.95; then it sets the
opacity of its billboard to 0.7 and registers one 100 ms one-shot timer, whose
callback sets that opacity to 1.  Neither callback registers a recurring timer,
and the only thing they change on the page is that opacity. -/
theorem C18_fallback_view_flickers (env : SiteEnv) (containerId : String) (site : Site)
    (container : Container) (hc : site.containers.lookup containerId = some container)
    (hd : env.domThrows = false) :
    ((createFallbackView env containerId site).intervals =
      site.intervals ++ (List.range cardData.length).map
        (fun i => { delay := 500, container := containerId, billboard := i }) ∧
      (createFallbackView env containerId site).timeouts = site.timeouts) ∧
    (∀ (draw : ℚ) (interval : Interval) (s : Site), draw ≤ 0.95 →
      flickerCallback draw interval s = s) ∧
    (∀ (draw : ℚ) (interval : Interval) (s : Site), draw > 0.95 →
      flickerCallback draw interval s =
        { s.setBillboardOpacity interval.container interval.billboard "0.7" with
          timeouts := s.timeouts ++
            [{ delay := 100, container := interval.container,
               billboard := interval.billboard }] }) ∧
    (∀ (timeout : Timeout) (s : Site),
      flickerTimeout timeout s =
        s.setBillboardOpacity timeout.container timeout.billboard "1") ∧
    (∀ (draw : ℚ) (interval : Interval) (timeout : Timeout) (s : Site),
      (flickerCallback draw interval s).intervals = s.intervals ∧
      (flickerTimeout timeout s).intervals = s.intervals ∧
      (flickerTimeout timeout s).timeouts = s.timeouts) := by
  obtain ⟨_, v2, v3, _⟩ := createFallbackView_view env containerId site container hc hd
  refine ⟨⟨v3, v2⟩, ?_, ?_, ?_, ?_⟩
  · intro draw interval s h
    unfold flickerCallback
    rw [if_neg (not_lt.mpr h)]
  · intro draw interval s h
    unfold flickerCallback
    rw [if_pos h]
    simp only [(setBillboardOpacity_frame s _ _ _).2.1]
  · intro timeout s
    rfl
  · intro draw interval timeout s
    refine ⟨?_, (setBillboardOpacity_frame s _ _ _).1, (setBillboardOpacity_frame s _ _ _).2.1⟩
    unfold flickerCallback
    split
    · exact (setBillboardOpacity_frame s _ _ _).1
    · rfl

/-- C18, amended, at the page holding `cityscape-container`: three recurring
500 ms timers and no one-shot timer after the view is built. -/
theorem C18_fallback_view_flickers_witness :
    (createFallbackView plainSiteEnv "cityscape-container" freshSite).intervals =
      freshSite.intervals ++ (List.range cardData.length).map
        (fun i => { delay := 500, container := "cityscape-container", billboard := i }) ∧
    (createFallbackView plainSiteEnv "cityscape-container" freshSite).timeouts =
      freshSite.timeouts :=
  (C18_fallback_view_flickers plainSiteEnv "cityscape-container" freshSite
    { style := [], view := none } rfl rfl).1

/-- C19 evaluated: `createSimplePlaceholders` caches placeholders for sky, the
three buildings and the billboard (each unless building or caching it fails),
then calls `this.createAirplanePlaceholder()`, which the module does not define:
a `TypeError` is raised, `createAssetsDirectory` catches and logs it, and the
entry `phaser_asset_airplane` is left as it was, absent on a fresh page. -/
theorem C19_airplane_placeholder_not_cached (env : SiteEnv) (site : Site) :
    (createSimplePlaceholders env site).hasThrown = true ∧
    "Could not create placeholder assets:" ∈ (createAssetsDirectory env site).errors ∧
    (createAssetsDirectory env site).localStorage.getItem (assetKey "airplane") =
      site.localStorage.getItem (assetKey "airplane") ∧
    (createAssetsDirectory plainSiteEnv freshSite).localStorage.getItem
      "phaser_asset_airplane" = none ∧
    (∀ name ∈ ["sky", "building1", "building2", "building3", "billboard"],
      env.placeholderThrows name = false →
      (createAssetsDirectory env site).localStorage.getItem (assetKey name) =
        some (env.toDataURL name)) := by
  have ne : ∀ a b : String, a ≠ b → assetKey a ≠ assetKey b :=
    fun a b h e => h (assetKey_injective a b e)
  refine ⟨rfl, ?_, ?_, by decide, ?_⟩
  · rw [createAssetsDirectory_eq]
    simp [Site.logError]
  · rw [createAssetsDirectory_eq]
    show (cachePlaceholder env "billboard" _).localStorage.getItem _ = _
    rw [cachePlaceholder_getItem _ _ _ _ (ne _ _ (by decide)),
      cachePlaceholder_getItem _ _ _ _ (ne _ _ (by decide)),
      cachePlaceholder_getItem _ _ _ _ (ne _ _ (by decide)),
      cachePlaceholder_getItem _ _ _ _ (ne _ _ (by decide)),
      cachePlaceholder_getItem _ _ _ _ (ne _ _ (by decide))]
  · intro name hmem hok
    rw [createAssetsDirectory_eq]
    show (cachePlaceholder env "billboard" _).localStorage.getItem _ = _
    simp only [List.mem_cons, List.mem_singleton, List.not_mem_nil, or_false] at hmem
    rcases hmem with h | h | h | h | h <;> subst h
    · rw [cachePlaceholder_getItem _ _ _ _ (ne _ _ (by decide)),
        cachePlaceholder_getItem _ _ _ _ (ne _ _ (by decide)),
        cachePlaceholder_getItem _ _ _ _ (ne _ _ (by decide)),
        cachePlaceholder_getItem _ _ _ _ (ne _ _ (by decide))]
      exact cachePlaceholder_getItem_self env _ _ hok
    · rw [cachePlaceholder_getItem _ _ _ _ (ne _ _ (by decide)),
        cachePlaceholder_getItem _ _ _ _ (ne _ _ (by decide)),
        cachePlaceholder_getItem _ _ _ _ (ne _ _ (by decide))]
      exact cachePlaceholder_getItem_self env _ _ hok
    · rw [cachePlaceholder_getItem _ _ _ _ (ne _ _ (by decide)),
        cachePlaceholder_getItem _ _ _ _ (ne _ _ (by decide))]
      exact cachePlaceholder_getItem_self env _ _ hok
    · rw [cachePlaceholder_getItem _ _ _ _ (ne _ _ (by decide))]
      exact cachePlaceholder_getItem_self env _ _ hok
    · exact cachePlaceholder_getItem_self env _ _ hok

/-! ## Arpeggiator: the index invariant -/

/-- C27: from the initial state `currentChord = 0`, `currentNote = 0`, after any
number of runs of the loop callback `currentChord < 4` and `currentNote < 5`
(both are natural numbers, so they are at least 0); the lookup
`chordSequence[currentChord][currentNote]` yields a defined note, the next run of
the callback raises no exception and the value it triggers is that note. -/
theorem C27_arpeggiator_indices_in_range (p : Page) (hc : p.currentChord = 0)
    (hn : p.currentNote = 0) (n : Nat) :
    (arpSteps n p).currentChord < 4 ∧ (arpSteps n p).currentNote < 5 ∧
    (arpSteps n p).currentChord < chordSequence.length ∧
    ∃ note,
      (chordSequence[(arpSteps n p).currentChord]?).bind
        (fun chord => chord[(arpSteps n p).currentNote]?) = some note ∧
      (arpCallback (arpSteps n p)).hasThrown = false ∧
      (arpSteps (n + 1) p).triggered = (arpSteps n p).triggered ++ [some note] := by
  obtain ⟨h1, h2, _⟩ := arpSteps_from_start p hc hn n
  have hc4 : (arpSteps n p).currentChord < 4 := by rw [h1]; exact Nat.mod_lt _ (by decide)
  have hn5 : (arpSteps n p).currentNote < 5 := by rw [h2]; exact Nat.mod_lt _ (by decide)
  obtain ⟨chord, hch, hlen⟩ := chordSequence_getElem (arpSteps n p).currentChord hc4
  have hk : (arpSteps n p).currentNote < chord.length := by rw [hlen]; exact hn5
  obtain ⟨_, _, s3⟩ := arpCallback_done (arpSteps n p) chord hch
  refine ⟨hc4, hn5, hc4, chord[(arpSteps n p).currentNote], ?_, ?_, ?_⟩
  · simp [hch, List.getElem?_eq_getElem hk]
  · unfold arpCallback
    rw [hch]
    simp only
    split <;> rfl
  · rw [arpSteps_succ, s3, List.getElem?_eq_getElem hk]

/-- C27 at the page as loaded, after 13 runs of the callback. -/
theorem C27_arpeggiator_indices_in_range_witness :
    (arpSteps 13 (Page.load [] [] true false)).currentChord < 4 ∧
    (arpSteps 13 (Page.load [] [] true false)).currentNote < 5 :=
  have h := C27_arpeggiator_indices_in_range (Page.load [] [] true false) rfl rfl 13
  ⟨h.1, h.2.1⟩

/-! ## Sponsor airplanes: banner and outline on every tick -/

theorem update_airplanes_getElem (draws : Nat → ℚ) (s : Scene) (i : Nat) (p : SpriteAirplane)
    (hp : s.airplanes[i]? = some (.sprite p)) :
    (update draws s).airplanes[i]? = some (.sprite (updateSpriteAirplane s.width p)) := by
  rw [update_airplanes, List.getElem?_map, hp]
  rfl

theorem ticks_width (draws : Nat → Nat → ℚ) (n : Nat) (s : Scene) :
    (ticks draws n s).width = s.width := by
  induction n with
  | zero => rfl
  | succ n ih => exact ih

/-- C26: on every `update` tick, a sprite airplane of direction +1 or -1 that has
a banner and a text ends the tick with banner.x = plane.x - 200 × direction and
text.x = banner.x, its direction unchanged.  This includes the tick on which the
plane wraps: a +1 plane carried beyond width + 200 ends at x = -200 with its
banner at -400, a -1 plane carried below -200 ends at x = width + 200 with its
banner at width + 400. -/
theorem C26_banner_follows_sprite_plane (draws : Nat → ℚ) (s : Scene) (i : Nat)
    (p : SpriteAirplane) (hp : s.airplanes[i]? = some (.sprite p))
    (hd : p.direction = 1 ∨ p.direction = -1) :
    ∃ q, (update draws s).airplanes[i]? = some (.sprite q) ∧
      q.direction = p.direction ∧
      q.banner.x = q.plane.x - 200 * q.direction ∧ q.text.x = q.banner.x ∧
      (p.direction = 1 → p.plane.x + p.speed * 1.5 > s.width + 200 →
        q.plane.x = -200 ∧ q.banner.x = -400) ∧
      (p.direction = -1 → p.plane.x - p.speed * 1.5 < -200 →
        q.plane.x = s.width + 200 ∧ q.banner.x = s.width + 400) := by
  refine ⟨updateSpriteAirplane s.width p, update_airplanes_getElem draws s i p hp, ?_⟩
  obtain ⟨hb, ht⟩ := updateSpriteAirplane_banner_x s.width p
  have hx := updateSpriteAirplane_plane_x s.width p
  obtain ⟨hdir, _, _⟩ := updateSpriteAirplane_fields s.width p
  refine ⟨hdir, ?_, ht, ?_, ?_⟩
  · rw [hb, hdir]
    rcases hd with h | h <;> rw [h] <;> norm_num
  · intro h1 hgt
    have hc : p.direction > 0 ∧ p.plane.x + p.speed * 1.5 * p.direction > s.width + 200 := by
      rw [h1]
      exact ⟨by norm_num, by rw [mul_one]; exact hgt⟩
    rw [if_pos (Or.inl hc), if_pos hc.1] at hx
    rw [if_pos hc.1] at hb
    exact ⟨hx, by rw [hb, hx]; norm_num⟩
  · intro h1 hlt
    have hc : p.direction < 0 ∧ p.plane.x + p.speed * 1.5 * p.direction < -200 := by
      rw [h1]
      exact ⟨by norm_num, by rw [mul_neg, mul_one, ← sub_eq_add_neg]; exact hlt⟩
    have hneg : ¬ p.direction > 0 := not_lt.mpr (le_of_lt hc.1)
    rw [if_pos (Or.inr hc), if_neg hneg] at hx
    rw [if_neg hneg] at hb
    exact ⟨hx, by rw [hb, hx]; ring⟩

/-- C26 at a wrap tick: the +1 airplane at x = 1399 in the 1200×600 scene is
carried to 1402 > 1400, so it ends the tick at x = -200 with banner and text at
x = -400. -/
theorem C26_banner_follows_sprite_plane_witness :
    ∃ q, (update drawsAllZero sceneWithBoltAtRightBound).airplanes[0]? = some (.sprite q) ∧
      q.plane.x = (-200 : ℚ) ∧ q.banner.x = (-400 : ℚ) ∧ q.text.x = (-400 : ℚ) := by
  obtain ⟨q, h1, _, _, h4, h5, _⟩ :=
    C26_banner_follows_sprite_plane drawsAllZero sceneWithBoltAtRightBound 0
      boltAirplaneAtRightBound rfl (Or.inl rfl)
  have h := h5 rfl (by norm_num [boltAirplaneAtRightBound, sceneWithBoltAtRightBound])
  exact ⟨q, h1, h.1, h.2, h4.trans h.2⟩

theorem ticks_createSponsors_outline (draws : Nat → Nat → ℚ) (s : Scene) (n : Nat) :
    ∃ a b, (ticks draws n (createSponsors s)).airplanes = [.sprite a, .sprite b] ∧
      a.direction = 1 ∧ b.direction = -1 ∧
      a.outline.x = 100 - 350 ∧ b.outline.x = (s.width - 100) + 350 ∧
      (0 < n → a.banner.x = a.plane.x - 200 ∧ b.banner.x = b.plane.x + 200) := by
  induction n with
  | zero =>
    exact ⟨_, _, rfl, rfl, rfl, rfl, rfl, fun h => absurd h (lt_irrefl 0)⟩
  | succ n ih =>
    obtain ⟨a, b, hl, ha, hb, hao, hbo, _⟩ := ih
    refine ⟨updateSpriteAirplane (ticks draws n (createSponsors s)).width a,
      updateSpriteAirplane (ticks draws n (createSponsors s)).width b, ?_, ?_, ?_, ?_, ?_, ?_⟩
    · rw [ticks_succ_airplanes, hl]
      rfl
    · rw [(updateSpriteAirplane_fields _ a).1, ha]
    · rw [(updateSpriteAirplane_fields _ b).1, hb]
    · rw [(updateSpriteAirplane_fields _ a).2.2, hao]
    · rw [(updateSpriteAirplane_fields _ b).2.2, hbo]
    · intro _
      rw [(updateSpriteAirplane_banner_x _ a).1, (updateSpriteAirplane_banner_x _ b).1, ha, hb]
      norm_num

/-- C29: `update` never moves the outline rectangle of a sprite airplane: on
every tick the record's outline is unchanged, while its banner.x is assigned
anew from the plane's position (plane.x - 200 when direction > 0, plane.x + 200
otherwise).  For the two airplanes `createSponsors` builds, banner and outline
start at the same x, plane x - 350 for the +1 plane and plane x + 350 for the -1
plane; after any number of ticks the outlines are still at those construction
positions, 100 - 350 and (width - 100) + 350, while after one tick or more the
banners are at plane.x - 200 and plane.x + 200. -/
theorem C29_outline_never_moved (draws : Nat → Nat → ℚ) (s : Scene) (n : Nat) :
    (∀ (d : Nat → ℚ) (t : Scene) (i : Nat) (p : SpriteAirplane),
      t.airplanes[i]? = some (.sprite p) →
      ∃ q, (update d t).airplanes[i]? = some (.sprite q) ∧ q.outline = p.outline ∧
        q.banner.x = (if p.direction > 0 then q.plane.x - 200 else q.plane.x + 200)) ∧
    (∃ a b, (createSponsors s).airplanes = [.sprite a, .sprite b] ∧
      a.direction = 1 ∧ b.direction = -1 ∧
      a.plane.x = 100 ∧ b.plane.x = s.width - 100 ∧
      a.outline.x = a.plane.x - 350 ∧ b.outline.x = b.plane.x + 350 ∧
      a.banner.x = a.outline.x ∧ b.banner.x = b.outline.x) ∧
    (∃ a b, (ticks draws n (createSponsors s)).airplanes = [.sprite a, .sprite b] ∧
      a.outline.x = 100 - 350 ∧ b.outline.x = (s.width - 100) + 350 ∧
      (0 < n → a.banner.x = a.plane.x - 200 ∧ b.banner.x = b.plane.x + 200)) := by
  refine ⟨?_, ⟨_, _, rfl, rfl, rfl, rfl, rfl, rfl, rfl, rfl, rfl⟩, ?_⟩
  · intro d t i p hp
    exact ⟨updateSpriteAirplane t.width p, update_airplanes_getElem d t i p hp,
      (updateSpriteAirplane_fields t.width p).2.2, (updateSpriteAirplane_banner_x t.width p).1⟩
  · obtain ⟨a, b, hl, _, _, hao, hbo, hban⟩ := ticks_createSponsors_outline draws s n
    exact ⟨a, b, hl, hao, hbo, hban⟩

/-! ## Billboards built by `createBillboards`: no container, array content -/

theorem createBillboards_records (env : SceneEnv) (f : Faults) (s : Scene) :
    ∀ b ∈ (createBillboards env f s).billboards,
      b.container = none ∧ ∃ objects, b.content = .texts objects := by
  unfold createBillboards
  simp only
  have key : ∀ (g : Nat × Card → Billboard),
      (∀ p, (g p).container = none ∧ ∃ objects, (g p).content = .texts objects) →
      ∀ (l : List (Nat × Card)) (t : Scene),
      (∀ b ∈ t.billboards, b.container = none ∧ ∃ objects, b.content = .texts objects) →
      ∀ b ∈ (l.foldl (fun s p =>
        if f.card p.1 then
          s.logError ("Error creating billboard for card " ++ toString p.1 ++ ":")
        else { s with billboards := s.billboards ++ [g p] }) t).billboards,
        b.container = none ∧ ∃ objects, b.content = .texts objects := by
    intro g hg l
    induction l with
    | nil => intro t ht; exact ht
    | cons p rest ih =>
      intro t ht
      rw [List.foldl_cons]
      apply ih
      beta_reduce
      split
      · exact ht
      · intro b hb
        rw [List.mem_append, List.mem_singleton] at hb
        rcases hb with hb | hb
        · exact ht b hb
        · rw [hb]
          exact hg p
  apply key (fun p => createBillboard env s.width s.height (decide (s.width < 768))
    (displayCards cardData (decide (s.width < 768))).length p.1 p.2)
  · intro p
    exact ⟨rfl, _, rfl⟩
  · intro b hb
    exact absurd hb (List.not_mem_nil b)

theorem updateBillboards_no_container (draws : Nat → ℚ) (bs : List Billboard)
    (hb : ∀ b ∈ bs, b.container = none) : updateBillboards draws bs = bs := by
  unfold updateBillboards
  have key : ∀ (bs : List Billboard), (∀ b ∈ bs, b.container = none) → ∀ (l : List Nat),
      l.length = bs.length →
      List.zipWith (fun i b => updateBillboard (draws i) b) l bs = bs := by
    intro bs
    induction bs with
    | nil => intro _ l _; cases l <;> rfl
    | cons b rest ih =>
      intro h l hl
      cases l with
      | nil => simp at hl
      | cons i l =>
        rw [List.zipWith_cons_cons, ih (fun c hc => h c (List.mem_cons_of_mem _ hc)) l
          (by simpa using hl)]
        have hn : b.container = none := h b (List.mem_cons_self _ _)
        unfold updateBillboard
        rw [hn]
  exact key bs hb _ (List.length_range _)

theorem setupCamera_no_container (s : Scene) (hb : ∀ b ∈ s.billboards, b.container = none) :
    setupCamera s = s := by
  unfold setupCamera
  have hf : s.billboards.filter (fun b => b.container.isSome) = [] := by
    rw [List.filter_eq_nil_iff]
    intro b hmem
    rw [hb b hmem]
    simp
  simp only [hf, List.length_nil, gt_iff_lt, lt_self_iff_false, and_false, if_false]

theorem ticks_billboards_no_container (draws : Nat → Nat → ℚ) (s : Scene)
    (hb : ∀ b ∈ s.billboards, b.container = none) (n : Nat) :
    (ticks draws n s).billboards = s.billboards := by
  induction n with
  | zero => rfl
  | succ n ih =>
    show updateBillboards (draws n) (ticks draws n s).billboards = s.billboards
    rw [ih]
    exact updateBillboards_no_container _ _ hb

/-- C28: every billboard record that `createBillboards` builds has no `container`
(whatever the environment, the faults and the viewport).  While `billboards`
holds only records without a container, `update` leaves every billboard record
as it is whatever `Math.random()` returns, on one tick and over any number of
ticks (the flicker branch, the only place `update` changes a billboard's alpha,
is never taken), and `setupCamera` changes nothing: it registers no tween. -/
theorem C28_no_container_no_flicker (s : Scene)
    (hb : ∀ b ∈ s.billboards, b.container = none) :
    (∀ (env : SceneEnv) (f : Faults) (t : Scene),
      ∀ b ∈ (createBillboards env f t).billboards, b.container = none) ∧
    (∀ (draw : ℚ), ∀ b ∈ s.billboards, updateBillboard draw b = b) ∧
    (∀ (draws : Nat → ℚ), (update draws s).billboards = s.billboards) ∧
    (∀ (draws : Nat → Nat → ℚ) (n : Nat), (ticks draws n s).billboards = s.billboards) ∧
    setupCamera s = s ∧ (setupCamera s).tweens = s.tweens := by
  refine ⟨fun env f t b hmem => (createBillboards_records env f t b hmem).1, ?_, ?_, ?_, ?_, ?_⟩
  · intro draw b hmem
    unfold updateBillboard
    rw [hb b hmem]
  · intro draws
    exact updateBillboards_no_container draws s.billboards hb
  · intro draws n
    exact ticks_billboards_no_container draws s hb n
  · exact setupCamera_no_container s hb
  · rw [setupCamera_no_container s hb]

/-- C28 at the three billboards that `createBillboards` builds in the 1200×600
scene when nothing fails. -/
theorem C28_no_container_no_flicker_witness :
    (createBillboards plainEnv Faults.none emptyScene).billboards.length = 3 ∧
    (∀ (draws : Nat → Nat → ℚ) (n : Nat),
      (ticks draws n (createBillboards plainEnv Faults.none emptyScene)).billboards =
        (createBillboards plainEnv Faults.none emptyScene).billboards) ∧
    (setupCamera (createBillboards plainEnv Faults.none emptyScene)).tweens =
      (createBillboards plainEnv Faults.none emptyScene).tweens :=
  have h := C28_no_container_no_flicker (createBillboards plainEnv Faults.none emptyScene)
    (fun b hmem => (createBillboards_records plainEnv Faults.none emptyScene b hmem).1)
  have hl := (createBillboards_titles plainEnv Faults.none emptyScene (fun _ => rfl)).2
  ⟨by
    rw [hl]
    have hm : decide (emptyScene.width < 768) = false := by
      simp only [emptyScene]
      norm_num
    rw [hm, displayCards_cardData.2]
    rfl, h.2.2.2.1, h.2.2.2.2.2⟩

/-! ## Vehicles: what `update` draws does not depend on the colour picked -/

theorem updateVehicle_body_colour (width : ℚ) (v : Vehicle) :
    (updateVehicle width v).graphics.cmds.head? = some (.fillStyle v.type.colors[0]? 1) := by
  by_cases hcar : v.type.type = "car" <;>
    simp only [updateVehicle, hcar, if_true, if_false] <;>
    split_ifs <;> rfl

theorem updateVehicle_forgets_cmds (width : ℚ) (v : Vehicle) (cs : List DrawCmd) :
    updateVehicle width { v with graphics := { v.graphics with cmds := cs } } =
      updateVehicle width v := rfl

theorem createVehicle_colour_draw (rand rand2 : Nat → ℚ)
    (hsame : ∀ k, k % 3 ≠ 1 → rand k = rand2 k) (width height : ℚ) (i : Nat) :
    (createVehicle rand width height i).map
        (fun v => (v.x, v.y, v.direction, v.speed, v.type)) =
      (createVehicle rand2 width height i).map
        (fun v => (v.x, v.y, v.direction, v.speed, v.type)) ∧
    ∀ w, (createVehicle rand width height i).map (updateVehicle w) =
      (createVehicle rand2 width height i).map (updateVehicle w) := by
  unfold createVehicle
  rw [← hsame (3 * i) (by omega), ← hsame (3 * i + 2) (by omega)]
  cases jsIndex vehicleTypes (rand (3 * i) * vehicleTypes.length) with
  | none => exact ⟨rfl, fun _ => rfl⟩
  | some vehicleType =>
    simp only [Option.map_some']
    refine ⟨trivial, fun w => ?_⟩
    by_cases hcar : vehicleType.type = "car"
    · simp only [hcar, if_true]
      rfl
    · simp only [hcar, if_false]
      rfl

theorem pushVehicles_related (U : Vehicle → Vehicle) (b1 b2 : Nat → Option Vehicle)
    (hb : ∀ i, (b1 i).map U = (b2 i).map U) :
    ∀ (l : List Nat) (acc1 acc2 : List Vehicle), acc1.map U = acc2.map U →
      (pushVehicles b1 l acc1).hasThrown = (pushVehicles b2 l acc2).hasThrown ∧
      (pushVehicles b1 l acc1).state.map U = (pushVehicles b2 l acc2).state.map U := by
  intro l
  induction l with
  | nil => intro acc1 acc2 h; exact ⟨rfl, h⟩
  | cons i rest ih =>
    intro acc1 acc2 h
    have hi := hb i
    unfold pushVehicles
    cases h1 : b1 i with
    | none =>
      rw [h1] at hi
      cases h2 : b2 i with
      | none => exact ⟨rfl, h⟩
      | some v2 => rw [h2] at hi; simp at hi
    | some v1 =>
      rw [h1] at hi
      cases h2 : b2 i with
      | none => rw [h2] at hi; simp at hi
      | some v2 =>
        rw [h2] at hi
        simp only [Option.map_some', Option.some.injEq] at hi
        exact ih (acc1 ++ [v1]) (acc2 ++ [v2]) (by simp [h, hi])

theorem createVehicles_state (rand : Nat → ℚ) (s : Scene) :
    (createVehicles rand s).state =
      { s with vehicles :=
          (pushVehicles (createVehicle rand s.width s.height) (List.range 4) []).state } ∧
    (createVehicles rand s).hasThrown =
      (pushVehicles (createVehicle rand s.width s.height) (List.range 4) []).hasThrown := by
  unfold createVehicles
  cases pushVehicles (createVehicle rand s.width s.height) (List.range 4) [] <;> exact ⟨rfl, rfl⟩

theorem ticks_succ_vehicles (draws : Nat → Nat → ℚ) (n : Nat) (s : Scene) :
    (ticks draws (n + 1) s).vehicles = (ticks draws n s).vehicles.map (updateVehicle s.width) := by
  show (ticks draws n s).vehicles.map (updateVehicle (ticks draws n s).width) = _
  rw [ticks_width]

/-- C30: the colour that `createVehicles` picks at random is not stored in the
vehicle record: the fields x, y, direction, speed and type of the record built
for loop index i are the same for any two sequences of `Math.random()` draws
that differ only in the colour draws (the second draw of each pass), and the
colour only occurs in the drawing calls made at creation, which `update` clears.
Every `update` tick begins the redraw with `fillStyle(type.colors[0], 1)`, the
fill of the vehicle body.  Hence two runs of `createVehicles` that differ only
in the colours picked end alike (both normally or both by an exception) and
their vehicle records, graphics included, are the same after one tick and after
any larger number of ticks. -/
theorem C30_colour_pick_not_observable (rand rand2 : Nat → ℚ)
    (hsame : ∀ k, k % 3 ≠ 1 → rand k = rand2 k) (s : Scene) :
    (∀ i, (createVehicle rand s.width s.height i).map
        (fun v => (v.x, v.y, v.direction, v.speed, v.type)) =
      (createVehicle rand2 s.width s.height i).map
        (fun v => (v.x, v.y, v.direction, v.speed, v.type))) ∧
    (∀ (w : ℚ) (v : Vehicle),
      (updateVehicle w v).graphics.cmds.head? = some (.fillStyle v.type.colors[0]? 1)) ∧
    (∀ (w : ℚ) (v : Vehicle) (cs : List DrawCmd),
      updateVehicle w { v with graphics := { v.graphics with cmds := cs } } =
        updateVehicle w v) ∧
    (createVehicles rand s).hasThrown = (createVehicles rand2 s).hasThrown ∧
    (∀ (draws : Nat → ℚ), (update draws (createVehicles rand s).state).vehicles =
      (update draws (createVehicles rand2 s).state).vehicles) ∧
    (∀ (draws : Nat → Nat → ℚ) (n : Nat),
      (ticks draws (n + 1) (createVehicles rand s).state).vehicles =
        (ticks draws (n + 1) (createVehicles rand2 s).state).vehicles) := by
  obtain ⟨hthrown, hstate⟩ := pushVehicles_related (updateVehicle s.width)
    (createVehicle rand s.width s.height) (createVehicle rand2 s.width s.height)
    (fun i => (createVehicle_colour_draw rand rand2 hsame s.width s.height i).2 s.width)
    (List.range 4) [] [] rfl
  have hone : (createVehicles rand s).state.vehicles.map (updateVehicle s.width) =
      (createVehicles rand2 s).state.vehicles.map (updateVehicle s.width) := by
    rw [(createVehicles_state rand s).1, (createVehicles_state rand2 s).1]
    exact hstate
  have hw1 : (createVehicles rand s).state.width = s.width := by
    rw [(createVehicles_state rand s).1]
  have hw2 : (createVehicles rand2 s).state.width = s.width := by
    rw [(createVehicles_state rand2 s).1]
  refine ⟨fun i => (createVehicle_colour_draw rand rand2 hsame s.width s.height i).1,
    updateVehicle_body_colour, updateVehicle_forgets_cmds, ?_, ?_, ?_⟩
  · rw [(createVehicles_state rand s).2, (createVehicles_state rand2 s).2]
    exact hthrown
  · intro draws
    rw [update_vehicles, update_vehicles, hw1, hw2]
    exact hone
  · intro draws n
    induction n with
    | zero =>
      show (createVehicles rand s).state.vehicles.map
          (updateVehicle (createVehicles rand s).state.width) =
        (createVehicles rand2 s).state.vehicles.map
          (updateVehicle (createVehicles rand2 s).state.width)
      rw [hw1, hw2]
      exact hone
    | succ n ih =>
      rw [ticks_succ_vehicles draws (n + 1), ticks_succ_vehicles draws (n + 1), ih, hw1, hw2]

/-- C30 at the 1200×600 scene for the draws that are all 0 and the draws that
differ from them in the colour draw of the first vehicle (1/2 instead of 0): the
first vehicle is created with the body fill 0xff3366 in one run and 0xffcc00 in
the other, and after one tick the vehicle records of the two runs are equal. -/
theorem C30_colour_pick_not_observable_witness :
    (createVehicle drawsAllZero 1200 600 0).map (fun v => v.graphics.cmds.head?) =
      some (some (.fillStyle (some 0xff3366) 1)) ∧
    (createVehicle drawsColourHalf 1200 600 0).map (fun v => v.graphics.cmds.head?) =
      some (some (.fillStyle (some 0xffcc00) 1)) ∧
    (update drawsAllZero (createVehicles drawsAllZero emptyScene).state).vehicles =
      (update drawsAllZero (createVehicles drawsColourHalf emptyScene).state).vehicles := by
  have h := C30_colour_pick_not_observable drawsAllZero drawsColourHalf
    (fun k hk => by
      have h1 : k ≠ 1 := fun e => hk (by rw [e])
      simp [drawsAllZero, drawsColourHalf, h1]) emptyScene
  refine ⟨?_, ?_, h.2.2.2.2.1 drawsAllZero⟩
  · simp [createVehicle, drawsAllZero, jsIndex, vehicleTypes, carShapeAtCreation, Graphics.draw,
      Graphics.fresh]
  · norm_num [createVehicle, drawsColourHalf, jsIndex, vehicleTypes, carShapeAtCreation,
      Graphics.draw, Graphics.fresh]
    rfl

/-! ## Vehicles: the range between the wrap bounds -/

theorem updateVehicle_range (width : ℚ) (v : Vehicle) (hs : 0 ≤ v.speed)
    (hx : -v.type.width ≤ v.x ∧ v.x ≤ width + v.type.width) :
    -(updateVehicle width v).type.width ≤ (updateVehicle width v).x ∧
    (updateVehicle width v).x ≤ width + (updateVehicle width v).type.width := by
  rw [(updateVehicle_fields width v).2.2.1, updateVehicle_x]
  obtain ⟨h1, h2⟩ := hx
  split_ifs with hc hd
  · constructor <;> linarith
  · constructor <;> linarith
  · push_neg at hc
    rcases lt_trichotomy v.direction 0 with hneg | hzero | hpos
    · have hb := hc.2 hneg
      have hm : v.speed * v.direction ≤ 0 := mul_nonpos_of_nonneg_of_nonpos hs hneg.le
      constructor <;> linarith
    · rw [hzero, mul_zero, add_zero]
      exact ⟨h1, h2⟩
    · have hb := hc.1 hpos
      have hm : 0 ≤ v.speed * v.direction := mul_nonneg hs hpos.le
      constructor <;> linarith

theorem createVehicle_speed (rand : Nat → ℚ) (width height : ℚ) (i : Nat) (v : Vehicle)
    (h : createVehicle rand width height i = some v) :
    v.speed = 1 + rand (3 * i + 2) * 1.5 := by
  unfold createVehicle at h
  cases hj : jsIndex vehicleTypes (rand (3 * i) * vehicleTypes.length) with
  | none => rw [hj] at h; simp at h
  | some vehicleType =>
    rw [hj] at h
    simp only [Option.some.injEq] at h
    rw [← h]

theorem createVehicle_range (rand : Nat → ℚ) (hr : ∀ k, 0 ≤ rand k ∧ rand k < 1)
    (width height : ℚ) (hw : 0 ≤ width) (i : Nat) :
    ∃ v, createVehicle rand width height i = some v ∧
      0 ≤ v.speed ∧ -v.type.width ≤ v.x ∧ v.x ≤ width + v.type.width := by
  obtain ⟨v, e, _, _, hx, hty⟩ := createVehicle_some rand hr width height i
  have hsp := createVehicle_speed rand width height i v e
  have h0 := (hr (3 * i + 2)).1
  have htw : v.type.width = 50 := by
    simp only [vehicleTypes, List.mem_cons, List.mem_singleton, List.not_mem_nil,
      or_false] at hty
    rcases hty with h | h <;> rw [h]
  refine ⟨v, e, ?_, ?_, ?_⟩
  · rw [hsp]
    have : 0 ≤ rand (3 * i + 2) * 1.5 := mul_nonneg h0 (by norm_num)
    linarith
  · rw [hx, htw]
    split <;> linarith
  · rw [hx, htw]
    split <;> linarith

theorem createVehicles_range (rand : Nat → ℚ) (hr : ∀ k, 0 ≤ rand k ∧ rand k < 1)
    (s : Scene) (hw : 0 ≤ s.width) :
    ∀ v ∈ (createVehicles rand s).state.vehicles,
      0 ≤ v.speed ∧ -v.type.width ≤ v.x ∧ v.x ≤ s.width + v.type.width := by
  obtain ⟨v0, e0, r0⟩ := createVehicle_range rand hr s.width s.height hw 0
  obtain ⟨v1, e1, r1⟩ := createVehicle_range rand hr s.width s.height hw 1
  obtain ⟨v2, e2, r2⟩ := createVehicle_range rand hr s.width s.height hw 2
  obtain ⟨v3, e3, r3⟩ := createVehicle_range rand hr s.width s.height hw 3
  have hc : createVehicles rand s = .done { s with vehicles := [v0, v1, v2, v3] } := by
    unfold createVehicles
    rw [pushVehicles_four _ v0 v1 v2 v3 e0 e1 e2 e3]
  rw [hc]
  intro v hv
  simp only [Run.state, List.mem_cons, List.mem_singleton, List.not_mem_nil, or_false] at hv
  rcases hv with h | h | h | h <;> subst h
  · exact r0
  · exact r1
  · exact r2
  · exact r3

theorem update_vehicles_range (draws : Nat → ℚ) (s : Scene)
    (h : ∀ v ∈ s.vehicles, 0 ≤ v.speed ∧ -v.type.width ≤ v.x ∧ v.x ≤ s.width + v.type.width) :
    ∀ v ∈ (update draws s).vehicles,
      0 ≤ v.speed ∧ -v.type.width ≤ v.x ∧ v.x ≤ s.width + v.type.width := by
  intro v hv
  rw [update_vehicles, List.mem_map] at hv
  obtain ⟨u, hu, huv⟩ := hv
  obtain ⟨hs, hx⟩ := h u hu
  rw [← huv]
  exact ⟨by rw [(updateVehicle_fields s.width u).2.1]; exact hs,
    updateVehicle_range s.width u hs hx⟩

theorem ticks_vehicles_range (draws : Nat → Nat → ℚ) (s : Scene)
    (h : ∀ v ∈ s.vehicles, 0 ≤ v.speed ∧ -v.type.width ≤ v.x ∧ v.x ≤ s.width + v.type.width)
    (n : Nat) :
    ∀ v ∈ (ticks draws n s).vehicles,
      0 ≤ v.speed ∧ -v.type.width ≤ v.x ∧ v.x ≤ s.width + v.type.width := by
  induction n with
  | zero => exact h
  | succ n ih =>
    have hstep := update_vehicles_range (draws n) (ticks draws n s)
      (by rw [ticks_width]; exact ih)
    rw [ticks_width] at hstep
    exact hstep

/-- C25: for a viewport width ≥ 0, one pass of `update` over a vehicle with
speed ≥ 0 that lies in the range -vehicle width ≤ x ≤ width + vehicle width
leaves it in that range (speed and type unchanged), so a scene whose vehicles
all lie in the range has them all in the range after the tick.  With every
`Math.random()` draw in [0, 1), every vehicle that `createVehicles` produces has
speed ≥ 0 and lies in the range, and so does every vehicle after any number of
ticks: none is left beyond the wrap bounds at the end of a tick. -/
theorem C25_vehicle_range_invariant (width : ℚ) (hw : 0 ≤ width) :
    (∀ v : Vehicle, 0 ≤ v.speed → (-v.type.width ≤ v.x ∧ v.x ≤ width + v.type.width) →
      -(updateVehicle width v).type.width ≤ (updateVehicle width v).x ∧
      (updateVehicle width v).x ≤ width + (updateVehicle width v).type.width ∧
      (updateVehicle width v).speed = v.speed ∧ (updateVehicle width v).type = v.type) ∧
    (∀ (draws : Nat → ℚ) (s : Scene), s.width = width →
      (∀ v ∈ s.vehicles, 0 ≤ v.speed ∧ -v.type.width ≤ v.x ∧ v.x ≤ width + v.type.width) →
      ∀ v ∈ (update draws s).vehicles,
        0 ≤ v.speed ∧ -v.type.width ≤ v.x ∧ v.x ≤ width + v.type.width) ∧
    (∀ (rand : Nat → ℚ), (∀ k, 0 ≤ rand k ∧ rand k < 1) → ∀ (s : Scene), s.width = width →
      (createVehicles rand s).state.vehicles.length = 4 ∧
      (∀ v ∈ (createVehicles rand s).state.vehicles,
        0 ≤ v.speed ∧ -v.type.width ≤ v.x ∧ v.x ≤ width + v.type.width) ∧
      ∀ (draws : Nat → Nat → ℚ) (n : Nat),
        ∀ v ∈ (ticks draws n (createVehicles rand s).state).vehicles,
          0 ≤ v.speed ∧ -v.type.width ≤ v.x ∧ v.x ≤ width + v.type.width) := by
  refine ⟨?_, ?_, ?_⟩
  · intro v hs hx
    obtain ⟨a, b⟩ := updateVehicle_range width v hs hx
    exact ⟨a, b, (updateVehicle_fields width v).2.1, (updateVehicle_fields width v).2.2.1⟩
  · intro draws s hsw h
    subst hsw
    exact update_vehicles_range draws s h
  · intro rand hr s hsw
    subst hsw
    have hrange := createVehicles_range rand hr s hw
    have hwid : (createVehicles rand s).state.width = s.width := by
      rw [(createVehicles_state rand s).1]
    refine ⟨?_, hrange, ?_⟩
    · obtain ⟨v0, e0, _⟩ := createVehicle_some rand hr s.width s.height 0
      obtain ⟨v1, e1, _⟩ := createVehicle_some rand hr s.width s.height 1
      obtain ⟨v2, e2, _⟩ := createVehicle_some rand hr s.width s.height 2
      obtain ⟨v3, e3, _⟩ := createVehicle_some rand hr s.width s.height 3
      unfold createVehicles
      rw [pushVehicles_four _ v0 v1 v2 v3 e0 e1 e2 e3]
      rfl
    · intro draws n
      have h := ticks_vehicles_range draws (createVehicles rand s).state
        (by rw [hwid]; exact hrange) n
      rw [hwid] at h
      exact h

/-- C25 at width 1200: the vehicle at the right-hand bound (x = 1250 = 1200 + 50,
speed 1, direction +1) is carried to 1251 and ends the tick at x = -50, within
the range; and the four vehicles that `createVehicles` builds in the 1200×600
scene from draws that are all 0 lie in the range after any number of ticks. -/
theorem C25_vehicle_range_invariant_witness :
    (-(updateVehicle 1200 vehicleAtRightBound).type.width ≤
        (updateVehicle 1200 vehicleAtRightBound).x ∧
      (updateVehicle 1200 vehicleAtRightBound).x ≤
        1200 + (updateVehicle 1200 vehicleAtRightBound).type.width) ∧
    ∀ (draws : Nat → Nat → ℚ) (n : Nat),
      ∀ v ∈ (ticks draws n (createVehicles drawsAllZero emptyScene).state).vehicles,
        -v.type.width ≤ v.x ∧ v.x ≤ 1200 + v.type.width :=
  have h := C25_vehicle_range_invariant 1200 (by norm_num)
  have h1 := h.1 vehicleAtRightBound (by norm_num [vehicleAtRightBound])
    (by norm_num [vehicleAtRightBound])
  have h3 := (h.2.2 drawsAllZero (fun _ => ⟨le_refl 0, by norm_num [drawsAllZero]⟩) emptyScene
    rfl).2.2
  ⟨⟨h1.1, h1.2.1⟩, fun draws n v hv => (h3 draws n v hv).2⟩

/-! ## The display list of `createBillboards`, for every card list -/

theorem findIdx?_first {α : Type} (P : α → Bool) (pre : List α) (c : α) (post : List α)
    (hpre : ∀ x ∈ pre, P x = false) (hc : P c = true) :
    (pre ++ c :: post).findIdx? P = some pre.length ∧
    (pre ++ c :: post).find? P = some c ∧
    (pre ++ c :: post).eraseIdx pre.length = pre ++ post := by
  induction pre with
  | nil => simp [List.findIdx?_cons, hc]
  | cons a rest ih =>
    obtain ⟨h1, h2, h3⟩ := ih (fun x hx => hpre x (List.mem_cons_of_mem _ hx))
    have ha : P a = false := hpre a (List.mem_cons_self _ _)
    refine ⟨?_, ?_, ?_⟩
    · simp [List.findIdx?_cons, ha, List.findIdx?_succ, h1]
    · simp [List.find?_cons, ha, h2]
    · simp [h3]

theorem findIdx?_absent {α : Type} (P : α → Bool) (l : List α)
    (h : ∀ x ∈ l, P x = false) : l.findIdx? P = none ∧ l.find? P = none := by
  induction l with
  | nil => simp
  | cons a rest ih =>
    obtain ⟨h1, h2⟩ := ih (fun x hx => h x (List.mem_cons_of_mem _ hx))
    have ha : P a = false := h a (List.mem_cons_self _ _)
    exact ⟨by simp [List.findIdx?_cons, ha, List.findIdx?_succ, h1],
      by simp [List.find?_cons, ha, h2]⟩

theorem split_at_first {α : Type} (P : α → Bool) (l : List α) :
    (∀ x ∈ l, P x = false) ∨
    ∃ pre c post, l = pre ++ c :: post ∧ (∀ x ∈ pre, P x = false) ∧ P c = true := by
  induction l with
  | nil => left; intro x hx; exact absurd hx (List.not_mem_nil x)
  | cons a rest ih =>
    by_cases ha : P a = true
    · right
      exact ⟨[], a, rest, rfl, fun x hx => absurd hx (List.not_mem_nil x), ha⟩
    · have ha2 : P a = false := by simpa using ha
      rcases ih with h | ⟨pre, c, post, e, hpre, hc⟩
      · left
        intro x hx
        rcases List.mem_cons.mp hx with hx | hx
        · rw [hx]; exact ha2
        · exact h x hx
      · right
        refine ⟨a :: pre, c, post, by rw [e]; rfl, ?_, hc⟩
        intro x hx
        rcases List.mem_cons.mp hx with hx | hx
        · rw [hx]; exact ha2
        · exact hpre x hx

theorem displayCards_with_sponsors (pre : List Card) (c : Card) (post : List Card)
    (hpre : ∀ x ∈ pre, jsIncludes x.title "Sponsors" = false)
    (hc : jsIncludes c.title "Sponsors" = true) :
    displayCards (pre ++ c :: post) true = pre ++ post ∧
    displayCards (pre ++ c :: post) false = pre ++ post ++ [c] := by
  obtain ⟨h1, h2, h3⟩ :=
    findIdx?_first (fun card : Card => jsIncludes card.title "Sponsors") pre c post hpre hc
  unfold displayCards
  simp only [h1, h2, if_true, spliceOne, h3, Bool.false_eq_true, if_false, and_self]

theorem displayCards_without_sponsors (cards : List Card)
    (h : ∀ x ∈ cards, jsIncludes x.title "Sponsors" = false) :
    displayCards cards true = cards.dropLast ∧ displayCards cards false = cards := by
  obtain ⟨h1, h2⟩ :=
    findIdx?_absent (fun card : Card => jsIncludes card.title "Sponsors") cards h
  unfold displayCards
  simp only [h1, h2, if_true, spliceOne, Bool.false_eq_true, if_false, and_self]

/-- C21, as stated for every card list, fails on mobile for a list without a
Sponsors card: of the two cards "About the Jam", "Meet the Jury", neither of
whose titles includes "Sponsors", the mobile display list keeps only "About the
Jam" (`findIndex` returns -1 and `splice(-1, 1)` removes the last card), so the
list is not left unchanged. -/
theorem C21_counterexample_mobile_without_sponsors :
    (∀ x ∈ cardsWithoutSponsors, jsIncludes x.title "Sponsors" = false) ∧
    (displayCards cardsWithoutSponsors true).map (fun card => card.title) = ["About the Jam"] ∧
    displayCards cardsWithoutSponsors true ≠ cardsWithoutSponsors := by
  decide

/-- C21, amended: the display list that `createBillboards` computes, for an
arbitrary card list.  When the list has a card whose title includes "Sponsors",
pre and post being the cards before and after the first such card c: on mobile
the display list is pre followed by post (only c is removed, the order kept), on
desktop it is pre, post, then c.  On desktop the display list is always a
permutation of the cards, and a list without a Sponsors card is left unchanged;
on mobile the last card of a list without a Sponsors card is removed.  For the
configured `cardData`, the list `createBillboards` always starts from, the
mobile display list is the first two cards and the desktop display list is
`cardData` itself, its Sponsors card being the last one already. -/
theorem C21_displayCards_every_list (cards : List Card) :
    (∀ pre c post, cards = pre ++ c :: post →
      (∀ x ∈ pre, jsIncludes x.title "Sponsors" = false) →
      jsIncludes c.title "Sponsors" = true →
      displayCards cards true = pre ++ post ∧ displayCards cards false = pre ++ post ++ [c]) ∧
    ((∀ x ∈ cards, jsIncludes x.title "Sponsors" = false) →
      displayCards cards true = cards.dropLast ∧ displayCards cards false = cards) ∧
    (displayCards cards false).Perm cards ∧
    ((displayCards cardData true).map (fun card => card.title) =
        ["About the Jam", "Meet the Jury"] ∧
      displayCards cardData false = cardData) := by
  refine ⟨?_, displayCards_without_sponsors cards, ?_, by decide⟩
  · intro pre c post e hpre hc
    rw [e]
    exact displayCards_with_sponsors pre c post hpre hc
  · rcases split_at_first (fun card : Card => jsIncludes card.title "Sponsors") cards with
      h | ⟨pre, c, post, e, hpre, hc⟩
    · rw [(displayCards_without_sponsors cards h).2]
    · rw [e, (displayCards_with_sponsors pre c post hpre hc).2, List.append_assoc]
      exact List.Perm.append_left pre (List.perm_append_singleton c post)

/-! ## The desktop layout of `createBillboards` -/

theorem frameGradient_strokedRect (bgX bgY bgWidth : ℚ) (bgHeight : Nat) :
    (frameGradient bgX bgY bgWidth bgHeight).filterMap DrawCmd.strokedRect = [] := by
  unfold frameGradient
  generalize List.range ((bgHeight + 3) / 4) = l
  induction l with
  | nil => rfl
  | cons k rest ih =>
    rw [List.flatMap_cons, List.filterMap_append, ih]
    rfl

theorem createBillboard_desktop (env : SceneEnv) (width height : ℚ) (count index : Nat)
    (card : Card) :
    (createBillboard env width height false count index card).titleX =
      width * (index + 0.5) / count ∧
    (createBillboard env width height false count index card).pole =
      some (width * (index + 0.5) / count - 8, height - 180, 16, 120) ∧
    (createBillboard env width height false count index card).frameOutline =
      some (width * (index + 0.5) / count - 140, height - 180 - 170, 280, 180) := by
  refine ⟨rfl, ?_, ?_⟩
  · simp only [createBillboard, Billboard.pole, Graphics.draw, Graphics.fresh, Bool.false_and,
      Bool.not_false, if_true, Bool.false_eq_true, if_false, Option.some_bind, List.nil_append,
      List.cons_append, List.filterMap_cons, DrawCmd.filledRect, List.filterMap_nil,
      List.head?_cons]
    norm_num
  · simp only [createBillboard, Billboard.frameOutline, Graphics.draw, Graphics.fresh,
      Bool.false_eq_true, if_false, Option.some_bind, List.nil_append, List.filterMap_append,
      frameGradient_strokedRect, List.filterMap_cons, DrawCmd.strokedRect, List.filterMap_nil,
      List.head?_cons]
    norm_num

theorem createBillboards_desktop (env : SceneEnv) (f : Faults) (s : Scene)
    (hw : 768 ≤ s.width) (hf : ∀ i, f.card i = false) :
    (createBillboards env f s).billboards =
      [ createBillboard env s.width s.height false 3 0 cardData[0],
        createBillboard env s.width s.height false 3 1 cardData[1],
        createBillboard env s.width s.height false 3 2 cardData[2] ] := by
  have hm : decide (s.width < 768) = false := by simpa using hw
  rw [createBillboards_billboards env f s hf, hm, displayCards_cardData.2]
  rfl

theorem createBillboards_desktop_getElem (env : SceneEnv) (f : Faults) (s : Scene)
    (hw : 768 ≤ s.width) (hf : ∀ i, f.card i = false) (i : Nat) (b : Billboard)
    (hb : (createBillboards env f s).billboards[i]? = some b) :
    i < 3 ∧ b.titleX = s.width * (i + 0.5) / 3 ∧
    b.pole = some (s.width * (i + 0.5) / 3 - 8, s.height - 180, 16, 120) ∧
    b.frameOutline = some (s.width * (i + 0.5) / 3 - 140, s.height - 180 - 170, 280, 180) := by
  rw [createBillboards_desktop env f s hw hf] at hb
  match i, hb with
  | 0, hb =>
    simp only [List.getElem?_cons_zero, Option.some.injEq] at hb
    rw [← hb]
    exact ⟨by decide, by
      simpa using createBillboard_desktop env s.width s.height 3 0 cardData[0]⟩
  | 1, hb =>
    simp only [List.getElem?_cons_succ, List.getElem?_cons_zero, Option.some.injEq] at hb
    rw [← hb]
    exact ⟨by decide, by
      simpa using createBillboard_desktop env s.width s.height 3 1 cardData[1]⟩
  | 2, hb =>
    simp only [List.getElem?_cons_succ, List.getElem?_cons_zero, Option.some.injEq] at hb
    rw [← hb]
    exact ⟨by decide, by
      simpa using createBillboard_desktop env s.width s.height 3 2 cardData[2]⟩
  | n + 3, hb =>
    simp at hb

theorem desktop_frames_gap (env : SceneEnv) (f : Faults) (s : Scene)
    (hw : 768 ≤ s.width) (hf : ∀ i, f.card i = false) (i : Nat) (b c : Billboard)
    (fb fc : ℚ × ℚ × ℚ × ℚ)
    (hb : (createBillboards env f s).billboards[i]? = some b)
    (hc : (createBillboards env f s).billboards[i + 1]? = some c)
    (hfb : b.frameOutline = some fb) (hfc : c.frameOutline = some fc) :
    fc.1 - (fb.1 + fb.2.2.1) = s.width / 3 - 280 := by
  obtain ⟨_, _, _, h1⟩ := createBillboards_desktop_getElem env f s hw hf i b hb
  obtain ⟨_, _, _, h2⟩ := createBillboards_desktop_getElem env f s hw hf (i + 1) c hc
  rw [hfb] at h1
  rw [hfc] at h2
  simp only [Option.some.injEq] at h1 h2
  rw [h1, h2]
  push_cast
  ring

/-- C22, as stated, fails at the narrowest desktop width: in a 768×600 viewport
the first two billboards are centred at x = 128 and x = 384, so their 280-wide
frames span -12 to 268 and 244 to 524 and overlap by 24 pixels. -/
theorem C22_counterexample_frames_overlap_at_768 :
    768 ≤ narrowDesktopScene.width ∧
    ∃ b c : Billboard,
      (createBillboards plainEnv Faults.none narrowDesktopScene).billboards[0]? = some b ∧
      (createBillboards plainEnv Faults.none narrowDesktopScene).billboards[1]? = some c ∧
      b.titleX = 128 ∧ c.titleX = 384 ∧
      b.frameOutline = some ((-12 : ℚ), (250 : ℚ), (280 : ℚ), (180 : ℚ)) ∧
      c.frameOutline = some ((244 : ℚ), (250 : ℚ), (280 : ℚ), (180 : ℚ)) ∧
      (244 : ℚ) < -12 + 280 := by
  have hw : (768 : ℚ) ≤ narrowDesktopScene.width := le_refl _
  have hl := createBillboards_desktop plainEnv Faults.none narrowDesktopScene hw (fun _ => rfl)
  obtain ⟨t0, _, f0⟩ := createBillboard_desktop plainEnv narrowDesktopScene.width
    narrowDesktopScene.height 3 0 cardData[0]
  obtain ⟨t1, _, f1⟩ := createBillboard_desktop plainEnv narrowDesktopScene.width
    narrowDesktopScene.height 3 1 cardData[1]
  refine ⟨hw,
    createBillboard plainEnv narrowDesktopScene.width narrowDesktopScene.height false 3 0
      cardData[0],
    createBillboard plainEnv narrowDesktopScene.width narrowDesktopScene.height false 3 1
      cardData[1],
    by rw [hl]; rfl, by rw [hl]; rfl, ?_, ?_, ?_, ?_, by norm_num⟩
  · rw [t0]
    norm_num [narrowDesktopScene]
  · rw [t1]
    norm_num [narrowDesktopScene]
  · rw [f0]
    norm_num [narrowDesktopScene]
  · rw [f1]
    norm_num [narrowDesktopScene]

/-- C22, amended: in the desktop layout (width ≥ 768), when no card's
construction fails, `createBillboards` builds three billboards side by side;
billboard i is centred at x = width × (i + 0.5) / 3 (its title is there and its
pole is the 16 wide rectangle starting at x - 8) with y = height - 180 (the top
of the pole), and its frame is the 280 wide, 180 high rectangle starting at
x - 140, y - 170.  The gap between the frames of adjacent billboards is
width / 3 - 280, so adjacent frames do not overlap exactly when width ≥ 840; for
768 ≤ width < 840 they overlap by 280 - width / 3. -/
theorem C22_desktop_layout (env : SceneEnv) (f : Faults) (s : Scene)
    (hw : 768 ≤ s.width) (hf : ∀ i, f.card i = false) :
    (createBillboards env f s).billboards.length = 3 ∧
    (∀ (i : Nat) (b : Billboard), (createBillboards env f s).billboards[i]? = some b →
      b.titleX = s.width * (i + 0.5) / 3 ∧
      b.pole = some (s.width * (i + 0.5) / 3 - 8, s.height - 180, 16, 120) ∧
      b.frameOutline =
        some (s.width * (i + 0.5) / 3 - 140, s.height - 180 - 170, 280, 180)) ∧
    (∀ (i : Nat) (b c : Billboard) (fb fc : ℚ × ℚ × ℚ × ℚ),
      (createBillboards env f s).billboards[i]? = some b →
      (createBillboards env f s).billboards[i + 1]? = some c →
      b.frameOutline = some fb → c.frameOutline = some fc →
      fc.1 - (fb.1 + fb.2.2.1) = s.width / 3 - 280) ∧
    ((∀ (i : Nat) (b c : Billboard) (fb fc : ℚ × ℚ × ℚ × ℚ),
      (createBillboards env f s).billboards[i]? = some b →
      (createBillboards env f s).billboards[i + 1]? = some c →
      b.frameOutline = some fb → c.frameOutline = some fc →
      fb.1 + fb.2.2.1 ≤ fc.1) ↔ 840 ≤ s.width) := by
  have hl := createBillboards_desktop env f s hw hf
  refine ⟨by rw [hl]; rfl,
    fun i b hb => (createBillboards_desktop_getElem env f s hw hf i b hb).2,
    desktop_frames_gap env f s hw hf, ?_, ?_⟩
  · intro h
    have h0 := createBillboards_desktop_getElem env f s hw hf 0 _ (by rw [hl]; rfl)
    have h1 := createBillboards_desktop_getElem env f s hw hf 1 _ (by rw [hl]; rfl)
    have hg := desktop_frames_gap env f s hw hf 0 _ _ _ _ (by rw [hl]; rfl) (by rw [hl]; rfl)
      h0.2.2.2 h1.2.2.2
    have hle := h 0 _ _ _ _ (by rw [hl]; rfl) (by rw [hl]; rfl) h0.2.2.2 h1.2.2.2
    linarith
  · intro h i b c fb fc hb hc hfb hfc
    have hg := desktop_frames_gap env f s hw hf i b c fb fc hb hc hfb hfc
    linarith

/-- C22, amended, at the 1200×600 scene with nothing failing: the three
billboards are centred at x = 200, 600 and 1000, and adjacent frames are 120
apart. -/
theorem C22_desktop_layout_witness :
    (createBillboards plainEnv Faults.none emptyScene).billboards.length = 3 ∧
    (createBillboards plainEnv Faults.none emptyScene).billboards.map (fun b => b.titleX) =
      [200, 600, 1000] ∧
    (∀ (i : Nat) (b c : Billboard) (fb fc : ℚ × ℚ × ℚ × ℚ),
      (createBillboards plainEnv Faults.none emptyScene).billboards[i]? = some b →
      (createBillboards plainEnv Faults.none emptyScene).billboards[i + 1]? = some c →
      b.frameOutline = some fb → c.frameOutline = some fc → fb.1 + fb.2.2.1 ≤ fc.1) := by
  have h := C22_desktop_layout plainEnv Faults.none emptyScene (by norm_num [emptyScene])
    (fun _ => rfl)
  refine ⟨h.1, ?_, h.2.2.2.mpr (by norm_num [emptyScene])⟩
  rw [createBillboards_desktop plainEnv Faults.none emptyScene (by norm_num [emptyScene])
    (fun _ => rfl)]
  simp only [List.map_cons, List.map_nil, createBillboard, Bool.false_eq_true, if_false]
  norm_num [emptyScene]

/-! ## The registered timer events -/

theorem foldl_timeEvents {β : Type} (step : Scene → β → Scene)
    (h : ∀ s b, (step s b).timeEvents = s.timeEvents) (l : List β) (s : Scene) :
    (l.foldl step s).timeEvents = s.timeEvents := by
  induction l generalizing s with
  | nil => rfl
  | cons b rest ih => rw [List.foldl_cons, ih, h]

theorem Run.andThen_timeEvents (r : Run Scene) (g : Scene → Run Scene)
    (hg : ∀ t, (g t).state.timeEvents = t.timeEvents) :
    (r.andThen g).state.timeEvents = r.state.timeEvents := by
  cases r with
  | done s => exact hg s
  | threw s => rfl

theorem Run.andThen_done_timeEvents (r : Run Scene) (g : Scene → Scene)
    (hg : ∀ t, (g t).timeEvents = t.timeEvents) :
    (r.andThen (fun s => .done (g s))).state.timeEvents = r.state.timeEvents :=
  Run.andThen_timeEvents r (fun s => .done (g s)) hg

theorem createPlaceholder_timeEvents (env : AssetEnv) (k : String) (s : Scene) :
    (createPlaceholder env k s).timeEvents = s.timeEvents := by
  unfold createPlaceholder Scene.texturesAdd Scene.logError
  simp only
  split_ifs <;> rfl

theorem cityscapeLayer_timeEvents (env : SceneEnv) (f : Faults) (w h : ℚ) (s : Scene)
    (layer : Nat) : (cityscapeLayer env f w h s layer).timeEvents = s.timeEvents := by
  unfold cityscapeLayer
  simp only
  rw [foldl_timeEvents]
  · split
    · rfl
    · rw [createPlaceholder_timeEvents]
      rfl
  · intro t i
    split <;> rfl

theorem createFallbackSceneStage_timeEvents (f : Faults) (s : Scene) :
    (createFallbackSceneStage f s).state.timeEvents = s.timeEvents := by
  unfold createFallbackSceneStage
  split <;> rfl

theorem createCityscape_timeEvents (env : SceneEnv) (f : Faults) (s : Scene) :
    (createCityscape env f s).state.timeEvents = s.timeEvents := by
  unfold createCityscape
  split
  · unfold createSimplifiedCityscape
    split <;> rfl
  · show ((List.range 3).foldl (cityscapeLayer env f s.width s.height) s).timeEvents = _
    exact foldl_timeEvents _ (fun t i => cityscapeLayer_timeEvents env f _ _ t i) _ s

theorem createStreet_timeEvents (f : Faults) (s : Scene) :
    (createStreet f s).timeEvents = s.timeEvents := by
  unfold createStreet
  split
  · simp only
    split <;> rfl
  · rfl

theorem createVehiclesStage_timeEvents (env : SceneEnv) (f : Faults) (s : Scene) :
    (createVehiclesStage env f s).state.timeEvents = s.timeEvents := by
  unfold createVehiclesStage
  split
  · rfl
  · rw [(createVehicles_state env.vehicleRandom s).1]

theorem createBillboards_timeEvents (env : SceneEnv) (f : Faults) (s : Scene) :
    (createBillboards env f s).timeEvents = s.timeEvents := by
  unfold createBillboards
  simp only
  rw [foldl_timeEvents]
  intro t p
  split <;> rfl

theorem createSponsorsStage_timeEvents (env : SceneEnv) (f : Faults) (s : Scene) :
    (createSponsorsStage env f s).state.timeEvents = s.timeEvents := by
  unfold createSponsorsStage
  split
  · rw [createFallbackSceneStage_timeEvents]
    rfl
  · show (if s.texturesExists "airplane" = true then s
      else createPlaceholder env.assets "airplane" s).timeEvents = s.timeEvents
    split
    · rfl
    · exact createPlaceholder_timeEvents _ _ _

theorem setupCamera_timeEvents (s : Scene) : (setupCamera s).timeEvents = s.timeEvents := by
  unfold setupCamera
  simp only
  split <;> rfl

theorem adjustForResizeStages_timeEvents (env : SceneEnv) (f : Faults) (s : Scene) :
    (adjustForResizeStages env f s).state.timeEvents = s.timeEvents := by
  unfold adjustForResizeStages
  simp only
  split
  · rfl
  · rw [Run.andThen_done_timeEvents _ _ setupCamera_timeEvents,
      Run.andThen_timeEvents _ _ (createSponsorsStage_timeEvents env f),
      Run.andThen_done_timeEvents _ _ (createBillboards_timeEvents env f),
      Run.andThen_done_timeEvents _ _ (createStreet_timeEvents f),
      createCityscape_timeEvents]

theorem adjustForResize_timeEvents (env : SceneEnv) (f : Faults) (width height : ℚ)
    (s : Scene) : (adjustForResize env f width height s).state.timeEvents = s.timeEvents := by
  have h := adjustForResizeStages_timeEvents env f s
  unfold adjustForResize
  cases hr : adjustForResizeStages env f s with
  | done t =>
    rw [hr] at h
    exact h
  | threw t =>
    rw [hr] at h
    simp only
    rw [createFallbackSceneStage_timeEvents]
    exact h

theorem createStages_timeEvents (env : SceneEnv) (f : Faults) (s : Scene) :
    (createStages env f s).state.timeEvents =
      (if (createStages env f s).hasThrown then s.timeEvents
       else s.timeEvents ++
        [{ delay := airplaneSpawnInterval, callback := "spawnAirplane", loop := true }]) := by
  unfold createStages
  generalize hpre : (((((((if f.sky then Run.threw s
      else Run.done
        (if s.texturesExists "sky" then s
         else s.logError "Sky texture does not exist, using fallback")).andThen
    (createCityscape env f)).andThen
    (fun s => .done (createStreet f s))).andThen
    (createVehiclesStage env f)).andThen
    (fun s => .done (createBillboards env f s))).andThen
    (createSponsorsStage env f)).andThen
    (fun s => .done (setupCamera s))) = pre
  have hp : pre.state.timeEvents = s.timeEvents := by
    rw [← hpre, Run.andThen_done_timeEvents _ _ setupCamera_timeEvents,
      Run.andThen_timeEvents _ _ (createSponsorsStage_timeEvents env f),
      Run.andThen_done_timeEvents _ _ (createBillboards_timeEvents env f),
      Run.andThen_timeEvents _ _ (createVehiclesStage_timeEvents env f),
      Run.andThen_done_timeEvents _ _ (createStreet_timeEvents f),
      Run.andThen_timeEvents _ _ (createCityscape_timeEvents env f)]
    split
    · rfl
    · show (if s.texturesExists "sky" = true then s
        else s.logError "Sky texture does not exist, using fallback").timeEvents = _
      split <;> rfl
  cases pre with
  | threw t => exact hp
  | done t =>
    simp only [Run.andThen]
    split
    · exact hp
    · simp only [Run.state, Run.hasThrown, Bool.false_eq_true, if_false]
      rw [← hp]
      rfl

theorem create_timeEvents (env : SceneEnv) (f : Faults) (s : Scene) :
    (create env f s).state.timeEvents =
      (if (createStages env f s).hasThrown then s.timeEvents
       else s.timeEvents ++
        [{ delay := airplaneSpawnInterval, callback := "spawnAirplane", loop := true }]) := by
  have h := createStages_timeEvents env f s
  unfold create
  cases hr : createStages env f s with
  | done t =>
    rw [hr] at h
    exact h
  | threw t =>
    rw [hr] at h
    simp only
    rw [createFallbackSceneStage_timeEvents]
    exact h

theorem createStages_none_done (env : SceneEnv)
    (hr : ∀ k, 0 ≤ env.vehicleRandom k ∧ env.vehicleRandom k < 1) (s : Scene) :
    (createStages env Faults.none s).hasThrown = false := by
  obtain ⟨s2, e2, _, _⟩ := createCityscape_frame env Faults.none
    (if s.texturesExists "sky" then s
      else s.logError "Sky texture does not exist, using fallback") rfl
  obtain ⟨vs, e3⟩ := createVehicles_done env.vehicleRandom hr s2
  obtain ⟨s5, e5, _⟩ := createSponsorsStage_frame env Faults.none
    (createBillboards env Faults.none { s2 with vehicles := vs }) rfl
  unfold createStages
  simp only [Faults.none, Bool.false_eq_true, if_false]
  simp only [Faults.none] at e2 e5
  rw [Run.andThen, e2]
  simp only [Run.andThen, createStreet, createVehiclesStage, Bool.false_eq_true, if_false]
  rw [e3]
  simp only [e5]
  rfl

/-- C23: `adjustForResize` leaves the registered timer events as they were,
whatever fails on the way: it neither removes the spawn timer nor registers
another.  `create()` registers at most one timer event, the looping event with
delay `airplaneSpawnInterval` = 8000 ms and callback `spawnAirplane`, and
registers exactly that one when its `try` block runs to the end, as it does when
nothing fails and the `Math.random()` draws lie in [0, 1); a later
`adjustForResize` leaves that event in place.  `update`, `createSponsors` and
`createFallbackScene` register none. -/
theorem C23_resize_keeps_timer_events (env : SceneEnv) (f : Faults) (width height : ℚ)
    (s : Scene) :
    (adjustForResize env f width height s).state.timeEvents = s.timeEvents ∧
    ((create env f s).state.timeEvents =
      (if (createStages env f s).hasThrown then s.timeEvents
       else s.timeEvents ++ [{ delay := 8000, callback := "spawnAirplane", loop := true }])) ∧
    ((∀ k, 0 ≤ env.vehicleRandom k ∧ env.vehicleRandom k < 1) →
      (create env Faults.none s).state.timeEvents =
        s.timeEvents ++ [{ delay := 8000, callback := "spawnAirplane", loop := true }] ∧
      (adjustForResize env f width height (create env Faults.none s).state).state.timeEvents =
        s.timeEvents ++ [{ delay := 8000, callback := "spawnAirplane", loop := true }]) ∧
    (∀ (draws : Nat → ℚ), (update draws s).timeEvents = s.timeEvents) ∧
    (createSponsors s).timeEvents = s.timeEvents ∧
    (createFallbackScene s).timeEvents = s.timeEvents ∧
    airplaneSpawnInterval = 8000 := by
  refine ⟨adjustForResize_timeEvents env f width height s, create_timeEvents env f s, ?_,
    fun _ => rfl, rfl, rfl, rfl⟩
  intro hr
  have hc : (create env Faults.none s).state.timeEvents =
      s.timeEvents ++ [{ delay := 8000, callback := "spawnAirplane", loop := true }] := by
    rw [create_timeEvents, createStages_none_done env hr s]
    rfl
  exact ⟨hc, by rw [adjustForResize_timeEvents, hc]⟩

/-! ## `adjustForResize` on billboards built by `createBillboards` -/

theorem destroyBillboards_throws (bs : List Billboard)
    (h : ∃ b ∈ bs, ∃ objects, b.content = .texts objects) :
    ∃ rest, destroyBillboards bs = .threw rest ∧ rest.length = bs.length := by
  induction bs with
  | nil =>
    obtain ⟨b, hb, _⟩ := h
    exact absurd hb (List.not_mem_nil b)
  | cons b rest ih =>
    have hcontent : (({ (if b.container.isSome then { b with containerDestroyed := true }
        else b) with titleDestroyed := true } : Billboard)).content = b.content := by
      split <;> rfl
    unfold destroyBillboards
    simp only
    cases hc : b.content with
    | texts objects =>
      rw [hc] at hcontent
      split
      · exact ⟨_, rfl, rfl⟩
      · rename_i obj hobj
        rw [hcontent] at hobj
        exact absurd hobj (by simp)
    | text obj =>
      rw [hc] at hcontent
      have hrest : ∃ c ∈ rest, ∃ objects, c.content = .texts objects := by
        obtain ⟨c, hmem, objects, hobj⟩ := h
        rcases List.mem_cons.mp hmem with e | e
        · rw [e, hc] at hobj
          exact absurd hobj (by simp)
        · exact ⟨c, e, objects, hobj⟩
      obtain ⟨r, hr, hlen⟩ := ih hrest
      split
      · exact ⟨_, rfl, rfl⟩
      · rw [hr]
        exact ⟨_, rfl, by simp [hlen]⟩

theorem adjustForResize_of_threw (env : SceneEnv) (f : Faults) (width height : ℚ) (s : Scene)
    (bs : List Billboard) (h : destroyBillboards s.billboards = .threw bs) :
    adjustForResizeStages env f s = .threw { s with buildings := [], billboards := bs } ∧
    adjustForResize env f width height s =
      createFallbackSceneStage f
        (({ s with buildings := [], billboards := bs } : Scene).logError
          "Error in adjustForResize method:") := by
  have h1 : adjustForResizeStages env f s =
      .threw { s with buildings := [], billboards := bs } := by
    unfold adjustForResizeStages
    simp only [h]
  refine ⟨h1, ?_⟩
  unfold adjustForResize
  rw [h1]

/-- C24: every record that `createBillboards` pushes has an array of text objects
as its content.  When `billboards` holds at least one record whose content is
such an array, `adjustForResize` raises an exception in the billboard teardown
loop: `billboards` is never emptied (it keeps all its records), the airplane
teardown is not reached (`airplanes` is as before) and none of the rebuild calls
runs (textures, cached assets and error log are as before, only the building
images are gone).  The `catch` block then logs the error and calls
`createFallbackScene`, which builds the fallback scene unless it fails itself. -/
theorem C24_resize_fails_in_billboard_teardown (env : SceneEnv) (f : Faults)
    (width height : ℚ) (s : Scene)
    (hb : ∃ b ∈ s.billboards, ∃ objects, b.content = .texts objects) :
    (∀ (env2 : SceneEnv) (f2 : Faults) (t : Scene), ∀ b ∈ (createBillboards env2 f2 t).billboards,
      ∃ objects, b.content = .texts objects) ∧
    ∃ bs thrown, destroyBillboards s.billboards = .threw bs ∧
      bs.length = s.billboards.length ∧
      adjustForResizeStages env f s = .threw thrown ∧
      thrown = { s with buildings := [], billboards := bs } ∧
      thrown.airplanes = s.airplanes ∧ thrown.textures = s.textures ∧
      thrown.localStorage = s.localStorage ∧ thrown.errors = s.errors ∧
      adjustForResize env f width height s =
        createFallbackSceneStage f (thrown.logError "Error in adjustForResize method:") ∧
      (f.fallbackScene = false →
        adjustForResize env f width height s =
          .done (createFallbackScene (thrown.logError "Error in adjustForResize method:"))) := by
  refine ⟨fun env2 f2 t b hmem => (createBillboards_records env2 f2 t b hmem).2, ?_⟩
  obtain ⟨bs, hthrew, hlen⟩ := destroyBillboards_throws s.billboards hb
  obtain ⟨h1, h2⟩ := adjustForResize_of_threw env f width height s bs hthrew
  refine ⟨bs, { s with buildings := [], billboards := bs }, hthrew, hlen, h1, rfl, rfl, rfl,
    rfl, rfl, h2, ?_⟩
  intro hf
  rw [h2]
  unfold createFallbackSceneStage
  rw [hf]
  rfl

/-- C24 at the three billboards that `createBillboards` builds in the 1200×600
scene, with nothing failing: `adjustForResize(800, 600)` ends normally, through
its `catch` block, with the error logged, the three billboard records still
there and the two airplanes of the fallback scene. -/
theorem C24_resize_fails_in_billboard_teardown_witness :
    (adjustForResize plainEnv Faults.none 800 600
      (createBillboards plainEnv Faults.none emptyScene)).hasThrown = false ∧
    (adjustForResize plainEnv Faults.none 800 600
      (createBillboards plainEnv Faults.none emptyScene)).state.errors =
      (createBillboards plainEnv Faults.none emptyScene).errors ++
        ["Error in adjustForResize method:"] ∧
    (adjustForResize plainEnv Faults.none 800 600
      (createBillboards plainEnv Faults.none emptyScene)).state.billboards.length = 3 ∧
    (adjustForResize plainEnv Faults.none 800 600
      (createBillboards plainEnv Faults.none emptyScene)).state.airplanes.length = 2 := by
  have hl := createBillboards_desktop plainEnv Faults.none emptyScene
    (by norm_num [emptyScene]) (fun _ => rfl)
  obtain ⟨_, bs, thrown, _, hlen, _, hthrown, _, _, _, _, _, hdone⟩ :=
    C24_resize_fails_in_billboard_teardown plainEnv Faults.none 800 600
      (createBillboards plainEnv Faults.none emptyScene)
      ⟨createBillboard plainEnv emptyScene.width emptyScene.height false 3 0 cardData[0],
        by rw [hl]; exact List.mem_cons_self _ _, _, rfl⟩
  rw [hdone rfl, hthrown]
  refine ⟨rfl, rfl, ?_, rfl⟩
  show bs.length = 3
  rw [hlen, hl]
  rfl

end VibeJam
